import Mathlib

/-!
# SolarCalculator: a shallow embedding of `SolarCalculator.cpp`

The C++ `double` is idealised as an exact number.  Functions that use only
field operations, comparisons and `floor` are written over an arbitrary
linearly ordered field with a floor function, so that they run on `ℚ` and can
be composed with the trigonometric code on `ℝ`.  Functions that call
`sin`, `cos`, `tan`, `asin`, `acos`, `atan2` are written over `ℝ`.

A `double` that can be NaN (or another non-finite value) in
`calcSunriseSunset` is an `Option ℝ`, with `none` for "not a finite number".
The C `int` arguments are integers, and the `int` arithmetic of
`calcJulianDay` is that of a 32-bit two's complement `int` (`wrapInt`).

Where a claim is about exact equality of doubles, the function is also given
with every operation rounded to a double (`roundDouble`,
`interpolateCoordinatesDouble`, `between0And1Double`).
-/

namespace SolarCalculator

/-! ## Arithmetic helpers of the C library -/

section Field

variable {α : Type*} [LinearOrderedField α]

/-- The C conversion of a comparison result to a number: `1` when it holds, `0` otherwise. -/
def ind (p : Prop) [Decidable p] : α := if p then 1 else 0

/-- Source lines 8-11: `n + (n < 0) - (n > 1)`. -/
def between0And1 (n : α) : α :=
  n + ind (n < 0) - ind (n > 1)

/-- Source lines 13-23.  The two `if` branches change `y1` or `y3`; the pair holds the
values of `y1` and `y3` after them. -/
def interpolateCoordinates (n y1 y2 y3 : α) : α :=
  let p : α × α :=
    if (decide (y1 < 0) != decide (y2 < 0)) && decide (|y1| > 25) then
      (y1 + (ind (y1 < 0) - ind (y2 < 0)) * 360, y3)
    else if (decide (y3 < 0) != decide (y2 < 0)) && decide (|y3| > 25) then
      (y1, y3 + (ind (y3 < 0) - ind (y2 < 0)) * 360)
    else
      (y1, y3)
  let a := y2 - p.1
  let b := p.2 - y2
  let c := b - a
  y2 + n * (a + b + n * c) / 2

/-- Source lines 25-28. -/
def fractionalDay (hour minute second : ℤ) : α :=
  ((hour : α) + (minute : α) / 60.0 + (second : α) / 3600.0) / 24

/-- Source lines 42-45. -/
def calcJulianCent (JD : α) : α :=
  (JD - 2451545) / 36525

/-- Source lines 47-51. -/
def calcJulianCentSplit (JD m : α) : α :=
  let T := calcJulianCent JD
  T + m / 36525

/-- Source lines 58-61. -/
def calcGeomMeanAnomalySun (T : α) : α :=
  357.52911 + T * (35999.05029 - 0.0001537 * T)

/-- Source lines 63-66. -/
def calcEccentricityEarthOrbit (T : α) : α :=
  0.016708634 - T * (0.000042037 + 0.0000001267 * T)

/-- Source lines 98-101. -/
def calcMeanObliquityOfEcliptic (T : α) : α :=
  23 + (26 + (21.448 - T * (46.815 + T * (0.00059 - 0.001813 * T))) / 60) / 60

/-- Source lines 289-293: the branch `2015 < y`. -/
def deltaTAfter2015 (y : α) : α :=
  let t := y - 2015
  67.62 + 0.3645 * t + 0.0039755 * t ^ 2

/-- Source lines 294-298: the branch `2005 <= y && y <= 2015`. -/
def deltaT2005 (y : α) : α :=
  let t := y - 2005
  64.69 + 0.2930 * t

/-- Source lines 299-304: the branch `1986 <= y && y <= 2005`. -/
def deltaT1986 (y : α) : α :=
  let t := y - 2000
  63.86 + 0.3345 * t - 0.060374 * t ^ 2 + 0.0017275 * t ^ 3 + 0.000651814 * t ^ 4 +
    0.00002373599 * t ^ 5

/-- Source lines 305-309: the branch `1961 <= y && y <= 1986`. -/
def deltaT1961 (y : α) : α :=
  let t := y - 1975
  45.45 + 1.067 * t - t ^ 2 / 260 - t ^ 3 / 718

/-- Source lines 310-314: the branch `1941 <= y && y <= 1961`. -/
def deltaT1941 (y : α) : α :=
  let t := y - 1950
  29.07 + 0.407 * t - t ^ 2 / 233 + t ^ 3 / 2547

/-- Source lines 315-319: the branch `1920 <= y && y <= 1941`. -/
def deltaT1920 (y : α) : α :=
  let t := y - 1920
  21.20 + 0.84493 * t - 0.076100 * t ^ 2 + 0.0020936 * t ^ 3

/-- Source lines 320-324: the branch `1900 <= y && y <= 1920`. -/
def deltaT1900 (y : α) : α :=
  let t := y - 1900
  (-2.79) + 1.494119 * t - 0.0598939 * t ^ 2 + 0.0061966 * t ^ 3 - 0.000197 * t ^ 4

/-- Source lines 325-330: the branch `1860 <= y && y <= 1900`. -/
def deltaT1860 (y : α) : α :=
  let t := y - 1860
  7.62 + 0.5737 * t - 0.251754 * t ^ 2 + 0.01680668 * t ^ 3 - 0.0004473624 * t ^ 4 +
    t ^ 5 / 233174

/-- Source lines 331-336: the branch `1800 <= y && y <= 1860`. -/
def deltaT1800 (y : α) : α :=
  let t := y - 1800
  13.72 - 0.332447 * t + 0.0068612 * t ^ 2 + 0.0041116 * t ^ 3 - 0.00037436 * t ^ 4 +
    0.0000121272 * t ^ 5 - 0.0000001699 * t ^ 6 + 0.000000000875 * t ^ 7

/-- Source lines 337-341: the branch `1700 <= y && y <= 1800`. -/
def deltaT1700 (y : α) : α :=
  let t := y - 1700
  8.83 + 0.1603 * t - 0.0059285 * t ^ 2 + 0.00013336 * t ^ 3 - t ^ 4 / 1174000

/-- Source lines 342-346: the branch `1600 <= y && y <= 1700`. -/
def deltaT1600 (y : α) : α :=
  let t := y - 1600
  120 - 0.9808 * t - 0.01532 * t ^ 2 + t ^ 3 / 7129

/-- Source lines 347-352: the branch `500 <= y && y <= 1600`. -/
def deltaT500 (y : α) : α :=
  let u := (y - 1000) / 100
  1574.2 - 556.01 * u + 71.23472 * u ^ 2 + 0.319781 * u ^ 3 - 0.8503463 * u ^ 4 -
    0.005050998 * u ^ 5 + 0.0083572073 * u ^ 6

/-- Source lines 353-358: the branch `-500 <= y && y <= 500`. -/
def deltaTNeg500 (y : α) : α :=
  let u := y / 100
  10583.6 - 1014.41 * u + 33.78311 * u ^ 2 - 5.952053 * u ^ 3 - 0.1798452 * u ^ 4 +
    0.022174192 * u ^ 5 + 0.0090316521 * u ^ 6

/-- Source lines 359-363: the final `else` branch, `y < -500`. -/
def deltaTBeforeNeg500 (y : α) : α :=
  let u := (y - 1820) / 100
  (-20) + 32 * u ^ 2

/-- Source lines 286-364: the branches are tested from the most recent era to the oldest and
the first one whose test holds returns. -/
def calcDeltaT (year month : α) : α :=
  let y := year + (month - 0.5) / 12
  if 2015 < y then deltaTAfter2015 y
  else if 2005 ≤ y ∧ y ≤ 2015 then deltaT2005 y
  else if 1986 ≤ y ∧ y ≤ 2005 then deltaT1986 y
  else if 1961 ≤ y ∧ y ≤ 1986 then deltaT1961 y
  else if 1941 ≤ y ∧ y ≤ 1961 then deltaT1941 y
  else if 1920 ≤ y ∧ y ≤ 1941 then deltaT1920 y
  else if 1900 ≤ y ∧ y ≤ 1920 then deltaT1900 y
  else if 1860 ≤ y ∧ y ≤ 1900 then deltaT1860 y
  else if 1800 ≤ y ∧ y ≤ 1860 then deltaT1800 y
  else if 1700 ≤ y ∧ y ≤ 1800 then deltaT1700 y
  else if 1600 ≤ y ∧ y ≤ 1700 then deltaT1600 y
  else if 500 ≤ y ∧ y ≤ 1600 then deltaT500 y
  else if -500 ≤ y ∧ y ≤ 500 then deltaTNeg500 y
  else deltaTBeforeNeg500 y

variable [FloorRing α]

/-- The C library `fmod`: `x - y * trunc (x / y)`, with the quotient truncated toward zero, so
that the result has the sign of `x`. -/
def fmod (x y : α) : α :=
  x - y * (if 0 ≤ x / y then ((⌊x / y⌋ : ℤ) : α) else ((⌈x / y⌉ : ℤ) : α))

/-- The value of a C `int` operation whose exact result is `n`, for an `int` of 32 bits in
two's complement: `n` reduced modulo `2 ^ 32` into `[-2147483648, 2147483647]`. -/
def wrapInt (n : ℤ) : ℤ := (n + 2147483648) % 4294967296 - 2147483648

/-- Source lines 30-40.  The arguments are values of `int`.  The first two bindings are
`year` and `month` after the `if`.  The four operations `year - 1`, `month + 12`,
`year + 4716` and `month + 1` are made on `int` before the conversion to `double`. -/
def calcJulianDay (year month day : ℤ) : α :=
  let year1 : ℤ := if month ≤ 2 then wrapInt (year - 1) else year
  let month1 : ℤ := if month ≤ 2 then wrapInt (month + 12) else month
  let A : α := ((⌊(year1 : α) / 100.0⌋ : ℤ) : α)
  let B : α := 2 - A + ((⌊A / 4⌋ : ℤ) : α)
  ((⌊365.25 * ((wrapInt (year1 + 4716) : ℤ) : α)⌋ : ℤ) : α) +
    ((⌊30.6001 * ((wrapInt (month1 + 1) : ℤ) : α)⌋ : ℤ) : α) + (day : α) + B - 1524.5

/-- Source lines 53-56. -/
def calcGeomMeanLongSun (T : α) : α :=
  fmod (280.46646 + T * (36000.76983 + 0.0003032 * T)) 360

/-- Source lines 156-161. -/
def calcMeanSiderealTime (JD : α) : α :=
  let T := calcJulianCent JD
  fmod (100.46061837 + T * (36000.770053608 + T * (0.000387933 - T / 38710000))) 360

/-- Source lines 169-173. -/
def calcSiderealTimeInstant (GAST m : α) : α :=
  fmod (GAST + 360.985647 * m) 360

end Field

/-! ## The Gregorian calendar and the integer form of the Julian Day

These definitions are not in the source: they state which dates are valid calendar dates and
give the whole-number part of `calcJulianDay`. -/

/-- A Gregorian leap year: divisible by 4, and not by 100 unless by 400. -/
def isLeapYear (y : ℤ) : Prop := y % 4 = 0 ∧ (y % 100 ≠ 0 ∨ y % 400 = 0)

instance (y : ℤ) : Decidable (isLeapYear y) := by unfold isLeapYear; infer_instance

/-- The number of days of month `m` of year `y` in the Gregorian calendar. -/
def monthLength (y m : ℤ) : ℤ :=
  if m = 2 then (if isLeapYear y then 29 else 28)
  else if m = 4 ∨ m = 6 ∨ m = 9 ∨ m = 11 then 30 else 31

/-- A valid (proleptic) Gregorian date: month in `1..12`, day in `1..monthLength`. -/
def validDate (y m d : ℤ) : Prop := 1 ≤ m ∧ m ≤ 12 ∧ 1 ≤ d ∧ d ≤ monthLength y m

instance (y m d : ℤ) : Decidable (validDate y m d) := by unfold validDate; infer_instance

/-- The lexicographic order on `(year, month, day)`. -/
def dateLE (y1 m1 d1 y2 m2 d2 : ℤ) : Prop :=
  y1 < y2 ∨ (y1 = y2 ∧ (m1 < m2 ∨ (m1 = m2 ∧ d1 ≤ d2)))

instance (y1 m1 d1 y2 m2 d2 : ℤ) : Decidable (dateLE y1 m1 d1 y2 m2 d2) := by
  unfold dateLE; infer_instance

/-- The part of `calcJulianDay` that depends on the (shifted) year only, with the floors of
source lines 37-39 written as integer divisions. -/
def yearDays (Y : ℤ) : ℤ := (1461 * (Y + 4716)) / 4 + (2 - Y / 100 + (Y / 100) / 4)

/-- The value of `calcJulianDay` plus 1524.5 where no `int` operation leaves the range of
`int`, with the floors of source lines 37-39 written as integer divisions (see
`calcJulianDay_eq_jdn`). -/
def jdn (year month day : ℤ) : ℤ :=
  let year1 : ℤ := if month ≤ 2 then year - 1 else year
  let month1 : ℤ := if month ≤ 2 then month + 12 else month
  yearDays year1 + (306001 * (month1 + 1)) / 10000 + day

/-! ## The C library on real numbers -/

open Real in
/-- Modelled from the spec: the `radians` conversion (degrees to radians) that the source
takes from its platform header, which is not part of the source file. -/
noncomputable def radians (deg : ℝ) : ℝ := deg * π / 180

open Real in
/-- Modelled from the spec: the `degrees` conversion (radians to degrees) that the source
takes from its platform header, which is not part of the source file. -/
noncomputable def degrees (rad : ℝ) : ℝ := rad * 180 / π

open Real in
/-- The C library `atan2 (y, x)`: the angle in `(-π, π]` of the point `(x, y)`. -/
noncomputable def atan2 (y x : ℝ) : ℝ :=
  if 0 < x then arctan (y / x)
  else if x < 0 then (if 0 ≤ y then arctan (y / x) + π else arctan (y / x) - π)
  else if 0 < y then π / 2
  else if y < 0 then -(π / 2)
  else 0

/-- The C library `acos`: a number on `[-1, 1]`, NaN (here `none`) outside. -/
noncomputable def acos (x : ℝ) : Option ℝ :=
  if -1 ≤ x ∧ x ≤ 1 then some (Real.arccos x) else none

/-- Division of doubles where the divisor can vanish: the quotient of two finite numbers is
finite exactly when the divisor is not zero (`none` stands for NaN or an infinity). -/
noncomputable def fdiv (a b : ℝ) : Option ℝ :=
  if b = 0 then none else some (a / b)

/-! ## Intermediate calculations (trigonometric) -/

section Trig

open Real

/-- Source lines 68-73. -/
noncomputable def calcSunEqOfCenter (T : ℝ) : ℝ :=
  let M := radians (calcGeomMeanAnomalySun T)
  sin M * (1.914602 - T * (0.004817 + 0.000014 * T)) + sin (2 * M) * (0.019993 - 0.000101 * T) +
    sin (3 * M) * 0.000289

/-- Source lines 75-78. -/
noncomputable def calcSunTrueLong (T : ℝ) : ℝ :=
  calcSunEqOfCenter T + calcGeomMeanLongSun T

/-- Source lines 80-83. -/
noncomputable def calcSunTrueAnomaly (T : ℝ) : ℝ :=
  calcGeomMeanAnomalySun T + calcSunEqOfCenter T

/-- Source lines 85-89. -/
noncomputable def calcSunRadVector (T : ℝ) : ℝ :=
  let v := radians (calcSunTrueAnomaly T)
  let e := calcEccentricityEarthOrbit T
  (1.000001018 * (1 - e * e)) / (1 + e * cos v)

/-- Source lines 91-96. -/
noncomputable def calcSunApparentLong (T : ℝ) : ℝ :=
  let O := calcSunTrueLong T
  let omega := radians (125.04 - 1934.136 * T)
  O - 0.00569 - 0.00478 * sin omega

/-- Source lines 104-110. -/
noncomputable def calcNutationLongitude (T : ℝ) : ℝ :=
  let omega := radians (125.04452 - 1934.136261 * T)
  let L1 := radians (280.4665 + 36000.7698 * T)
  let L2 := radians (218.3165 + 481267.8813 * T)
  (-17.2) * sin omega - 1.32 * sin (2 * L1) - 0.23 * sin (2 * L2) + 0.21 * sin (2 * omega)

/-- Source lines 112-118.  The fourth term is `0.09 * cos(omega)`, as in the source. -/
noncomputable def calcNutationObliquity (T : ℝ) : ℝ :=
  let omega := radians (125.04452 - 1934.136261 * T)
  let L1 := radians (280.4665 + 36000.7698 * T)
  let L2 := radians (218.3165 + 481267.8813 * T)
  9.20 * cos omega + 0.57 * cos (2 * L1) + 0.10 * cos (2 * L2) - 0.09 * cos omega

/-- Source lines 120-125. -/
noncomputable def calcObliquityCorrection1 (T : ℝ) : ℝ :=
  let epsilon0 := calcMeanObliquityOfEcliptic T
  let omega := radians (125.04 - 1934.136 * T)
  epsilon0 + 0.00256 * cos omega

/-- Source lines 127-132. -/
noncomputable def calcObliquityCorrection2 (T : ℝ) : ℝ :=
  let epsilon0 := calcMeanObliquityOfEcliptic T
  let delta_epsilon := calcNutationObliquity T
  epsilon0 + delta_epsilon / 3600

/-- Source lines 134-139. -/
noncomputable def calcSunRtAscension (T : ℝ) : ℝ :=
  let epsilon := radians (calcObliquityCorrection1 T)
  let lambda := radians (calcSunApparentLong T)
  degrees (atan2 (cos epsilon * sin lambda) (cos lambda))

/-- Source lines 141-146.  The argument of `asin` is a product of two sines, so it is in
`[-1, 1]`, where `Real.arcsin` is the arcsine. -/
noncomputable def calcSunDeclination (T : ℝ) : ℝ :=
  let epsilon := radians (calcObliquityCorrection1 T)
  let lambda1 := radians (calcSunApparentLong T)
  degrees (arcsin (sin epsilon * sin lambda1))

/-- Source lines 149-154. -/
noncomputable def calcNutationRtAscension (T : ℝ) : ℝ :=
  let delta_psi := calcNutationLongitude T
  let epsilon := radians (calcObliquityCorrection2 T)
  delta_psi * cos epsilon / 3600

/-- Source lines 163-167. -/
noncomputable def calcApparentSiderealTime (JD : ℝ) : ℝ :=
  let T := calcJulianCent JD
  calcMeanSiderealTime JD + calcNutationRtAscension T

/-- Source lines 204-208.  The argument of `asin` is the cosine of an angular distance on the
sphere, a number in `[-1, 1]`, where `Real.arcsin` is the arcsine. -/
noncomputable def calcSolarElevation (ha decl lat : ℝ) : ℝ :=
  degrees (arcsin (sin (radians lat) * sin (radians decl) +
    cos (radians lat) * cos (radians decl) * cos (radians ha)))

/-- Source lines 240-249. -/
noncomputable def equationOfTime1 (T : ℝ) : ℝ :=
  let e := calcEccentricityEarthOrbit T
  let L := radians (calcGeomMeanLongSun T)
  let M := radians (calcGeomMeanAnomalySun T)
  let epsilon := radians (calcObliquityCorrection2 T)
  let y := tan (epsilon / 2) * tan (epsilon / 2)
  4 * degrees (y * sin (2 * L) - 2 * e * sin M + 4 * e * y * sin M * cos (2 * L) -
    0.5 * y * y * sin (4 * L) - 1.25 * e * e * sin (2 * M))

/-- Source lines 254-265. -/
noncomputable def equationOfTime2 (T : ℝ) : ℝ :=
  let e := calcEccentricityEarthOrbit T
  let L := radians (calcGeomMeanLongSun T)
  let M := radians (calcGeomMeanAnomalySun T)
  let epsilon := radians (calcObliquityCorrection2 T)
  let y := tan (epsilon / 2) * tan (epsilon / 2)
  4 * degrees (0.00000447 * T + 0.00000149 * T * T - 2 * e * sin M - 1.25 * e * e * sin (2 * M) +
    y * sin (2 * L) - 0.5 * y * y * sin (4 * L) + 4 * e * y * sin M * cos (2 * L) +
    2.5 * e * e * y * sin (2 * M) * cos (2 * L) - 4 * e * y * y * sin M * cos (4 * L) -
    8 * e * e * y * sin M * sin M * sin (2 * L))

/-- Source lines 270-279. -/
noncomputable def equationOfTime3 (T : ℝ) : ℝ :=
  let alpha := calcSunRtAscension T
  let delta_psi := calcNutationLongitude T
  let epsilon := radians (calcObliquityCorrection2 T)
  let t := T / 10
  let L0 := fmod (280.4664567 + 360007.6982779 * t + 0.03032028 * (t * t) + (t * t * t) / 49931 -
    (t * t * t * t) / 15300 - (t * t * t * t * t) / 2000000) 360
  4 * (L0 - 0.0057183 - alpha + delta_psi * cos epsilon / 3600)

/-! ## Solar calculator entry points -/

/-- Source lines 374-388.  The `switch` sends `2` and `3` to the second and third formula and
every other selector (`case 1: default:`) to the first. -/
noncomputable def calcEquationOfTime (year month day hour minute second : ℤ) (sel : ℤ) : ℝ :=
  let JD : ℝ := calcJulianDay year month day
  let m : ℝ := fractionalDay hour minute second
  let T := calcJulianCentSplit JD m
  if sel = 2 then equationOfTime2 T
  else if sel = 3 then equationOfTime3 T
  else equationOfTime1 T

/-- The values that `calcSunriseSunset` computes before its correction loop and only reads
inside it (source lines 455-472 and 487). -/
structure DayData where
  alpha1 : ℝ
  delta1 : ℝ
  alpha2 : ℝ
  delta2 : ℝ
  alpha3 : ℝ
  delta3 : ℝ
  theta0 : ℝ
  delta_t : ℝ
  latitude : ℝ
  longitude : ℝ
  h0 : ℝ

/-- The three fractions of a day that the correction loop of `calcSunriseSunset` updates.
`m0` is always a finite number; `m1` and `m2` are `none` when they are not (NaN). -/
structure Fractions where
  m0 : ℝ
  m1 : Option ℝ
  m2 : Option ℝ

/-- Source lines 455-472 and 487. -/
noncomputable def dayData (year month day : ℤ) (latitude longitude altitude : ℝ) : DayData :=
  let JD : ℝ := calcJulianDay year month day
  let T1 := calcJulianCent (JD - 1)
  let T2 := calcJulianCent JD
  let T3 := calcJulianCent (JD + 1)
  { alpha1 := calcSunRtAscension T1
    delta1 := calcSunDeclination T1
    alpha2 := calcSunRtAscension T2
    delta2 := calcSunDeclination T2
    alpha3 := calcSunRtAscension T3
    delta3 := calcSunDeclination T3
    theta0 := calcApparentSiderealTime JD
    delta_t := calcDeltaT (year : ℝ) (month : ℝ)
    latitude := latitude
    longitude := longitude
    h0 := altitude }

/-- Source lines 475-476: the argument of `acos`, not finite when the divisor vanishes. -/
noncomputable def hourAngleArg (d : DayData) : Option ℝ :=
  fdiv (sin (radians d.h0) - sin (radians d.latitude) * sin (radians d.delta2))
    (cos (radians d.latitude) * cos (radians d.delta2))

/-- Source lines 474-476: `H0`, NaN if the body is circumpolar. -/
noncomputable def hourAngle0 (d : DayData) : Option ℝ :=
  ((hourAngleArg d).bind acos).map degrees

/-- Source lines 480-482: the approximate times of transit, rising and setting. -/
noncomputable def approxTimes (d : DayData) (isLocal : Bool) : Fractions :=
  let H0 := hourAngle0 d
  let m0 := between0And1 ((d.alpha2 - d.longitude - d.theta0) / 360)
  { m0 := m0
    m1 := if isLocal then H0.map (fun H => m0 - H / 360)
          else H0.map (fun H => between0And1 (m0 - H / 360))
    m2 := if isLocal then H0.map (fun H => m0 + H / 360)
          else H0.map (fun H => between0And1 (m0 + H / 360)) }

/-- Source lines 493-497: `transit_corr` of one pass of the loop. -/
noncomputable def transitCorr (d : DayData) (m0 : ℝ) : ℝ :=
  let n0 := m0 + d.delta_t / 86400
  let transit_alpha := interpolateCoordinates n0 d.alpha1 d.alpha2 d.alpha3
  let theta00 := calcSiderealTimeInstant d.theta0 m0
  let transit_ha := theta00 + d.longitude - transit_alpha
  (-transit_ha) / 360

/-- Source lines 499-506 (`rise_corr`) and 508-515 (`set_corr`): the same code, run on `m1`
and on `m2`.  The quotient is not finite when the divisor vanishes. -/
noncomputable def horizonCorr (d : DayData) (m : ℝ) : Option ℝ :=
  let n1 := m + d.delta_t / 86400
  let rise_alpha := interpolateCoordinates n1 d.alpha1 d.alpha2 d.alpha3
  let rise_delta := interpolateCoordinates n1 d.delta1 d.delta2 d.delta3
  let theta01 := calcSiderealTimeInstant d.theta0 m
  let rise_ha := theta01 + d.longitude - rise_alpha
  let rise_elev := calcSolarElevation rise_ha rise_delta d.latitude
  fdiv (rise_elev - d.h0)
    (360.0 * cos (radians rise_delta) * cos (radians d.latitude) * sin (radians rise_ha))

/-- Source lines 499-506 and 518, 508-515 and 519: `m + corr` for rising or setting, NaN when
`m` or the correction is. -/
noncomputable def horizonUpdate (d : DayData) (m : Option ℝ) : Option ℝ :=
  m.bind (fun x => (horizonCorr d x).map (fun c => x + c))

/-- Source lines 493-519: one pass of the correction loop. -/
noncomputable def correctionStep (d : DayData) (isLocal : Bool) (s : Fractions) : Fractions :=
  { m0 := between0And1 (s.m0 + transitCorr d s.m0)
    m1 := if isLocal then horizonUpdate d s.m1 else (horizonUpdate d s.m1).map between0And1
    m2 := if isLocal then horizonUpdate d s.m2 else (horizonUpdate d s.m2).map between0And1 }

/-- The results of `calcSunriseSunset`, written through its three reference parameters. -/
structure SunTimes where
  transit : Option ℝ
  sunrise : Option ℝ
  sunset : Option ℝ

/-- Source lines 451-526: the loop runs `num_corr = 2` times. -/
noncomputable def calcSunriseSunset (year month day : ℤ) (latitude longitude : ℝ)
    (altitude : ℝ) (isLocal : Bool) : SunTimes :=
  let d := dayData year month day latitude longitude altitude
  let s := Nat.iterate (correctionStep d isLocal) 2 (approxTimes d isLocal)
  { transit := some s.m0
    sunrise := s.m1
    sunset := s.m2 }

end Trig

/-! ## Interpolation, refraction and era table: the pieces that the later claims name -/

section Pieces

variable {α : Type*} [LinearOrderedField α]

/-- Source lines 19-22: the quadratic through the three samples, on the values that the end
samples `y1` and `y3` have after the `if` of source lines 15-18. -/
def interpolateQuadratic (n y1 y2 y3 : α) : α :=
  let a := y2 - y1
  let b := y3 - y2
  let c := b - a
  y2 + n * (a + b + n * c) / 2

/-- The discontinuity test of the spec on an end sample `y` against the middle sample `y2`:
the two have opposite sign (one is negative and the other is not) and `|y| > 25`. -/
def isDiscontinuous (y y2 : α) : Prop := ¬ (y < 0 ↔ y2 < 0) ∧ |y| > 25

instance (y y2 : α) : Decidable (isDiscontinuous y y2) := by
  unfold isDiscontinuous; infer_instance

/-- The discontinuity correction of the spec on an end sample: `y` moved by 360 toward the
sign of the middle sample `y2` when the test holds, and `y` itself when it does not. -/
def shiftTowardMiddle (y y2 : α) : α :=
  if isDiscontinuous y y2 then (if y < 0 then y + 360 else y - 360) else y

/-- The interpolation in the spec's words, with the discontinuity correction made on each end
sample on its own, to be compared with `interpolateCoordinates`. -/
def interpolateIndependent (n y1 y2 y3 : α) : α :=
  interpolateQuadratic n (shiftTowardMiddle y1 y2) y2 (shiftTowardMiddle y3 y2)

/-- Source lines 289-363: the test of each of the 14 branches of `calcDeltaT` on the fractional
year `y`, in source order, with the value that the branch returns.  The last entry is the
final `else`, whose range the source comment gives as `y < -500`. -/
def eraBranches (y : α) : List (Bool × α) :=
  [(decide (2015 < y), deltaTAfter2015 y),
   (decide (2005 ≤ y ∧ y ≤ 2015), deltaT2005 y),
   (decide (1986 ≤ y ∧ y ≤ 2005), deltaT1986 y),
   (decide (1961 ≤ y ∧ y ≤ 1986), deltaT1961 y),
   (decide (1941 ≤ y ∧ y ≤ 1961), deltaT1941 y),
   (decide (1920 ≤ y ∧ y ≤ 1941), deltaT1920 y),
   (decide (1900 ≤ y ∧ y ≤ 1920), deltaT1900 y),
   (decide (1860 ≤ y ∧ y ≤ 1900), deltaT1860 y),
   (decide (1800 ≤ y ∧ y ≤ 1860), deltaT1800 y),
   (decide (1700 ≤ y ∧ y ≤ 1800), deltaT1700 y),
   (decide (1600 ≤ y ∧ y ≤ 1700), deltaT1600 y),
   (decide (500 ≤ y ∧ y ≤ 1600), deltaT500 y),
   (decide (-500 ≤ y ∧ y ≤ 500), deltaTNeg500 y),
   (decide (y < -500), deltaTBeforeNeg500 y)]

/-- Source line 229: the branch `-0.575 < elev ≤ 5` of `calcRefractionCorr`. -/
def refractionCorrNearHorizon (elev : α) : α :=
  (1735.0 + elev * (-518.2 + elev * (103.4 + elev * (-12.79 + 0.711 * elev)))) / 3600

end Pieces

section MoreTrig

open Real

/-- Source lines 225 and 227: the branch `5 < elev ≤ 85` of `calcRefractionCorr`. -/
noncomputable def refractionCorrAbove5 (elev : ℝ) : ℝ :=
  let te := tan (radians elev)
  (58.1 / te - 0.07 / (te * te * te) + 0.000086 / (te * te * te * te * te)) / 3600

/-- Source lines 225 and 231: the branch `elev ≤ -0.575` of `calcRefractionCorr`. -/
noncomputable def refractionCorrBelow (elev : ℝ) : ℝ :=
  let te := tan (radians elev)
  (-20.774 / te) / 3600

/-- Source lines 219-233.  The quotients are quotients of real numbers: the tangent is not 0
on the branch `5 < elev ≤ 85`, nor at the boundary `-0.575` of the last branch. -/
noncomputable def calcRefractionCorr (elev : ℝ) : ℝ :=
  if elev > 85.0 then 0.0
  else if elev > 5.0 then refractionCorrAbove5 elev
  else if elev > -0.575 then refractionCorrNearHorizon elev
  else refractionCorrBelow elev

/-- Source lines 392-403: the pair `(rt_ascension, declination)` that the function writes
through its two reference parameters. -/
noncomputable def calcEquatorialCoordinates (year month day hour minute second : ℤ) : ℝ × ℝ :=
  let JD : ℝ := calcJulianDay year month day
  let m : ℝ := fractionalDay hour minute second
  let T := calcJulianCentSplit JD m
  (calcSunRtAscension T, calcSunDeclination T)

/-- The nutation in obliquity in the spec's words: the four-term series of Meeus over the
four arguments `Ω`, `2 L1`, `2 L2` and `2 Ω`, in arcseconds, to be compared with
`calcNutationObliquity`. -/
noncomputable def nutationObliquitySeries (T : ℝ) : ℝ :=
  let omega := radians (125.04452 - 1934.136261 * T)
  let L1 := radians (280.4665 + 36000.7698 * T)
  let L2 := radians (218.3165 + 481267.8813 * T)
  9.20 * cos omega + 0.57 * cos (2 * L1) + 0.10 * cos (2 * L2) - 0.09 * cos (2 * omega)

end MoreTrig

/-! ## Double arithmetic: the functions with every operation rounded -/

section Doubles

variable {α : Type*} [LinearOrderedField α] [FloorRing α]

/-- Rounding to the nearest integer, a tie going to the even one. -/
def roundHalfEven (x : α) : ℤ :=
  if 2 * Int.fract x < 1 then ⌊x⌋
  else if 1 < 2 * Int.fract x then ⌊x⌋ + 1
  else if ⌊x⌋ % 2 = 0 then ⌊x⌋ else ⌊x⌋ + 1

/-- The IEEE 754 rounding of the exact result `x` of an operation to a `double` (53-bit
significand, round to nearest, ties to even): with `e` the binary exponent of `x`, not below
the exponent -1022 of the smallest normal double, `x` is rounded to a multiple of
`2 ^ (e - 52)`.  A result of magnitude `2 ^ 1024` or more has no finite double; the theorems
stay below it. -/
def roundDouble (x : α) : α :=
  let e : ℤ := max (Int.log 2 |x|) (-1022)
  (roundHalfEven (x / 2 ^ (e - 52)) : α) * 2 ^ (e - 52)

/-- Source lines 8-11 in double arithmetic: the sum and the difference are rounded. -/
def between0And1Double (n : α) : α :=
  roundDouble (roundDouble (n + ind (n < 0)) - ind (n > 1))

/-- Source lines 13-23 in double arithmetic, on samples that are doubles: every sum,
difference, product and quotient is rounded.  `((y1 < 0) - (y2 < 0)) * 360` is a product of
`int`, exact. -/
def interpolateCoordinatesDouble (n y1 y2 y3 : α) : α :=
  let p : α × α :=
    if (decide (y1 < 0) != decide (y2 < 0)) && decide (|y1| > 25) then
      (roundDouble (y1 + (ind (y1 < 0) - ind (y2 < 0)) * 360), y3)
    else if (decide (y3 < 0) != decide (y2 < 0)) && decide (|y3| > 25) then
      (y1, roundDouble (y3 + (ind (y3 < 0) - ind (y2 < 0)) * 360))
    else
      (y1, y3)
  let a := roundDouble (y2 - p.1)
  let b := roundDouble (p.2 - y2)
  let c := roundDouble (b - a)
  roundDouble (y2 +
    roundDouble (roundDouble (n * roundDouble (roundDouble (a + b) + roundDouble (n * c))) / 2))

end Doubles

/-! ## Lemmas on the arithmetic helpers -/

section FieldLemmas

variable {α : Type*} [LinearOrderedField α]

lemma between0And1_range (n : α) (h1 : -1 ≤ n) (h2 : n < 2) :
    0 ≤ between0And1 n ∧ between0And1 n ≤ 1 ∧ (between0And1 n = 1 ↔ n = 1) := by
  unfold between0And1 ind
  split_ifs with a b b
  · exact absurd (lt_trans b a) (by norm_num)
  · exact ⟨by linarith only [h1], by linarith only [a],
      ⟨fun h => by linarith only [h, a], fun h => by linarith only [h, a]⟩⟩
  · exact ⟨by linarith only [b], by linarith only [h2],
      ⟨fun h => by linarith only [h, h2], fun h => by linarith only [h, b]⟩⟩
  · exact ⟨by linarith only [a], by linarith only [b],
      ⟨fun h => by linarith only [h], fun h => by linarith only [h]⟩⟩

lemma between0And1_of_neg {n : α} (h : n < 0) : between0And1 n = n + 1 := by
  have h1 : ¬ n > 1 := fun h1 => absurd (lt_trans zero_lt_one h1) (not_lt.mpr h.le)
  simp [between0And1, ind, h, h1]

lemma between0And1_of_mem {n : α} (h0 : 0 ≤ n) (h1 : n ≤ 1) : between0And1 n = n := by
  simp [between0And1, ind, not_lt.mpr h0, not_lt.mpr h1]

variable [FloorRing α]

lemma fmod_nonneg_bounds {x y : α} (hy : 0 < y) (hx : 0 ≤ x) :
    0 ≤ fmod x y ∧ fmod x y < y := by
  have hq : 0 ≤ x / y := div_nonneg hx hy.le
  have h1 := mul_le_mul_of_nonneg_left (Int.floor_le (x / y)) hy.le
  have h2 := mul_lt_mul_of_pos_left (Int.lt_floor_add_one (x / y)) hy
  rw [mul_div_cancel₀ x hy.ne'] at h1 h2
  rw [mul_add, mul_one] at h2
  simp only [fmod, if_pos hq]
  exact ⟨sub_nonneg.mpr h1, sub_lt_iff_lt_add'.mpr h2⟩

lemma fmod_neg_bounds {x y : α} (hy : 0 < y) (hx : x < 0) :
    -y < fmod x y ∧ fmod x y ≤ 0 := by
  have hq : ¬ 0 ≤ x / y := not_le.mpr (div_neg_of_neg_of_pos hx hy)
  have h1 := mul_le_mul_of_nonneg_left (Int.le_ceil (x / y)) hy.le
  have h2 := mul_lt_mul_of_pos_left (Int.ceil_lt_add_one (x / y)) hy
  rw [mul_div_cancel₀ x hy.ne'] at h1
  rw [mul_add, mul_one, mul_div_cancel₀ x hy.ne'] at h2
  simp only [fmod, if_neg hq]
  exact ⟨by linarith only [h2], sub_nonpos.mpr h1⟩

/-- The value of `fmod` on a non-negative `x`, from the whole quotient `k`. -/
lemma fmod_eq_of_nonneg {x y : α} (k : ℤ) (hy : 0 < y) (hk : 0 ≤ k)
    (h1 : y * k ≤ x) (h2 : x < y * (k + 1)) : fmod x y = x - y * k := by
  have hx : 0 ≤ x := le_trans (mul_nonneg hy.le (by exact_mod_cast hk)) h1
  have hq : 0 ≤ x / y := div_nonneg hx hy.le
  have hf : ⌊x / y⌋ = k := by
    rw [Int.floor_eq_iff]
    constructor
    · rw [le_div_iff₀ hy, mul_comm]; exact h1
    · rw [div_lt_iff₀ hy, mul_comm]; exact h2
  simp only [fmod, if_pos hq, hf]

/-- The value of `fmod` on a negative `x`, from the whole quotient `k`. -/
lemma fmod_eq_of_neg {x y : α} (k : ℤ) (hy : 0 < y) (hx : x < 0)
    (h1 : y * (k - 1) < x) (h2 : x ≤ y * k) : fmod x y = x - y * k := by
  have hq : ¬ 0 ≤ x / y := not_le.mpr (div_neg_of_neg_of_pos hx hy)
  have hf : ⌈x / y⌉ = k := by
    rw [Int.ceil_eq_iff]
    constructor
    · rw [lt_div_iff₀ hy, mul_comm]; exact h1
    · rw [div_le_iff₀ hy, mul_comm]; exact h2
  simp only [fmod, if_neg hq, hf]

lemma floor_ratio_mul (a b n : ℤ) (hb : 0 < b) :
    ⌊((a : α) / (b : α)) * (n : α)⌋ = (a * n) / b := by
  rw [Int.floor_eq_iff]
  have hb' : (0 : α) < (b : α) := by exact_mod_cast hb
  have h1 : (a * n) / b * b ≤ a * n := Int.ediv_mul_le _ hb.ne'
  have h2 : a * n < ((a * n) / b + 1) * b := Int.lt_ediv_add_one_mul_self _ hb
  have h1' : (((a * n) / b : ℤ) : α) * (b : α) ≤ (a : α) * (n : α) := by exact_mod_cast h1
  have h2' : (a : α) * (n : α) < ((((a * n) / b : ℤ) : α) + 1) * (b : α) := by exact_mod_cast h2
  constructor
  · rw [div_mul_eq_mul_div, le_div_iff₀ hb']; exact h1'
  · rw [div_mul_eq_mul_div, div_lt_iff₀ hb']; exact h2'

/-- An `int` operation whose exact result is in the range of `int` returns that result. -/
lemma wrapInt_of_mem {n : ℤ} (h1 : -2147483648 ≤ n) (h2 : n ≤ 2147483647) : wrapInt n = n := by
  unfold wrapInt; omega

/-- The Julian Day of the source is the integer `jdn` minus 1524.5, for a month in `1..12`
and a year for which `year - 1` and `year + 4716` are in the range of `int`. -/
lemma calcJulianDay_eq_jdn (y m d : ℤ) (hy1 : -2147483647 ≤ y) (hy2 : y ≤ 2147478931)
    (hm1 : 1 ≤ m) (hm2 : m ≤ 12) :
    (calcJulianDay y m d : α) = (jdn y m d : α) - 1524.5 := by
  have w1 : wrapInt (y - 1) = y - 1 := wrapInt_of_mem (by omega) (by omega)
  have w2 : wrapInt (m + 12) = m + 12 := wrapInt_of_mem (by omega) (by omega)
  have w3 : wrapInt ((if m ≤ 2 then y - 1 else y) + 4716) =
      (if m ≤ 2 then y - 1 else y) + 4716 := by
    split_ifs <;> exact wrapInt_of_mem (by omega) (by omega)
  have w4 : wrapInt ((if m ≤ 2 then m + 12 else m) + 1) =
      (if m ≤ 2 then m + 12 else m) + 1 := by
    split_ifs <;> exact wrapInt_of_mem (by omega) (by omega)
  have f1 : ∀ n : ℤ, ⌊(365.25 : α) * (n : α)⌋ = (1461 * n) / 4 := by
    intro n
    have := floor_ratio_mul (α := α) 1461 4 n (by norm_num)
    rw [← this]; congr 2; norm_num
  have f2 : ∀ n : ℤ, ⌊(30.6001 : α) * (n : α)⌋ = (306001 * n) / 10000 := by
    intro n
    have := floor_ratio_mul (α := α) 306001 10000 n (by norm_num)
    rw [← this]; congr 2; norm_num
  have f3 : ∀ n : ℤ, ⌊(n : α) / 100.0⌋ = n / 100 := by
    intro n
    have := floor_ratio_mul (α := α) 1 100 n (by norm_num)
    rw [one_mul] at this
    rw [← this]; congr 1; norm_num; ring
  have f4 : ∀ n : ℤ, ⌊(n : α) / 4⌋ = n / 4 := by
    intro n
    have := floor_ratio_mul (α := α) 1 4 n (by norm_num)
    rw [one_mul] at this
    rw [← this]; congr 1; norm_num; ring
  simp only [calcJulianDay, w1, w2, w3, w4, jdn, yearDays, f1, f2, f3, f4]
  push_cast
  ring

end FieldLemmas

/-! ## The Julian Day on the calendar -/

lemma yearDays_step (Y : ℤ) :
    yearDays Y + 365 ≤ yearDays (Y + 1) ∧ yearDays (Y + 1) ≤ yearDays Y + 366 := by
  unfold yearDays
  have e1 : (1461 * (Y + 4716)) / 4 = 365 * (Y + 4716) + (Y + 4716) / 4 := by omega
  have e2 : (1461 * (Y + 1 + 4716)) / 4 = 365 * (Y + 4717) + (Y + 4717) / 4 := by omega
  rw [e1, e2]
  by_cases h : (Y + 1) % 100 = 0
  · have h4 : (Y + 1) % 4 = 0 := by omega
    have e3 : (Y + 1) / 100 = Y / 100 + 1 := by omega
    have e4 : (Y + 4717) / 4 = (Y + 4716) / 4 + 1 := by omega
    rw [e3, e4]
    omega
  · have e3 : (Y + 1) / 100 = Y / 100 := by omega
    rw [e3]
    omega

lemma yearDays_mono {Y Z : ℤ} (h : Y ≤ Z) : yearDays Y + 365 * (Z - Y) ≤ yearDays Z := by
  revert h
  revert Z
  apply Int.le_induction
  · simp
  · intro Z _ ih
    have := (yearDays_step Z).1
    omega

lemma monthLength_le (y m : ℤ) : monthLength y m ≤ 31 ∧ (m = 2 → monthLength y m ≤ 29) := by
  unfold monthLength
  split_ifs <;> omega

/-- Every valid date of year `y` lies between 1 January and 31 December of that year. -/
lemma jdn_bounds {y m d : ℤ} (h : validDate y m d) :
    yearDays (y - 1) + 429 ≤ jdn y m d ∧ jdn y m d ≤ yearDays y + 428 := by
  obtain ⟨h1, h2, h3, h4⟩ := h
  have hs := yearDays_step (y - 1)
  rw [sub_add_cancel] at hs
  have hl := monthLength_le y m
  unfold jdn
  simp only []
  split_ifs with hm <;> constructor <;> omega

lemma jdn_mono_sameYear {y m1 d1 m2 d2 : ℤ} (h1 : validDate y m1 d1) (h2 : validDate y m2 d2)
    (h : m1 < m2 ∨ (m1 = m2 ∧ d1 ≤ d2)) : jdn y m1 d1 ≤ jdn y m2 d2 := by
  obtain ⟨a1, a2, a3, a4⟩ := h1
  obtain ⟨b1, b2, b3, b4⟩ := h2
  have hs := yearDays_step (y - 1)
  rw [sub_add_cancel] at hs
  have hl1 := monthLength_le y m1
  have hl2 := monthLength_le y m2
  unfold jdn
  simp only []
  split_ifs with hm1 hm2 hm2 <;> omega

lemma jdn_mono {y1 m1 d1 y2 m2 d2 : ℤ} (h1 : validDate y1 m1 d1) (h2 : validDate y2 m2 d2)
    (h : dateLE y1 m1 d1 y2 m2 d2) : jdn y1 m1 d1 ≤ jdn y2 m2 d2 := by
  rcases h with h | ⟨rfl, h⟩
  · have a := (jdn_bounds h1).2
    have b := (jdn_bounds h2).1
    have c := yearDays_mono (show y1 ≤ y2 - 1 by omega)
    have : 0 ≤ 365 * (y2 - 1 - y1) := by omega
    omega
  · exact jdn_mono_sameYear h1 h2 h

/-! ## Bounds on the trigonometric intermediate values -/

section TrigLemmas

open Real

/-! ### Degrees and radians -/

lemma radians_eq (x : ℝ) : radians x = x * (π / 180) := by unfold radians; ring

lemma degrees_eq (x : ℝ) : degrees x = x * (180 / π) := by unfold degrees; ring

lemma radians_degrees (x : ℝ) : radians (degrees x) = x := by
  unfold radians degrees
  field_simp

lemma degrees_radians (x : ℝ) : degrees (radians x) = x := by
  unfold radians degrees
  field_simp

lemma pi_div_180_le : π / 180 ≤ 0.0175 := by
  rw [div_le_iff₀ (by norm_num)]; linarith only [pi_lt_d2]

lemma le_pi_div_180 : 0.01744 ≤ π / 180 := by
  rw [le_div_iff₀ (by norm_num)]; linarith only [pi_gt_d2]

lemma radians_le_radians {x y : ℝ} (h : x ≤ y) : radians x ≤ radians y := by
  rw [radians_eq, radians_eq]
  exact mul_le_mul_of_nonneg_right h (div_nonneg pi_pos.le (by norm_num))

lemma radians_lt_radians {x y : ℝ} (h : x < y) : radians x < radians y := by
  rw [radians_eq, radians_eq]
  exact mul_lt_mul_of_pos_right h (div_pos pi_pos (by norm_num))

lemma degrees_lt_degrees {x y : ℝ} (h : x < y) : degrees x < degrees y := by
  rw [degrees_eq, degrees_eq]
  exact mul_lt_mul_of_pos_right h (div_pos (by norm_num) pi_pos)

lemma radians_zero : radians 0 = 0 := by unfold radians; simp

lemma degrees_zero : degrees 0 = 0 := by unfold degrees; simp

lemma radians_neg (x : ℝ) : radians (-x) = -radians x := by unfold radians; ring

/-- Subtracting a multiple of `π` from an angle in radians subtracts that multiple of 180
from the angle in degrees. -/
lemma radians_sub_mul_pi (x c : ℝ) : radians x - c * π = radians (x - 180 * c) := by
  unfold radians; ring

lemma radians_upper {x b : ℝ} (hb : 0 ≤ b) (h : x ≤ b) : radians x ≤ b * 0.0175 :=
  calc radians x ≤ radians b := radians_le_radians h
    _ = b * (π / 180) := radians_eq b
    _ ≤ b * 0.0175 := mul_le_mul_of_nonneg_left pi_div_180_le hb

lemma radians_lower {x a : ℝ} (ha : 0 ≤ a) (h : a ≤ x) : a * 0.01744 ≤ radians x :=
  calc a * 0.01744 ≤ a * (π / 180) := mul_le_mul_of_nonneg_left le_pi_div_180 ha
    _ = radians a := (radians_eq a).symm
    _ ≤ radians x := radians_le_radians h

lemma radians_lower_neg {x b : ℝ} (hb : 0 ≤ b) (h : -b ≤ x) : -(b * 0.0175) ≤ radians x := by
  have h1 := radians_upper hb (neg_le.mp h)
  rw [radians_neg] at h1
  exact neg_le.mp h1

/-- An angle of less than 90 degrees in absolute value is strictly between `-π/2` and `π/2`
in radians. -/
lemma radians_mem_Ioo {x : ℝ} (h1 : -90 < x) (h2 : x < 90) :
    -(π / 2) < radians x ∧ radians x < π / 2 := by
  have e1 : radians 90 = π / 2 := by unfold radians; ring
  have e2 : radians (-90) = -(π / 2) := by unfold radians; ring
  exact ⟨e2 ▸ radians_lt_radians h1, e1 ▸ radians_lt_radians h2⟩

lemma cos_ge_of_abs_le {u b : ℝ} (h1 : -b ≤ u) (h2 : u ≤ b) : 1 - b ^ 2 / 2 ≤ cos u := by
  have h := one_sub_sq_div_two_le_cos (x := u)
  have hu : u ^ 2 ≤ b ^ 2 := sq_le_sq' h1 h2
  linarith only [h, hu]

/-! ### Products of bounded factors -/

lemma mul_sin_bound (s c : ℝ) (hs1 : -1 ≤ s) (hs2 : s ≤ 1) (hc : 0 ≤ c) :
    -c ≤ s * c ∧ s * c ≤ c := by
  constructor
  · have := mul_le_mul_of_nonneg_right hs1 hc
    linarith only [this]
  · have := mul_le_mul_of_nonneg_right hs2 hc
    linarith only [this]

lemma abs_mul_le_of_abs_le_one {K p : ℝ} (hK : 0 ≤ K) (hp : |p| ≤ 1) : |K * p| ≤ K := by
  rw [abs_mul, abs_of_nonneg hK]
  exact mul_le_of_le_one_right hK hp

lemma abs_mul_le_mul {a b A B : ℝ} (ha : |a| ≤ A) (hb : |b| ≤ B) : |a * b| ≤ A * B := by
  rw [abs_mul]
  exact mul_le_mul ha hb (abs_nonneg _) (le_trans (abs_nonneg _) ha)

lemma abs_sin_mul_cos_le_one (a b : ℝ) : |sin a * cos b| ≤ 1 := by
  rw [abs_mul]
  exact mul_le_one₀ (abs_sin_le_one a) (abs_nonneg _) (abs_cos_le_one b)

lemma abs_sin_mul_sin_mul_sin_le_one (a b : ℝ) : |sin a * sin a * sin b| ≤ 1 := by
  rw [abs_mul, abs_mul]
  exact mul_le_one₀ (mul_le_one₀ (abs_sin_le_one a) (abs_nonneg _) (abs_sin_le_one a))
    (abs_nonneg _) (abs_sin_le_one b)

/-! ### The mean elements and the obliquity for `-2 ≤ T ≤ 2` -/

lemma abs_calcSunEqOfCenter_le (T : ℝ) (h1 : -2 ≤ T) (h2 : T ≤ 2) :
    |calcSunEqOfCenter T| ≤ 1.95 := by
  have hT : |T| ≤ 2 := abs_le.mpr ⟨h1, h2⟩
  have hq : |0.004817 + 0.000014 * T| ≤ 0.004845 := by
    rw [abs_le]; constructor <;> linarith only [h1, h2]
  have hp := abs_le.mp (abs_mul_le_mul hT hq)
  have c1 : 0 ≤ 1.914602 - T * (0.004817 + 0.000014 * T) := by linarith only [hp.2]
  have c1' : 1.914602 - T * (0.004817 + 0.000014 * T) ≤ 1.925 := by linarith only [hp.1]
  have c2 : 0 ≤ 0.019993 - 0.000101 * T := by linarith only [h2]
  have c2' : 0.019993 - 0.000101 * T ≤ 0.0202 := by linarith only [h1]
  unfold calcSunEqOfCenter
  simp only []
  generalize radians (calcGeomMeanAnomalySun T) = M
  generalize 1.914602 - T * (0.004817 + 0.000014 * T) = k1 at c1 c1' ⊢
  generalize 0.019993 - 0.000101 * T = k2 at c2 c2' ⊢
  have a := mul_sin_bound (sin M) k1 (neg_one_le_sin M) (sin_le_one M) c1
  have b := mul_sin_bound (sin (2 * M)) k2 (neg_one_le_sin _) (sin_le_one _) c2
  have c := mul_sin_bound (sin (3 * M)) 0.000289 (neg_one_le_sin _) (sin_le_one _)
    (by norm_num)
  rw [abs_le]
  constructor <;> linarith only [a.1, a.2, b.1, b.2, c.1, c.2, c1', c2']

lemma calcSunApparentLong_near (T : ℝ) (h1 : -2 ≤ T) (h2 : T ≤ 2) :
    calcGeomMeanLongSun T - 1.97 ≤ calcSunApparentLong T ∧
      calcSunApparentLong T ≤ calcGeomMeanLongSun T + 1.97 := by
  have h := abs_le.mp (abs_calcSunEqOfCenter_le T h1 h2)
  unfold calcSunApparentLong calcSunTrueLong
  simp only []
  have s1 := neg_one_le_sin (radians (125.04 - 1934.136 * T))
  have s2 := sin_le_one (radians (125.04 - 1934.136 * T))
  generalize sin (radians (125.04 - 1934.136 * T)) = s at s1 s2 ⊢
  generalize calcSunEqOfCenter T = c at h ⊢
  generalize calcGeomMeanLongSun T = L
  constructor <;> linarith only [h.1, h.2, s1, s2]

lemma calcMeanObliquityOfEcliptic_bounds (T : ℝ) (h1 : -2 ≤ T) (h2 : T ≤ 2) :
    23.41 ≤ calcMeanObliquityOfEcliptic T ∧ calcMeanObliquityOfEcliptic T ≤ 23.47 := by
  have hT : |T| ≤ 2 := abs_le.mpr ⟨h1, h2⟩
  have hq : |0.00059 - 0.001813 * T| ≤ 0.005 := by
    rw [abs_le]; constructor <;> linarith only [h1, h2]
  have hp := abs_le.mp (abs_mul_le_mul hT hq)
  have hr : |46.815 + T * (0.00059 - 0.001813 * T)| ≤ 46.9 := by
    rw [abs_le]; constructor <;> linarith only [hp.1, hp.2]
  have hg := abs_le.mp (abs_mul_le_mul hT hr)
  unfold calcMeanObliquityOfEcliptic
  generalize T * (46.815 + T * (0.00059 - 0.001813 * T)) = g at hg ⊢
  constructor <;> linarith only [hg.1, hg.2]

lemma calcObliquityCorrection1_bounds (T : ℝ) (h1 : -2 ≤ T) (h2 : T ≤ 2) :
    23.4 ≤ calcObliquityCorrection1 T ∧ calcObliquityCorrection1 T ≤ 23.48 := by
  have h := calcMeanObliquityOfEcliptic_bounds T h1 h2
  unfold calcObliquityCorrection1
  simp only []
  have s1 := neg_one_le_cos (radians (125.04 - 1934.136 * T))
  have s2 := cos_le_one (radians (125.04 - 1934.136 * T))
  generalize cos (radians (125.04 - 1934.136 * T)) = s at s1 s2 ⊢
  generalize calcMeanObliquityOfEcliptic T = m at h ⊢
  constructor <;> linarith only [h.1, h.2, s1, s2]

lemma abs_calcNutationLongitude_le (T : ℝ) : |calcNutationLongitude T| ≤ 18.96 := by
  unfold calcNutationLongitude
  simp only []
  have a1 := neg_one_le_sin (radians (125.04452 - 1934.136261 * T))
  have a2 := sin_le_one (radians (125.04452 - 1934.136261 * T))
  have b1 := neg_one_le_sin (2 * radians (280.4665 + 36000.7698 * T))
  have b2 := sin_le_one (2 * radians (280.4665 + 36000.7698 * T))
  have c1 := neg_one_le_sin (2 * radians (218.3165 + 481267.8813 * T))
  have c2 := sin_le_one (2 * radians (218.3165 + 481267.8813 * T))
  have d1 := neg_one_le_sin (2 * radians (125.04452 - 1934.136261 * T))
  have d2 := sin_le_one (2 * radians (125.04452 - 1934.136261 * T))
  generalize sin (radians (125.04452 - 1934.136261 * T)) = a at a1 a2 ⊢
  generalize sin (2 * radians (280.4665 + 36000.7698 * T)) = b at b1 b2 ⊢
  generalize sin (2 * radians (218.3165 + 481267.8813 * T)) = c at c1 c2 ⊢
  generalize sin (2 * radians (125.04452 - 1934.136261 * T)) = d at d1 d2 ⊢
  rw [abs_le]
  constructor <;> linarith only [a1, a2, b1, b2, c1, c2, d1, d2]

lemma abs_calcNutationObliquity_le (T : ℝ) : |calcNutationObliquity T| ≤ 9.96 := by
  unfold calcNutationObliquity
  simp only []
  have a1 := neg_one_le_cos (radians (125.04452 - 1934.136261 * T))
  have a2 := cos_le_one (radians (125.04452 - 1934.136261 * T))
  have b1 := neg_one_le_cos (2 * radians (280.4665 + 36000.7698 * T))
  have b2 := cos_le_one (2 * radians (280.4665 + 36000.7698 * T))
  have c1 := neg_one_le_cos (2 * radians (218.3165 + 481267.8813 * T))
  have c2 := cos_le_one (2 * radians (218.3165 + 481267.8813 * T))
  generalize cos (radians (125.04452 - 1934.136261 * T)) = a at a1 a2 ⊢
  generalize cos (2 * radians (280.4665 + 36000.7698 * T)) = b at b1 b2 ⊢
  generalize cos (2 * radians (218.3165 + 481267.8813 * T)) = c at c1 c2 ⊢
  rw [abs_le]
  constructor <;> linarith only [a1, a2, b1, b2, c1, c2]

lemma calcObliquityCorrection2_bounds (T : ℝ) (h1 : -2 ≤ T) (h2 : T ≤ 2) :
    23.4 ≤ calcObliquityCorrection2 T ∧ calcObliquityCorrection2 T ≤ 23.48 := by
  have h := calcMeanObliquityOfEcliptic_bounds T h1 h2
  have n := abs_le.mp (abs_calcNutationObliquity_le T)
  unfold calcObliquityCorrection2
  simp only []
  generalize calcNutationObliquity T = x at n ⊢
  generalize calcMeanObliquityOfEcliptic T = m at h ⊢
  constructor <;> linarith only [h.1, h.2, n.1, n.2]

lemma abs_calcNutationRtAscension_le (T : ℝ) : |calcNutationRtAscension T| ≤ 0.0053 := by
  have n := abs_calcNutationLongitude_le T
  have hc := abs_cos_le_one (radians (calcObliquityCorrection2 T))
  have hp := abs_mul_le_mul n hc
  unfold calcNutationRtAscension
  simp only []
  rw [abs_div, div_le_iff₀ (by norm_num)]
  refine le_trans hp ?_
  norm_num

/-! ### Right ascension and declination -/

/-- In the fourth quadrant of the apparent longitude (270 to 360 degrees) the right ascension
that `atan2` returns is negative, and above the longitude minus 360 degrees. -/
lemma rtAscension_fourth_quadrant (ε lam : ℝ) (hε1 : 0 < ε) (hε2 : ε < 90)
    (h1 : 270 < lam) (h2 : lam < 360) :
    lam - 360 < degrees (atan2 (cos (radians ε) * sin (radians lam)) (cos (radians lam))) ∧
      degrees (atan2 (cos (radians ε) * sin (radians lam)) (cos (radians lam))) < 0 := by
  have hx := radians_mem_Ioo (x := lam - 360) (by linarith only [h1]) (by linarith only [h2])
  have hx2 : radians (lam - 360) < 0 :=
    radians_zero ▸ radians_lt_radians (show lam - 360 < 0 by linarith only [h2])
  have hlam : radians lam = radians (lam - 360) + 2 * π := by unfold radians; ring
  have hd := degrees_radians (lam - 360)
  have he := radians_mem_Ioo (x := ε) (by linarith only [hε1]) (by linarith only [hε2])
  have he0 : 0 < radians ε := radians_zero ▸ radians_lt_radians hε1
  rw [hlam, cos_add_two_pi, sin_add_two_pi]
  generalize radians (lam - 360) = x at hx hx2 hd ⊢
  generalize radians ε = e at he he0 ⊢
  have hcx : 0 < cos x := cos_pos_of_mem_Ioo ⟨hx.1, hx.2⟩
  have hsx : sin x < 0 := sin_neg_of_neg_of_neg_pi_lt hx2 (by linarith only [hx.1, pi_pos])
  have hc1 : 0 < cos e := cos_pos_of_mem_Ioo ⟨he.1, he.2⟩
  have hc2 : cos e < 1 := by
    have := cos_lt_cos_of_nonneg_of_le_pi_div_two (le_refl 0) he.2.le he0
    rwa [cos_zero] at this
  have htan : tan x < 0 := by
    rw [tan_eq_sin_div_cos]; exact div_neg_of_neg_of_pos hsx hcx
  have hval : atan2 (cos e * sin x) (cos x) = arctan (cos e * tan x) := by
    unfold atan2
    rw [if_pos hcx, tan_eq_sin_div_cos, mul_div_assoc]
  rw [hval]
  have lo : x < arctan (cos e * tan x) := by
    have := arctan_strictMono (lt_mul_of_lt_one_left htan hc2)
    rwa [arctan_tan hx.1 hx.2] at this
  have hi : arctan (cos e * tan x) < 0 := by
    have := arctan_strictMono (mul_neg_of_pos_of_neg hc1 htan)
    rwa [arctan_zero] at this
  exact ⟨hd ▸ degrees_lt_degrees lo, lt_of_lt_of_eq (degrees_lt_degrees hi) degrees_zero⟩

/-- The right ascension from bounds on the mean longitude in the fourth quadrant. -/
lemma calcSunRtAscension_fourth (T lo : ℝ) (h1 : -2 ≤ T) (h2 : T ≤ 2)
    (hlo : 271.97 < lo) (hL1 : lo ≤ calcGeomMeanLongSun T)
    (hL2 : calcGeomMeanLongSun T < 358.03) :
    lo - 361.97 < calcSunRtAscension T ∧ calcSunRtAscension T < 0 := by
  have hl := calcSunApparentLong_near T h1 h2
  have he := calcObliquityCorrection1_bounds T h1 h2
  have := rtAscension_fourth_quadrant (calcObliquityCorrection1 T) (calcSunApparentLong T)
    (by linarith only [he.1]) (by linarith only [he.2]) (by linarith only [hl.1, hL1, hlo])
    (by linarith only [hl.2, hL2])
  unfold calcSunRtAscension
  simp only []
  exact ⟨by linarith only [this.1, hl.1, hL1], this.2⟩

/-- The mean longitude when the polynomial under `fmod` is already in `[0, 360)`. -/
lemma geomMeanLong_of_small {T : ℝ} (h0 : 0 ≤ 280.46646 + T * (36000.76983 + 0.0003032 * T))
    (h1 : 280.46646 + T * (36000.76983 + 0.0003032 * T) < 360) :
    calcGeomMeanLongSun T = 280.46646 + T * (36000.76983 + 0.0003032 * T) := by
  unfold calcGeomMeanLongSun
  rw [fmod_eq_of_nonneg 0 (by norm_num) (le_refl 0) (by simpa using h0) (by simpa using h1)]
  simp

/-! ### Interpolation -/

lemma interpolateCoordinates_of_neg {α : Type*} [LinearOrderedField α] (n y1 y2 y3 : α)
    (h1 : y1 < 0) (h2 : y2 < 0) (h3 : y3 < 0) :
    interpolateCoordinates n y1 y2 y3 =
      y2 + n * ((y2 - y1) + (y3 - y2) + n * ((y3 - y2) - (y2 - y1))) / 2 := by
  simp [interpolateCoordinates, h1, h2, h3]

/-- Three negative samples within `B` of zero: the interpolated value stays near the
middle one. -/
lemma interpolateCoordinates_near {n y1 y2 y3 B : ℝ} (hn0 : 0 ≤ n) (h1 : -B < y1) (h1' : y1 < 0)
    (h2 : -B < y2) (h2' : y2 < 0) (h3 : -B < y3) (h3' : y3 < 0) :
    |interpolateCoordinates n y1 y2 y3 - y2| ≤ n * (B + n * (2 * B)) / 2 := by
  rw [interpolateCoordinates_of_neg n y1 y2 y3 h1' h2' h3']
  have hs : |y3 - y1| ≤ B := by
    rw [abs_le]; constructor <;> linarith only [h1, h1', h3, h3']
  have hc : |y3 + y1 - 2 * y2| ≤ 2 * B := by
    rw [abs_le]; constructor <;> linarith only [h1, h1', h2, h2', h3, h3']
  have hn : |n| ≤ n := (abs_of_nonneg hn0).le
  have hnc := abs_mul_le_mul hn hc
  have hsum : |y3 - y1 + n * (y3 + y1 - 2 * y2)| ≤ B + n * (2 * B) :=
    le_trans (abs_add _ _) (add_le_add hs hnc)
  have hprod := abs_mul_le_mul hn hsum
  have e : y2 + n * ((y2 - y1) + (y3 - y2) + n * ((y3 - y2) - (y2 - y1))) / 2 - y2 =
      n * (y3 - y1 + n * (y3 + y1 - 2 * y2)) / 2 := by ring
  rw [e, abs_div, abs_of_pos (show (0 : ℝ) < 2 by norm_num)]
  exact div_le_div_of_nonneg_right hprod (by norm_num)

/-! ### 18 March 2000, longitude 120 degrees east -/

lemma jd_20000318 : (calcJulianDay 2000 3 18 : ℝ) = 2451621.5 := by
  norm_num [calcJulianDay, wrapInt]

lemma deltaT_2000_03 : 0 ≤ calcDeltaT (2000 : ℝ) 3 ∧ calcDeltaT (2000 : ℝ) 3 ≤ 86.4 := by
  norm_num [calcDeltaT, deltaT1986]

lemma rtAscension_march2000 (JD : ℝ) (h1 : 2451620 ≤ JD) (h2 : JD ≤ 2451623) :
    -7.6 < calcSunRtAscension (calcJulianCent JD) ∧ calcSunRtAscension (calcJulianCent JD) < 0 := by
  have hT1 : 0.002053 ≤ calcJulianCent JD := by
    unfold calcJulianCent; rw [le_div_iff₀ (by norm_num)]; linarith only [h1]
  have hT2 : calcJulianCent JD ≤ 0.00214 := by
    unfold calcJulianCent; rw [div_le_iff₀ (by norm_num)]; linarith only [h2]
  generalize calcJulianCent JD = T at hT1 hT2 ⊢
  have hq1 : 36000 ≤ 36000.76983 + 0.0003032 * T := by linarith only [hT1]
  have hq2 : 36000.76983 + 0.0003032 * T ≤ 36001 := by linarith only [hT2]
  have hp1 : 0.002053 * 36000 ≤ T * (36000.76983 + 0.0003032 * T) :=
    mul_le_mul hT1 hq1 (by norm_num) (by linarith only [hT1])
  have hp2 : T * (36000.76983 + 0.0003032 * T) ≤ 0.00214 * 36001 :=
    mul_le_mul hT2 hq2 (by linarith only [hq1]) (by norm_num)
  have hL := geomMeanLong_of_small (T := T) (by linarith only [hp1]) (by linarith only [hp2])
  have := calcSunRtAscension_fourth T 354.37 (by linarith only [hT1]) (by linarith only [hT2])
    (by norm_num) (by rw [hL]; linarith only [hp1]) (by rw [hL]; linarith only [hp2])
  exact ⟨by linarith only [this.1], this.2⟩

lemma siderealTime_20000318 :
    175.85 < calcApparentSiderealTime 2451621.5 ∧ calcApparentSiderealTime 2451621.5 < 175.88 := by
  have n := abs_le.mp (abs_calcNutationRtAscension_le (calcJulianCent 2451621.5))
  have hm : calcMeanSiderealTime (2451621.5 : ℝ) =
      100.46061837 + (76.5 / 36525) * (36000.770053608 + (76.5 / 36525) *
        (0.000387933 - (76.5 / 36525) / 38710000)) := by
    unfold calcMeanSiderealTime calcJulianCent
    simp only []
    rw [fmod_eq_of_nonneg 0 (by norm_num) (le_refl 0) (by norm_num) (by norm_num)]
    norm_num
  have v1 : (175.86 : ℝ) ≤ 100.46061837 + (76.5 / 36525) * (36000.770053608 + (76.5 / 36525) *
        (0.000387933 - (76.5 / 36525) / 38710000)) := by norm_num
  have v2 : 100.46061837 + (76.5 / 36525) * (36000.770053608 + (76.5 / 36525) *
        (0.000387933 - (76.5 / 36525) / 38710000)) ≤ (175.87 : ℝ) := by norm_num
  unfold calcApparentSiderealTime
  simp only []
  rw [hm]
  generalize calcNutationRtAscension (calcJulianCent 2451621.5) = x at n ⊢
  generalize 100.46061837 + (76.5 / 36525) * (36000.770053608 + (76.5 / 36525) *
        (0.000387933 - (76.5 / 36525) / 38710000)) = g at v1 v2 ⊢
  exact ⟨by linarith only [v1, n.1], by linarith only [v2, n.2]⟩

/-- The arithmetic of the first transit correction: with the hour angle near 360 degrees the
updated fraction is negative. -/
lemma transit_update_core (a θ ta Δ m : ℝ) (ha1 : -7.6 < a) (ha2 : a < 0)
    (hθ1 : 175.85 < θ) (hθ2 : θ < 175.88) (hΔ1 : 0 ≤ Δ) (hΔ2 : Δ ≤ 86.4)
    (hm : m = (a - 120 - θ) / 360 + 1)
    (hta : 0 ≤ m + Δ / 86400 → m + Δ / 86400 ≤ 0.18 → |ta - a| ≤ 1) :
    0 ≤ θ + 360.985647 * m ∧ θ + 360.985647 * m < 360 ∧
      m + (-(θ + 360.985647 * m + 120 - ta)) / 360 < 0 := by
  have m1 : 0.157 < m := by rw [hm]; linarith only [ha1, hθ2]
  have m2 : m < 0.1783 := by rw [hm]; linarith only [ha2, hθ1]
  have ht := abs_le.mp (hta (by linarith only [m1, hΔ1]) (by linarith only [m2, hΔ2]))
  exact ⟨by linarith only [m1, hθ1], by linarith only [m2, hθ2],
    by linarith only [m1, m2, hθ1, ht.2, ha2]⟩

lemma transit_update_neg_20000318 :
    (approxTimes (dayData 2000 3 18 0 120 (-0.8333)) true).m0 +
      transitCorr (dayData 2000 3 18 0 120 (-0.8333))
        (approxTimes (dayData 2000 3 18 0 120 (-0.8333)) true).m0 < 0 := by
  have a1 := rtAscension_march2000 (2451621.5 - 1) (by norm_num) (by norm_num)
  have a2 := rtAscension_march2000 2451621.5 (by norm_num) (by norm_num)
  have a3 := rtAscension_march2000 (2451621.5 + 1) (by norm_num) (by norm_num)
  have th := siderealTime_20000318
  have dt := deltaT_2000_03
  simp only [approxTimes, transitCorr, dayData, jd_20000318, Int.cast_ofNat]
  generalize calcSunRtAscension (calcJulianCent (2451621.5 - 1)) = α1 at a1 ⊢
  generalize calcSunRtAscension (calcJulianCent (2451621.5 + 1)) = α3 at a3 ⊢
  generalize calcSunRtAscension (calcJulianCent 2451621.5) = α2 at a2 ⊢
  generalize calcApparentSiderealTime 2451621.5 = θ at th ⊢
  generalize calcDeltaT (2000 : ℝ) 3 = Δ at dt ⊢
  rw [between0And1_of_neg (show (α2 - 120 - θ) / 360 < 0 by
    rw [div_lt_iff₀ (by norm_num)]; linarith only [a2.2, th.1])]
  obtain ⟨m, hm⟩ : ∃ m, m = (α2 - 120 - θ) / 360 + 1 := ⟨_, rfl⟩
  rw [← hm]
  have hcore := transit_update_core α2 θ
    (interpolateCoordinates (m + Δ / 86400) α1 α2 α3) Δ m a2.1 a2.2 th.1 th.2 dt.1 dt.2 hm
    (fun hn0 hn1 => by
      have hi := interpolateCoordinates_near (B := 7.6) hn0 a1.1 a1.2 a2.1 a2.2 a3.1 a3.2
      have hb : (m + Δ / 86400) * (7.6 + (m + Δ / 86400) * (2 * 7.6)) ≤
          0.18 * (7.6 + 0.18 * (2 * 7.6)) :=
        mul_le_mul hn1 (by linarith only [hn1]) (by linarith only [hn0]) (by norm_num)
      refine le_trans hi ?_
      rw [div_le_iff₀ (by norm_num)]
      refine le_trans hb ?_
      norm_num)
  have hs : calcSiderealTimeInstant θ m = θ + 360.985647 * m := by
    unfold calcSiderealTimeInstant
    rw [fmod_eq_of_nonneg 0 (by norm_num) (le_refl 0) (by simpa using hcore.1)
      (by simpa using hcore.2.1)]
    simp
  rw [hs]
  exact hcore.2.2

/-! ### 21 June 2000, latitude 78 degrees north -/

lemma jd_20000621 : (calcJulianDay 2000 6 21 : ℝ) = 2451716.5 := by
  norm_num [calcJulianDay, wrapInt]

/-- The declination in radians near the June solstice: at least 12 degrees and below 90. -/
lemma arcsin_solstice (e l : ℝ) (he1 : 23.4 ≤ e) (he2 : e ≤ 23.48) (hl1 : 87.5 ≤ l)
    (hl2 : l ≤ 91.5) :
    π / 15 ≤ arcsin (sin (radians e) * sin (radians l)) ∧
      arcsin (sin (radians e) * sin (radians l)) < π / 2 := by
  have hpi1 := pi_gt_d2
  have hpi2 := pi_lt_d2
  have hε1 := radians_lower (x := e) (a := 23.4) (by norm_num) he1
  have hε2 := radians_upper (x := e) (b := 23.48) (by norm_num) he2
  have hu : radians l - π / 2 = radians (l - 90) := by unfold radians; ring
  have hu1 := radians_lower_neg (x := l - 90) (b := 2.5) (by norm_num)
    (by linarith only [hl1])
  have hu2 := radians_upper (x := l - 90) (b := 2.5) (by norm_num) (by linarith only [hl2])
  have hc := cos_ge_of_abs_le hu1 hu2
  have hs : sin (radians l) = cos (radians (l - 90)) := by
    rw [← hu]; exact (cos_sub_pi_div_two _).symm
  rw [hs]
  have hc1 : cos (radians (l - 90)) ≤ 1 := cos_le_one _
  generalize cos (radians (l - 90)) = c at hc hc1 ⊢
  generalize radians e = x at hε1 hε2 ⊢
  have hx0 : 0 ≤ x := le_trans (by norm_num) hε1
  have hε3 : 0.26 ≤ sin x := by
    have h := sin_gt_sub_cube (lt_of_lt_of_le (by norm_num) hε1) (le_trans hε2 (by norm_num))
    have h3 : x ^ 3 ≤ (23.48 * 0.0175 : ℝ) ^ 3 := pow_le_pow_left₀ hx0 hε2 3
    generalize x ^ 3 = c3 at h h3
    norm_num at h3
    linarith only [h, h3, hε1]
  have hε4 : sin x ≤ 0.42 := le_trans (sin_le hx0) (by linarith only [hε2])
  have hc2 : 0.99 ≤ c := by linarith only [hc]
  have hp1 : 0.26 * 0.99 ≤ sin x * c := mul_le_mul hε3 hc2 (by norm_num)
    (le_trans (by norm_num) hε3)
  have hp2 : sin x * c ≤ 0.42 * 1 := mul_le_mul hε4 hc1 (le_trans (by norm_num) hc2)
    (by norm_num)
  have h1 : π / 15 ∈ Set.Icc (-(π / 2)) (π / 2) :=
    ⟨by linarith only [hpi1], by linarith only [hpi1]⟩
  have h2 : sin x * c ∈ Set.Icc (-1 : ℝ) 1 := ⟨by linarith only [hp1], by linarith only [hp2]⟩
  have h3 : sin (π / 15) ≤ π / 15 := sin_le (by linarith only [hpi1])
  exact ⟨(le_arcsin_iff_sin_le h1 h2).mpr (by linarith only [h3, hp1, hpi2]),
    arcsin_lt_pi_div_two.mpr (by linarith only [hp2])⟩

lemma declination_20000621 :
    π / 15 ≤ radians (calcSunDeclination (calcJulianCent 2451716.5)) ∧
      radians (calcSunDeclination (calcJulianCent 2451716.5)) < π / 2 := by
  have hTv : calcJulianCent (2451716.5 : ℝ) = 171.5 / 36525 := by
    unfold calcJulianCent; norm_num
  rw [hTv]
  have hT1 : (-2 : ℝ) ≤ 171.5 / 36525 := by norm_num
  have hT2 : (171.5 / 36525 : ℝ) ≤ 2 := by norm_num
  have hL : calcGeomMeanLongSun (171.5 / 36525 : ℝ) =
      280.46646 + (171.5 / 36525) * (36000.76983 + 0.0003032 * (171.5 / 36525)) - 360 := by
    unfold calcGeomMeanLongSun
    rw [fmod_eq_of_nonneg 1 (by norm_num) (by norm_num) (by norm_num) (by norm_num)]
    norm_num
  have hLv1 : 89.5 ≤ calcGeomMeanLongSun (171.5 / 36525 : ℝ) := by rw [hL]; norm_num
  have hLv2 : calcGeomMeanLongSun (171.5 / 36525 : ℝ) ≤ 89.51 := by rw [hL]; norm_num
  have hl := calcSunApparentLong_near _ hT1 hT2
  have he := calcObliquityCorrection1_bounds _ hT1 hT2
  unfold calcSunDeclination
  simp only []
  rw [radians_degrees]
  exact arcsin_solstice _ _ he.1 he.2 (by linarith only [hl.1, hLv1])
    (by linarith only [hl.2, hLv2])

/-- At latitude 78 degrees, a declination of at least 12 degrees and an altitude below the
horizon put the argument of `acos` below -1. -/
lemma hourAngleArg_of_polar (δ h : ℝ) (hd1 : π / 15 ≤ δ) (hd2 : δ < π / 2)
    (hh1 : -180 < h) (hh2 : h < 0) :
    (sin (radians h) - sin (radians 78) * sin δ) / (cos (radians 78) * cos δ) < -1 ∧
      cos (radians 78) * cos δ ≠ 0 := by
  have hpi := pi_pos
  have e78 : radians 78 = 13 * π / 30 := by unfold radians; ring
  have e180 : radians (-180) = -π := by unfold radians; ring
  have hφ := radians_mem_Ioo (x := 78) (by norm_num) (by norm_num)
  have hcφ : 0 < cos (radians 78) := cos_pos_of_mem_Ioo ⟨hφ.1, hφ.2⟩
  have hcδ : 0 < cos δ := cos_pos_of_mem_Ioo ⟨by linarith only [hd1, hpi], hd2⟩
  have hden : 0 < cos (radians 78) * cos δ := mul_pos hcφ hcδ
  have hsum : cos (radians 78 + δ) ≤ 0 :=
    cos_nonpos_of_pi_div_two_le_of_le (by linarith only [e78, hd1])
      (by linarith only [e78, hd2, hpi])
  have hh : sin (radians h) < 0 :=
    sin_neg_of_neg_of_neg_pi_lt (radians_zero ▸ radians_lt_radians hh2)
      (e180 ▸ radians_lt_radians hh1)
  rw [cos_add] at hsum
  refine ⟨?_, hden.ne'⟩
  rw [div_lt_iff₀ hden]
  linarith only [hsum, hh]

lemma hourAngleArg_polar : ∃ a : ℝ,
    hourAngleArg (dayData 2000 6 21 78 0 (-0.8333)) = some a ∧ a < -1 := by
  have hd := declination_20000621
  have := hourAngleArg_of_polar _ (-0.8333) hd.1 hd.2 (by norm_num) (by norm_num)
  simp only [hourAngleArg, dayData, jd_20000621]
  exact ⟨_, by rw [fdiv, if_neg this.2], this.1⟩

/-! ### The equation of time -/

/-- The difference of the second and the first formula: the terms that only Hughes'
formula has. -/
lemma equationOfTime2_sub_equationOfTime1 (T : ℝ) :
    equationOfTime2 T - equationOfTime1 T =
      4 * degrees (0.00000447 * T + 0.00000149 * T * T +
        2.5 * calcEccentricityEarthOrbit T * calcEccentricityEarthOrbit T *
          (tan (radians (calcObliquityCorrection2 T) / 2) *
            tan (radians (calcObliquityCorrection2 T) / 2)) *
          (sin (2 * radians (calcGeomMeanAnomalySun T)) * cos (2 * radians (calcGeomMeanLongSun T))) -
        4 * calcEccentricityEarthOrbit T *
          (tan (radians (calcObliquityCorrection2 T) / 2) *
            tan (radians (calcObliquityCorrection2 T) / 2)) *
          (tan (radians (calcObliquityCorrection2 T) / 2) *
            tan (radians (calcObliquityCorrection2 T) / 2)) *
          (sin (radians (calcGeomMeanAnomalySun T)) * cos (4 * radians (calcGeomMeanLongSun T))) -
        8 * calcEccentricityEarthOrbit T * calcEccentricityEarthOrbit T *
          (tan (radians (calcObliquityCorrection2 T) / 2) *
            tan (radians (calcObliquityCorrection2 T) / 2)) *
          (sin (radians (calcGeomMeanAnomalySun T)) * sin (radians (calcGeomMeanAnomalySun T)) *
            sin (2 * radians (calcGeomMeanLongSun T)))) := by
  unfold equationOfTime2 equationOfTime1 degrees
  simp only []
  ring

lemma tan_half_obliquity_bounds (e : ℝ) (h1 : 23.4 ≤ e) (h2 : e ≤ 23.48) :
    0.204 ≤ tan (radians e / 2) ∧ tan (radians e / 2) ≤ 0.21 := by
  have hx1 := radians_lower (x := e) (a := 23.4) (by norm_num) h1
  have hx2 := radians_upper (x := e) (b := 23.48) (by norm_num) h2
  generalize radians e = r at hx1 hx2 ⊢
  have hx0 : 0 ≤ r / 2 := by linarith only [hx1]
  have hx3 : r / 2 ≤ 0.2055 := by linarith only [hx2]
  have hc := cos_ge_of_abs_le (u := r / 2) (b := 0.2055) (by linarith only [hx0]) hx3
  have hc0 : 0 < cos (r / 2) := lt_of_lt_of_le (by norm_num) hc
  constructor
  · have hx4 : (0.204048 : ℝ) ≤ r / 2 := by linarith only [hx1]
    have hy1 : |r / 2| ≤ 1 := abs_le.mpr ⟨by linarith only [hx0], by linarith only [hx3]⟩
    have hs := (abs_le.mp (sin_bound hy1)).1
    have hc2 := (abs_le.mp (cos_bound hy1)).2
    rw [abs_of_nonneg hx0] at hs hc2
    have p2 : (0.204048 : ℝ) ^ 2 ≤ (r / 2) ^ 2 := pow_le_pow_left₀ (by norm_num) hx4 2
    have p3 : (r / 2) ^ 3 ≤ (0.2055 : ℝ) ^ 3 := pow_le_pow_left₀ hx0 hx3 3
    have p4 : (r / 2) ^ 4 ≤ (0.2055 : ℝ) ^ 4 := pow_le_pow_left₀ hx0 hx3 4
    rw [tan_eq_sin_div_cos, le_div_iff₀ hc0]
    generalize (r / 2) ^ 2 = a2 at hc2 p2
    generalize (r / 2) ^ 3 = a3 at hs p3
    generalize (r / 2) ^ 4 = a4 at hs hc2 p4
    generalize sin (r / 2) = s at hs ⊢
    generalize cos (r / 2) = c at hc2 ⊢
    norm_num at p2 p3 p4
    linarith only [hs, hc2, p2, p3, p4, hx4]
  · rw [tan_eq_sin_div_cos]
    have hs : sin (r / 2) ≤ r / 2 := sin_le hx0
    rw [div_le_iff₀ hc0]
    have hm : 0.21 * (1 - 0.2055 ^ 2 / 2) ≤ 0.21 * cos (r / 2) :=
      mul_le_mul_of_nonneg_left hc (by norm_num)
    linarith only [hs, hx3, hm]

/-- Bounds of the auxiliary `y = tan² (ε / 2)` of the equation of time. -/
lemma tan_sq_half_obliquity_bounds (e : ℝ) (h1 : 23.4 ≤ e) (h2 : e ≤ 23.48) :
    0.0416 ≤ tan (radians e / 2) * tan (radians e / 2) ∧
      tan (radians e / 2) * tan (radians e / 2) ≤ 0.0441 := by
  have h := tan_half_obliquity_bounds e h1 h2
  generalize tan (radians e / 2) = t at h ⊢
  have t0 : 0 ≤ t := le_trans (by norm_num) h.1
  have a := mul_le_mul h.1 h.1 (by norm_num) t0
  have b := mul_le_mul h.2 h.2 t0 (by norm_num)
  exact ⟨le_trans (by norm_num) a, le_trans b (by norm_num)⟩

lemma calcEccentricityEarthOrbit_bounds (T : ℝ) (h1 : -2 ≤ T) (h2 : T ≤ 1.01) :
    0.0166 ≤ calcEccentricityEarthOrbit T ∧ calcEccentricityEarthOrbit T ≤ 0.0168 := by
  have hT : |T| ≤ 2 := abs_le.mpr ⟨h1, by linarith only [h2]⟩
  have hq : |0.000042037 + 0.0000001267 * T| ≤ 0.0000423 := by
    rw [abs_le]; constructor <;> linarith only [h1, h2]
  have hp := abs_le.mp (abs_mul_le_mul hT hq)
  unfold calcEccentricityEarthOrbit
  generalize T * (0.000042037 + 0.0000001267 * T) = g at hp ⊢
  constructor <;> linarith only [hp.1, hp.2]

/-- The arithmetic of the bound on the difference of the formulas. -/
lemma eot_diff_core (e y q1 q2 q3 A : ℝ) (he1 : 0 ≤ e) (he2 : e ≤ 0.0168)
    (hy1 : 0 ≤ y) (hy2 : y ≤ 0.0441) (h1 : |q1| ≤ 1) (h2 : |q2| ≤ 1) (h3 : |q3| ≤ 1)
    (hA : |A| ≤ 0.000015) :
    |A + 2.5 * e * e * y * q1 - 4 * e * y * y * q2 - 8 * e * e * y * q3| ≤ 0.000277 := by
  have ee : e * e ≤ 0.0168 * 0.0168 := mul_le_mul he2 he2 he1 (by norm_num)
  have yy : y * y ≤ 0.0441 * 0.0441 := mul_le_mul hy2 hy2 hy1 (by norm_num)
  have eey : e * e * y ≤ 0.0168 * 0.0168 * 0.0441 := mul_le_mul ee hy2 hy1 (by norm_num)
  have eyy : e * (y * y) ≤ 0.0168 * (0.0441 * 0.0441) :=
    mul_le_mul he2 yy (mul_nonneg hy1 hy1) (by norm_num)
  have k1 : 0 ≤ e * e * y := mul_nonneg (mul_nonneg he1 he1) hy1
  have k2 : 0 ≤ e * (y * y) := mul_nonneg he1 (mul_nonneg hy1 hy1)
  have b1 := abs_le.mp (abs_mul_le_of_abs_le_one k1 h1)
  have b2 := abs_le.mp (abs_mul_le_of_abs_le_one k2 h2)
  have b3 := abs_le.mp (abs_mul_le_of_abs_le_one k1 h3)
  have hA' := abs_le.mp hA
  have e1 : A + 2.5 * e * e * y * q1 - 4 * e * y * y * q2 - 8 * e * e * y * q3 =
      A + 2.5 * (e * e * y * q1) - 4 * (e * (y * y) * q2) - 8 * (e * e * y * q3) := by ring
  rw [e1]
  generalize e * e * y * q1 = p1 at b1 ⊢
  generalize e * (y * y) * q2 = p2 at b2 ⊢
  generalize e * e * y * q3 = p3 at b3 ⊢
  generalize e * e * y = k at eey b1 b3
  generalize e * (y * y) = k' at eyy b2
  rw [abs_le]
  constructor <;> linarith only [b1.1, b1.2, b2.1, b2.2, b3.1, b3.2, hA'.1, hA'.2, eey, eyy]

/-- On `[-2, 1.01]` the first two formulas agree within 0.065 minutes. -/
lemma abs_equationOfTime2_sub_equationOfTime1_le (T : ℝ) (h1 : -2 ≤ T) (h2 : T ≤ 1.01) :
    |equationOfTime2 T - equationOfTime1 T| ≤ 0.065 := by
  have hpi1 := pi_gt_d2
  have hpi := pi_pos
  have he := calcEccentricityEarthOrbit_bounds T h1 h2
  have ho := calcObliquityCorrection2_bounds T h1 (by linarith only [h2])
  have hy := tan_sq_half_obliquity_bounds _ ho.1 ho.2
  have hT : |T| ≤ 2 := abs_le.mpr ⟨h1, by linarith only [h2]⟩
  have hq : |0.00000447 + 0.00000149 * T| ≤ 0.0000075 := by
    rw [abs_le]; constructor <;> linarith only [h1, h2]
  have hA : |0.00000447 * T + 0.00000149 * T * T| ≤ 0.000015 := by
    have e : 0.00000447 * T + 0.00000149 * T * T = T * (0.00000447 + 0.00000149 * T) := by ring
    rw [e]
    exact le_trans (abs_mul_le_mul hT hq) (by norm_num)
  have hD := eot_diff_core _ _ _ _ _ _ (le_trans (by norm_num) he.1) he.2
    (le_trans (by norm_num) hy.1) hy.2
    (abs_sin_mul_cos_le_one (2 * radians (calcGeomMeanAnomalySun T))
      (2 * radians (calcGeomMeanLongSun T)))
    (abs_sin_mul_cos_le_one (radians (calcGeomMeanAnomalySun T))
      (4 * radians (calcGeomMeanLongSun T)))
    (abs_sin_mul_sin_mul_sin_le_one (radians (calcGeomMeanAnomalySun T))
      (2 * radians (calcGeomMeanLongSun T))) hA
  rw [equationOfTime2_sub_equationOfTime1, degrees_eq, abs_mul, abs_mul,
    abs_of_pos (show (0 : ℝ) < 4 by norm_num),
    abs_of_pos (show 0 < 180 / π from div_pos (by norm_num) hpi)]
  have hk : 180 / π ≤ 57.5 := by rw [div_le_iff₀ hpi]; linarith only [hpi1]
  have hm := mul_le_mul hD hk (div_pos (by norm_num) hpi).le (by norm_num)
  linarith only [hm]

lemma sin_eq_neg_cos_sub (x : ℝ) : sin x = -cos (x - 7 * π / 2) := by
  have h : x = (x - 7 * π / 2) + π / 2 + π + 2 * π := by ring
  conv_lhs => rw [h]
  rw [sin_add_two_pi, sin_add_pi, sin_add_pi_div_two]

lemma cos_eq_neg_cos_sub (x : ℝ) : cos x = -cos (x - 5 * π) := by
  have h : x = (x - 5 * π) + π + 2 * π + 2 * π := by ring
  conv_lhs => rw [h]
  rw [cos_add_two_pi, cos_add_two_pi, cos_add_pi]

lemma sin_eq_cos_sub (x : ℝ) : sin x = cos (x - 5 * π / 2) := by
  have h : x = (x - 5 * π / 2) + π / 2 + 2 * π := by ring
  conv_lhs => rw [h]
  rw [sin_add_two_pi, sin_add_pi_div_two]

/-- The arithmetic of the gap between the formulas in early November. -/
lemma eot_gap_core (e y sM c4 s2 p1 A : ℝ) (he1 : 0.016708 ≤ e) (he2 : e ≤ 0.016709)
    (hy1 : 0.0416 ≤ y) (hy2 : y ≤ 0.0441) (hsM2 : sM ≤ -0.847)
    (hc2 : c4 ≤ -0.9994) (hs1 : 0.9998 ≤ s2) (hp : |p1| ≤ 1) (hA : A ≤ 0.0000001) :
    A + 2.5 * e * e * y * p1 - 4 * e * y * y * (sM * c4) - 8 * e * e * y * (sM * sM * s2) ≤
      -0.0001335 := by
  have e0 : 0 ≤ e := le_trans (by norm_num) he1
  have y0 : 0 ≤ y := le_trans (by norm_num) hy1
  have ee1 : 0.016708 * 0.016708 ≤ e * e := mul_le_mul he1 he1 (by norm_num) e0
  have ee2 : e * e ≤ 0.016709 * 0.016709 := mul_le_mul he2 he2 e0 (by norm_num)
  have yy1 : 0.0416 * 0.0416 ≤ y * y := mul_le_mul hy1 hy1 (by norm_num) y0
  have eey1 : 0.016708 * 0.016708 * 0.0416 ≤ e * e * y :=
    mul_le_mul ee1 hy1 (by norm_num) (mul_nonneg e0 e0)
  have eey2 : e * e * y ≤ 0.016709 * 0.016709 * 0.0441 :=
    mul_le_mul ee2 hy2 y0 (by norm_num)
  have eyy1 : 0.016708 * (0.0416 * 0.0416) ≤ e * (y * y) :=
    mul_le_mul he1 yy1 (by norm_num) e0
  have q2 : 0.847 * 0.9994 ≤ sM * c4 := by
    have := mul_le_mul (show 0.847 ≤ -sM by linarith only [hsM2])
      (show 0.9994 ≤ -c4 by linarith only [hc2]) (by norm_num)
      (show 0 ≤ -sM by linarith only [hsM2])
    linarith only [this]
  have ss : 0.847 * 0.847 ≤ sM * sM := by
    have := mul_le_mul (show 0.847 ≤ -sM by linarith only [hsM2])
      (show 0.847 ≤ -sM by linarith only [hsM2]) (by norm_num)
      (show 0 ≤ -sM by linarith only [hsM2])
    linarith only [this]
  have q3 : 0.847 * 0.847 * 0.9998 ≤ sM * sM * s2 :=
    mul_le_mul ss hs1 (by norm_num) (mul_self_nonneg sM)
  have k1 : 0 ≤ e * e * y := mul_nonneg (mul_nonneg e0 e0) y0
  have b1 := (abs_le.mp (abs_mul_le_of_abs_le_one k1 hp)).2
  have t2 : 0.016708 * (0.0416 * 0.0416) * (0.847 * 0.9994) ≤ e * (y * y) * (sM * c4) :=
    mul_le_mul eyy1 q2 (by norm_num) (mul_nonneg e0 (mul_nonneg y0 y0))
  have t3 : 0.016708 * 0.016708 * 0.0416 * (0.847 * 0.847 * 0.9998) ≤
      e * e * y * (sM * sM * s2) :=
    mul_le_mul eey1 q3 (by norm_num) k1
  have e1 : A + 2.5 * e * e * y * p1 - 4 * e * y * y * (sM * c4) -
      8 * e * e * y * (sM * sM * s2) =
      A + 2.5 * (e * e * y * p1) - 4 * (e * (y * y) * (sM * c4)) -
        8 * (e * e * y * (sM * sM * s2)) := by ring
  rw [e1]
  generalize e * e * y * p1 = P1 at b1 ⊢
  generalize e * (y * y) * (sM * c4) = P2 at t2 ⊢
  generalize e * e * y * (sM * sM * s2) = P3 at t3 ⊢
  generalize e * e * y = k at eey2 b1
  linarith only [b1, t2, t3, eey2, hA]

/-- The gap between the formulas from bounds on the mean elements. -/
lemma equationOfTime_gap_of_bounds (T : ℝ)
    (ho1 : 23.4 ≤ calcObliquityCorrection2 T) (ho2 : calcObliquityCorrection2 T ≤ 23.48)
    (hL1 : 224.538 ≤ calcGeomMeanLongSun T) (hL2 : calcGeomMeanLongSun T ≤ 224.539)
    (hM1 : 661.58 ≤ calcGeomMeanAnomalySun T) (hM2 : calcGeomMeanAnomalySun T ≤ 661.59)
    (he1 : 0.016708 ≤ calcEccentricityEarthOrbit T)
    (he2 : calcEccentricityEarthOrbit T ≤ 0.016709)
    (hA : 0.00000447 * T + 0.00000149 * T * T ≤ 0.0000001) :
    equationOfTime2 T - equationOfTime1 T ≤ -0.03 := by
  have hpi2 := pi_lt_d2
  have hpi := pi_pos
  have hy := tan_sq_half_obliquity_bounds _ ho1 ho2
  rw [equationOfTime2_sub_equationOfTime1]
  generalize calcGeomMeanLongSun T = L at hL1 hL2 ⊢
  generalize calcGeomMeanAnomalySun T = M at hM1 hM2 ⊢
  have sM : sin (radians M) ≤ -0.847 := by
    have hu : radians M - 7 * π / 2 = radians (M - 630) := by unfold radians; ring
    rw [sin_eq_neg_cos_sub, hu]
    have := cos_ge_of_abs_le
      (radians_lower_neg (x := M - 630) (b := 31.59) (by norm_num) (by linarith only [hM1]))
      (radians_upper (x := M - 630) (b := 31.59) (by norm_num) (by linarith only [hM2]))
    linarith only [this]
  have c4 : cos (4 * radians L) ≤ -0.9994 := by
    have hu : 4 * radians L - 5 * π = radians (4 * L - 900) := by unfold radians; ring
    rw [cos_eq_neg_cos_sub, hu]
    have := cos_ge_of_abs_le
      (radians_lower_neg (x := 4 * L - 900) (b := 1.85) (by norm_num) (by linarith only [hL1]))
      (radians_upper (x := 4 * L - 900) (b := 1.85) (by norm_num) (by linarith only [hL2]))
    linarith only [this]
  have s2 : 0.9998 ≤ sin (2 * radians L) := by
    have hu : 2 * radians L - 5 * π / 2 = radians (2 * L - 450) := by unfold radians; ring
    rw [sin_eq_cos_sub, hu]
    have := cos_ge_of_abs_le
      (radians_lower_neg (x := 2 * L - 450) (b := 0.93) (by norm_num) (by linarith only [hL1]))
      (radians_upper (x := 2 * L - 450) (b := 0.93) (by norm_num) (by linarith only [hL2]))
    linarith only [this]
  have p1 := abs_sin_mul_cos_le_one (2 * radians M) (2 * radians L)
  have hcore := eot_gap_core _ _ (sin (radians M)) (cos (4 * radians L)) (sin (2 * radians L))
    (sin (2 * radians M) * cos (2 * radians L)) _ he1 he2 hy.1 hy.2 sM c4 s2 p1 hA
  rw [degrees_eq]
  have hk : 57 ≤ 180 / π := by rw [le_div_iff₀ hpi]; linarith only [hpi2]
  have hm := mul_le_mul_of_nonneg_right hcore (le_trans (by norm_num) hk)
  linarith only [hm, hk]

/-! ### 5 November 2000, 0h UT -/

lemma century_20001105 :
    calcJulianCentSplit (calcJulianDay 2000 11 5 : ℝ) (fractionalDay 0 0 0) = 308.5 / 36525 := by
  norm_num [calcJulianCentSplit, calcJulianCent, fractionalDay, calcJulianDay, wrapInt]

lemma geomMeanLong_20001105 :
    224.538 ≤ calcGeomMeanLongSun (308.5 / 36525 : ℝ) ∧
      calcGeomMeanLongSun (308.5 / 36525 : ℝ) ≤ 224.539 := by
  have hL : calcGeomMeanLongSun (308.5 / 36525 : ℝ) =
      280.46646 + (308.5 / 36525) * (36000.76983 + 0.0003032 * (308.5 / 36525)) - 360 := by
    unfold calcGeomMeanLongSun
    rw [fmod_eq_of_nonneg 1 (by norm_num) (by norm_num) (by norm_num) (by norm_num)]
    norm_num
  rw [hL]
  constructor <;> norm_num

lemma equationOfTime_gap_20001105 :
    equationOfTime2 (308.5 / 36525) - equationOfTime1 (308.5 / 36525) ≤ -0.03 := by
  have ho := calcObliquityCorrection2_bounds (308.5 / 36525) (by norm_num) (by norm_num)
  exact equationOfTime_gap_of_bounds _ ho.1 ho.2 geomMeanLong_20001105.1
    geomMeanLong_20001105.2 (by norm_num [calcGeomMeanAnomalySun])
    (by norm_num [calcGeomMeanAnomalySun]) (by norm_num [calcEccentricityEarthOrbit])
    (by norm_num [calcEccentricityEarthOrbit]) (by norm_num)

/-! ### The Julian Century of the years 1800 to 2100 -/

lemma fractionalDay_bounds (hour minute second : ℤ) (hh : 0 ≤ hour ∧ hour ≤ 23)
    (hm : 0 ≤ minute ∧ minute ≤ 59) (hs : 0 ≤ second ∧ second ≤ 59) :
    (0 : ℝ) ≤ fractionalDay hour minute second ∧ (fractionalDay hour minute second : ℝ) < 1 := by
  have h1 : (0 : ℝ) ≤ (hour : ℝ) := by exact_mod_cast hh.1
  have h2 : (hour : ℝ) ≤ 23 := by exact_mod_cast hh.2
  have m1 : (0 : ℝ) ≤ (minute : ℝ) := by exact_mod_cast hm.1
  have m2 : (minute : ℝ) ≤ 59 := by exact_mod_cast hm.2
  have s1 : (0 : ℝ) ≤ (second : ℝ) := by exact_mod_cast hs.1
  have s2 : (second : ℝ) ≤ 59 := by exact_mod_cast hs.2
  unfold fractionalDay
  generalize (hour : ℝ) = h at h1 h2 ⊢
  generalize (minute : ℝ) = m at m1 m2 ⊢
  generalize (second : ℝ) = s at s1 s2 ⊢
  constructor
  · rw [le_div_iff₀ (by norm_num)]
    linarith only [h1, m1, s1]
  · rw [div_lt_iff₀ (by norm_num)]
    linarith only [h2, m2, s2]

/-- The Julian Century of every date-time of the years 1800 to 2100 is in `[-2, 1.01]`. -/
lemma julianCentury_range (year month day hour minute second : ℤ)
    (hy : 1800 ≤ year ∧ year ≤ 2100) (hd : validDate year month day)
    (hh : 0 ≤ hour ∧ hour ≤ 23) (hm : 0 ≤ minute ∧ minute ≤ 59)
    (hs : 0 ≤ second ∧ second ≤ 59) :
    (-2 : ℝ) ≤ calcJulianCentSplit (calcJulianDay year month day)
        (fractionalDay hour minute second) ∧
      calcJulianCentSplit (calcJulianDay year month day : ℝ)
        (fractionalDay hour minute second) ≤ 1.01 := by
  have hf := fractionalDay_bounds hour minute second hh hm hs
  have hb := jdn_bounds hd
  have l1 := yearDays_mono (show (1799 : ℤ) ≤ year - 1 by omega)
  have l2 := yearDays_mono (show year ≤ (2100 : ℤ) by omega)
  have v1 : yearDays 1799 = 2379592 := by decide
  have v2 : yearDays 2100 = 2489530 := by decide
  have j1 : (2380021 : ℤ) ≤ jdn year month day := by omega
  have j2 : jdn year month day ≤ (2489958 : ℤ) := by omega
  have j1' : (2380021 : ℝ) ≤ (jdn year month day : ℝ) := by exact_mod_cast j1
  have j2' : (jdn year month day : ℝ) ≤ 2489958 := by exact_mod_cast j2
  rw [calcJulianDay_eq_jdn _ _ _ (by omega) (by omega) hd.1 hd.2.1]
  unfold calcJulianCentSplit calcJulianCent
  simp only []
  generalize (jdn year month day : ℝ) = j at j1' j2' ⊢
  generalize (fractionalDay hour minute second : ℝ) = f at hf ⊢
  constructor
  · rw [← add_div, le_div_iff₀ (by norm_num)]
    linarith only [hf.1, j1']
  · rw [← add_div, div_le_iff₀ (by norm_num)]
    linarith only [hf.2, j2']

/-! ### The first and the third formula at J2000.0 -/

lemma century_20000101_noon :
    calcJulianCentSplit (calcJulianDay 2000 1 1 : ℝ) (fractionalDay 12 0 0) = 0 := by
  norm_num [calcJulianCentSplit, calcJulianCent, fractionalDay, calcJulianDay, wrapInt]

/-- The arithmetic of the bound on the first formula. -/
lemma eot1_core (e y s1 s2 s3 s4 s5 : ℝ) (he1 : 0 ≤ e) (he2 : e ≤ 0.0168)
    (hy1 : 0 ≤ y) (hy2 : y ≤ 0.0441) (h1 : |s1| ≤ 1) (h2 : |s2| ≤ 1) (h3 : |s3| ≤ 1)
    (h4 : |s4| ≤ 1) (h5 : |s5| ≤ 1) :
    |y * s1 - 2 * e * s2 + 4 * e * y * s3 - 0.5 * y * y * s4 - 1.25 * e * e * s5| ≤ 0.085 := by
  have ey : e * y ≤ 0.0168 * 0.0441 := mul_le_mul he2 hy2 hy1 (by norm_num)
  have yy : y * y ≤ 0.0441 * 0.0441 := mul_le_mul hy2 hy2 hy1 (by norm_num)
  have ee : e * e ≤ 0.0168 * 0.0168 := mul_le_mul he2 he2 he1 (by norm_num)
  have a1 := abs_le.mp (abs_mul_le_of_abs_le_one hy1 h1)
  have a2 := abs_le.mp (abs_mul_le_of_abs_le_one he1 h2)
  have a3 := abs_le.mp (abs_mul_le_of_abs_le_one (mul_nonneg he1 hy1) h3)
  have a4 := abs_le.mp (abs_mul_le_of_abs_le_one (mul_nonneg hy1 hy1) h4)
  have a5 := abs_le.mp (abs_mul_le_of_abs_le_one (mul_nonneg he1 he1) h5)
  have e1 : y * s1 - 2 * e * s2 + 4 * e * y * s3 - 0.5 * y * y * s4 - 1.25 * e * e * s5 =
      y * s1 - 2 * (e * s2) + 4 * (e * y * s3) - 0.5 * (y * y * s4) - 1.25 * (e * e * s5) := by
    ring
  rw [e1]
  generalize y * s1 = p1 at a1 ⊢
  generalize e * s2 = p2 at a2 ⊢
  generalize e * y * s3 = p3 at a3 ⊢
  generalize y * y * s4 = p4 at a4 ⊢
  generalize e * e * s5 = p5 at a5 ⊢
  generalize e * y = k1 at ey a3
  generalize y * y = k2 at yy a4
  generalize e * e = k3 at ee a5
  rw [abs_le]
  constructor <;>
    linarith only [a1.1, a1.2, a2.1, a2.2, a3.1, a3.2, a4.1, a4.2, a5.1, a5.2, ey, yy, ee,
      he2, hy2]

/-- On `[-2, 1.01]` the first formula is within 20 minutes of zero. -/
lemma abs_equationOfTime1_le (T : ℝ) (h1 : -2 ≤ T) (h2 : T ≤ 1.01) :
    |equationOfTime1 T| ≤ 20 := by
  have hpi1 := pi_gt_d2
  have hpi := pi_pos
  have he := calcEccentricityEarthOrbit_bounds T h1 h2
  have ho := calcObliquityCorrection2_bounds T h1 (by linarith only [h2])
  have hy := tan_sq_half_obliquity_bounds _ ho.1 ho.2
  unfold equationOfTime1
  simp only []
  have hD := eot1_core (calcEccentricityEarthOrbit T)
    (tan (radians (calcObliquityCorrection2 T) / 2) *
      tan (radians (calcObliquityCorrection2 T) / 2))
    (sin (2 * radians (calcGeomMeanLongSun T))) (sin (radians (calcGeomMeanAnomalySun T)))
    (sin (radians (calcGeomMeanAnomalySun T)) * cos (2 * radians (calcGeomMeanLongSun T)))
    (sin (4 * radians (calcGeomMeanLongSun T))) (sin (2 * radians (calcGeomMeanAnomalySun T)))
    (le_trans (by norm_num) he.1) he.2 (le_trans (by norm_num) hy.1) hy.2
    (abs_sin_le_one _) (abs_sin_le_one _) (abs_sin_mul_cos_le_one _ _) (abs_sin_le_one _)
    (abs_sin_le_one _)
  have e1 : ∀ e y a b c d f : ℝ, y * a - 2 * e * b + 4 * e * y * b * c - 0.5 * y * y * d -
      1.25 * e * e * f = y * a - 2 * e * b + 4 * e * y * (b * c) - 0.5 * y * y * d -
      1.25 * e * e * f := fun e y a b c d f => by ring
  rw [e1, degrees_eq, abs_mul, abs_mul, abs_of_pos (show (0 : ℝ) < 4 by norm_num),
    abs_of_pos (show 0 < 180 / π from div_pos (by norm_num) hpi)]
  have hk : 180 / π ≤ 57.5 := by rw [div_le_iff₀ hpi]; linarith only [hpi1]
  have hm := mul_le_mul hD hk (div_pos (by norm_num) hpi).le (by norm_num)
  linarith only [hm]

/-- At J2000.0 the third formula is above 1121 minutes: the right ascension from `atan2` is
negative there, while the mean longitude from `fmod` is 280 degrees. -/
lemma equationOfTime3_zero_ge : 1121 ≤ equationOfTime3 0 := by
  have hL : calcGeomMeanLongSun (0 : ℝ) = 280.46646 := by
    rw [geomMeanLong_of_small (by norm_num) (by norm_num)]; norm_num
  have ha := calcSunRtAscension_fourth 0 280.46 (by norm_num) (by norm_num) (by norm_num)
    (by rw [hL]; norm_num) (by rw [hL]; norm_num)
  have hn := abs_le.mp (abs_calcNutationRtAscension_le 0)
  have hn' : calcNutationLongitude 0 * cos (radians (calcObliquityCorrection2 0)) / 3600 =
      calcNutationRtAscension 0 := rfl
  have hf : fmod (280.4664567 + 360007.6982779 * ((0 : ℝ) / 10) +
      0.03032028 * ((0 : ℝ) / 10 * ((0 : ℝ) / 10)) +
      ((0 : ℝ) / 10 * ((0 : ℝ) / 10) * ((0 : ℝ) / 10)) / 49931 -
      ((0 : ℝ) / 10 * ((0 : ℝ) / 10) * ((0 : ℝ) / 10) * ((0 : ℝ) / 10)) / 15300 -
      ((0 : ℝ) / 10 * ((0 : ℝ) / 10) * ((0 : ℝ) / 10) * ((0 : ℝ) / 10) * ((0 : ℝ) / 10)) / 2000000)
      360 = 280.4664567 := by
    rw [fmod_eq_of_nonneg 0 (by norm_num) (le_refl 0) (by norm_num) (by norm_num)]
    norm_num
  unfold equationOfTime3
  simp only []
  rw [hf, hn']
  generalize calcSunRtAscension 0 = a at ha ⊢
  generalize calcNutationRtAscension 0 = x at hn ⊢
  linarith only [ha.2, hn.1]

end TrigLemmas

/-! ## Not-a-number values in the sunrise solver -/

lemma hourAngle0_eq_none (d : DayData) (a : ℝ) (h : hourAngleArg d = some a)
    (hout : a < -1 ∨ 1 < a) : hourAngle0 d = none := by
  have hn : ¬ (-1 ≤ a ∧ a ≤ 1) := by
    rintro ⟨h1, h2⟩
    rcases hout with h' | h'
    · exact absurd h1 (not_le.mpr h')
    · exact absurd h2 (not_le.mpr h')
  simp [hourAngle0, h, acos, hn]

lemma approxTimes_none (d : DayData) (l : Bool) (h : hourAngle0 d = none) :
    (approxTimes d l).m1 = none ∧ (approxTimes d l).m2 = none := by
  cases l <;> simp [approxTimes, h]

lemma correctionStep_none (d : DayData) (l : Bool) (s : Fractions)
    (h : s.m1 = none ∧ s.m2 = none) :
    (correctionStep d l s).m1 = none ∧ (correctionStep d l s).m2 = none := by
  cases l <;> simp [correctionStep, horizonUpdate, h.1, h.2]

/-- A NaN hour angle `H0` makes the sunrise and the sunset NaN through both passes of the
loop, in both modes; the transit does not depend on `H0`. -/
lemma calcSunriseSunset_none (year month day : ℤ) (latitude longitude altitude : ℝ) (l : Bool)
    (h : hourAngle0 (dayData year month day latitude longitude altitude) = none) :
    (calcSunriseSunset year month day latitude longitude altitude l).sunrise = none ∧
    (calcSunriseSunset year month day latitude longitude altitude l).sunset = none ∧
    ∃ t, (calcSunriseSunset year month day latitude longitude altitude l).transit = some t := by
  have h0 := approxTimes_none _ l h
  have h1 := correctionStep_none (dayData year month day latitude longitude altitude) l _ h0
  have h2 := correctionStep_none (dayData year month day latitude longitude altitude) l _ h1
  simp only [calcSunriseSunset, Function.iterate_succ, Function.iterate_zero,
    Function.comp_apply, id_eq]
  exact ⟨h2.1, h2.2, _, rfl⟩

/-! ## Claims C1 and C3: sunrise, transit and sunset -/

/-- C1 (counterexample): at latitude 78 degrees north on 21 June 2000, with the standard
sunrise altitude -0.8333, the argument of `acos` is a number below -1, and the sunrise and
the sunset that `calcSunriseSunset` hands back are NaN (`none`): the not-a-number value
itself reaches the caller, where the claim has an explicit no-event result.  The function
has no other output than its three fractions. -/
theorem calcSunriseSunset_polar_day_nan :
    (∃ a : ℝ, hourAngleArg (dayData 2000 6 21 78 0 (-0.8333)) = some a ∧ a < -1) ∧
    (calcSunriseSunset 2000 6 21 78 0 (-0.8333) true).sunrise = none ∧
    (calcSunriseSunset 2000 6 21 78 0 (-0.8333) true).sunset = none := by
  obtain ⟨a, ha, hlt⟩ := hourAngleArg_polar
  have := calcSunriseSunset_none 2000 6 21 78 0 (-0.8333) true
    (hourAngle0_eq_none _ a ha (Or.inl hlt))
  exact ⟨⟨a, ha, hlt⟩, this.1, this.2.1⟩

/-- C1 (amended): for every date, location and altitude where the argument of `acos` lies
outside `[-1, 1]`, in both modes the sunrise and the sunset of `calcSunriseSunset` are NaN
(the NaN of `acos` propagates through both passes of the loop), and the transit is still a
number. -/
theorem calcSunriseSunset_circumpolar_nan (year month day : ℤ)
    (latitude longitude altitude : ℝ) (l : Bool) (a : ℝ)
    (h : hourAngleArg (dayData year month day latitude longitude altitude) = some a)
    (hout : a < -1 ∨ 1 < a) :
    (calcSunriseSunset year month day latitude longitude altitude l).sunrise = none ∧
    (calcSunriseSunset year month day latitude longitude altitude l).sunset = none ∧
    ∃ t, (calcSunriseSunset year month day latitude longitude altitude l).transit = some t :=
  calcSunriseSunset_none year month day latitude longitude altitude l
    (hourAngle0_eq_none _ a h hout)

/-- Witness of C1 (amended): latitude 78 degrees north on 21 June 2000, non-local mode. -/
theorem calcSunriseSunset_circumpolar_nan_witness :
    ∃ a : ℝ, hourAngleArg (dayData 2000 6 21 78 0 (-0.8333)) = some a ∧ (a < -1 ∨ 1 < a) ∧
      (calcSunriseSunset 2000 6 21 78 0 (-0.8333) false).sunrise = none ∧
      (calcSunriseSunset 2000 6 21 78 0 (-0.8333) false).sunset = none := by
  obtain ⟨a, ha, hlt⟩ := hourAngleArg_polar
  exact ⟨a, ha, Or.inl hlt,
    (calcSunriseSunset_circumpolar_nan 2000 6 21 78 0 (-0.8333) false a ha (Or.inl hlt)).1,
    (calcSunriseSunset_circumpolar_nan 2000 6 21 78 0 (-0.8333) false a ha (Or.inl hlt)).2.1⟩

/-- C3 (counterexample): on 18 March 2000 at longitude 120 degrees east (latitude 0, altitude
-0.8333) in local mode, the first pass of the loop does not store `m0 + transit_corr` as the
transit: that value is negative (about -0.83, the hour angle being near 360 degrees) and the
pass stores it wrapped (about 0.17). -/
theorem correctionStep_local_rewraps_transit :
    (correctionStep (dayData 2000 3 18 0 120 (-0.8333)) true
        (approxTimes (dayData 2000 3 18 0 120 (-0.8333)) true)).m0 ≠
      (approxTimes (dayData 2000 3 18 0 120 (-0.8333)) true).m0 +
        transitCorr (dayData 2000 3 18 0 120 (-0.8333))
          (approxTimes (dayData 2000 3 18 0 120 (-0.8333)) true).m0 := by
  have h := transit_update_neg_20000318
  have e : (correctionStep (dayData 2000 3 18 0 120 (-0.8333)) true
        (approxTimes (dayData 2000 3 18 0 120 (-0.8333)) true)).m0 =
      between0And1 ((approxTimes (dayData 2000 3 18 0 120 (-0.8333)) true).m0 +
        transitCorr (dayData 2000 3 18 0 120 (-0.8333))
          (approxTimes (dayData 2000 3 18 0 120 (-0.8333)) true).m0) := rfl
  rw [e, between0And1_of_neg h]
  exact fun h' => absurd h' (ne_of_gt (lt_add_one _))

/-- C3 (amended): in local mode each of the two passes of the loop of `calcSunriseSunset`
updates the rise and set fractions to `m + correction` with no wrapping (NaN staying NaN),
and the transit to `between0And1 (m0 + transit_corr)`; in non-local mode each pass wraps all
three.  The transit is wrapped in both modes. -/
theorem calcSunriseSunset_passes (year month day : ℤ) (latitude longitude altitude : ℝ) :
    (calcSunriseSunset year month day latitude longitude altitude true =
      (let d := dayData year month day latitude longitude altitude
       let wrapped0 := fun (m0 : ℝ) => between0And1 (m0 + transitCorr d m0)
       let plain := fun (m : Option ℝ) =>
         m.bind (fun x => (horizonCorr d x).map (fun c => x + c))
       { transit := some (wrapped0 (wrapped0 (approxTimes d true).m0))
         sunrise := plain (plain (approxTimes d true).m1)
         sunset := plain (plain (approxTimes d true).m2) })) ∧
    (calcSunriseSunset year month day latitude longitude altitude false =
      (let d := dayData year month day latitude longitude altitude
       let wrapped0 := fun (m0 : ℝ) => between0And1 (m0 + transitCorr d m0)
       let wrapped := fun (m : Option ℝ) =>
         (m.bind (fun x => (horizonCorr d x).map (fun c => x + c))).map between0And1
       { transit := some (wrapped0 (wrapped0 (approxTimes d false).m0))
         sunrise := wrapped (wrapped (approxTimes d false).m1)
         sunset := wrapped (wrapped (approxTimes d false).m2) })) := by
  constructor <;> rfl

/-! ## Claims C4 and C5: the Julian Day -/

/-- C4 (counterexample): 1 March 2147478931 and 1 March 2147478932 are valid dates in
lexicographic order, and the Julian Day of the second is below the Julian Day of the first.
For the second, `year + 4716` is 2147483648, one more than the largest `int`, and the `int`
sum is -2147483648.  For the year 2147483647, the largest `int`, the Julian Day of 1 March is
-784382787805.5. -/
theorem calcJulianDay_drops_past_int_range :
    validDate 2147478931 3 1 ∧ validDate 2147478932 3 1 ∧
    dateLE 2147478931 3 1 2147478932 3 1 ∧
    wrapInt (2147478931 + 4716) = 2147483647 ∧ wrapInt (2147478932 + 4716) = -2147483648 ∧
    (calcJulianDay 2147478931 3 1 : ℚ) = 784352294574.5 ∧
    (calcJulianDay 2147478932 3 1 : ℚ) = -784384509923.5 ∧
    (calcJulianDay 2147483647 3 1 : ℚ) = -784382787805.5 ∧
    ¬ ((calcJulianDay 2147478931 3 1 : ℚ) ≤ calcJulianDay 2147478932 3 1) := by
  have e1 : (calcJulianDay 2147478931 3 1 : ℚ) = 784352294574.5 := by
    norm_num [calcJulianDay, wrapInt]
  have e2 : (calcJulianDay 2147478932 3 1 : ℚ) = -784384509923.5 := by
    norm_num [calcJulianDay, wrapInt]
  have e3 : (calcJulianDay 2147483647 3 1 : ℚ) = -784382787805.5 := by
    norm_num [calcJulianDay, wrapInt]
  refine ⟨by decide, by decide, by decide, by decide, by decide, e1, e2, e3, ?_⟩
  rw [e1, e2]
  norm_num

/-- C4 (amended): for two valid proleptic Gregorian dates (month in 1..12, day in 1..length
of the month) whose years are from -2147483647 to 2147478931, the years for which `year - 1`
and `year + 4716` are in the range of a 32-bit `int`, in lexicographic `(year, month, day)`
order, the Julian Day of the first is at most the Julian Day of the second. -/
theorem calcJulianDay_monotone {α : Type*} [LinearOrderedField α] [FloorRing α]
    (y1 m1 d1 y2 m2 d2 : ℤ) (h1 : validDate y1 m1 d1) (h2 : validDate y2 m2 d2)
    (hy1 : -2147483647 ≤ y1 ∧ y1 ≤ 2147478931) (hy2 : -2147483647 ≤ y2 ∧ y2 ≤ 2147478931)
    (h : dateLE y1 m1 d1 y2 m2 d2) :
    (calcJulianDay y1 m1 d1 : α) ≤ calcJulianDay y2 m2 d2 := by
  rw [calcJulianDay_eq_jdn y1 m1 d1 hy1.1 hy1.2 h1.1 h1.2.1,
    calcJulianDay_eq_jdn y2 m2 d2 hy2.1 hy2.2 h2.1 h2.2.1]
  have h' : (jdn y1 m1 d1 : α) ≤ (jdn y2 m2 d2 : α) := by exact_mod_cast jdn_mono h1 h2 h
  exact sub_le_sub_right h' _

/-- Witness of C4 (amended): 31 December 2147478930 and 1 January 2147478931, the last
year of the range. -/
theorem calcJulianDay_monotone_witness :
    validDate 2147478930 12 31 ∧ validDate 2147478931 1 1 ∧
      dateLE 2147478930 12 31 2147478931 1 1 ∧
      (calcJulianDay 2147478930 12 31 : ℚ) ≤ calcJulianDay 2147478931 1 1 :=
  ⟨by decide, by decide, by decide,
    calcJulianDay_monotone 2147478930 12 31 2147478931 1 1 (by decide) (by decide)
      (by decide) (by decide) (by decide)⟩

/-- C5: the Julian Day of 1 January 2000 is exactly 2451544.5. -/
theorem calcJulianDay_2000_01_01 {α : Type*} [LinearOrderedField α] [FloorRing α] :
    (calcJulianDay 2000 1 1 : α) = 2451544.5 := by
  norm_num [calcJulianDay, wrapInt]

/-! ## Claims C6 and C7: ΔT -/

/-- C6: when the fractional year `y = year + (month - 0.5) / 12` is exactly an era boundary,
`calcDeltaT` returns the value of the first matching branch in most-recent-first order: for
2015 and 2005 the `[2005, 2015]` polynomial (which is 67.62 at 2015), for each of 1986, 1961,
1941, 1920, 1900, 1860, 1800, 1700, 1600, 500 the polynomial of the era that starts there, and
for -500 the `[-500, 500]` polynomial. -/
theorem calcDeltaT_at_boundary {α : Type*} [LinearOrderedField α] (year month : α) :
    (∀ p ∈ ([(2015, deltaT2005), (2005, deltaT2005), (1986, deltaT1986), (1961, deltaT1961),
      (1941, deltaT1941), (1920, deltaT1920), (1900, deltaT1900), (1860, deltaT1860),
      (1800, deltaT1800), (1700, deltaT1700), (1600, deltaT1600), (500, deltaT500),
      (-500, deltaTNeg500)] : List (α × (α → α))),
      year + (month - 0.5) / 12 = p.1 → calcDeltaT year month = p.2 p.1) ∧
    deltaT2005 (2015 : α) = 64.69 + 0.2930 * 10 ∧ deltaT2005 (2015 : α) = 67.62 := by
  refine ⟨?_, by norm_num [deltaT2005], by norm_num [deltaT2005]⟩
  intro p hp hy
  simp only [List.mem_cons, List.mem_singleton, List.not_mem_nil, or_false] at hp
  unfold calcDeltaT
  simp only [hy]
  rcases hp with rfl | rfl | rfl | rfl | rfl | rfl | rfl | rfl | rfl | rfl | rfl | rfl | rfl <;>
    norm_num

/-- Witness of C6: `calcDeltaT (2005, 0.5)` has fractional year 2005 and is the value of the
`[2005, 2015]` polynomial there. -/
theorem calcDeltaT_at_boundary_witness :
    (2005 : ℚ) + (0.5 - 0.5) / 12 = 2005 ∧ calcDeltaT (2005 : ℚ) 0.5 = deltaT2005 2005 :=
  ⟨by norm_num, (calcDeltaT_at_boundary (2005 : ℚ) 0.5).1 (2005, deltaT2005) (by simp)
    (by norm_num)⟩

/-- C7: at each of the 13 era boundaries of `calcDeltaT` the polynomials of the two adjacent
eras (the more recent one first) differ by at most 1 second. -/
theorem deltaT_jump_le_one {α : Type*} [LinearOrderedField α] :
    ∀ p ∈ ([(2015, deltaTAfter2015, deltaT2005), (2005, deltaT2005, deltaT1986),
      (1986, deltaT1986, deltaT1961), (1961, deltaT1961, deltaT1941),
      (1941, deltaT1941, deltaT1920), (1920, deltaT1920, deltaT1900),
      (1900, deltaT1900, deltaT1860), (1860, deltaT1860, deltaT1800),
      (1800, deltaT1800, deltaT1700), (1700, deltaT1700, deltaT1600),
      (1600, deltaT1600, deltaT500), (500, deltaT500, deltaTNeg500),
      (-500, deltaTNeg500, deltaTBeforeNeg500)] : List (α × (α → α) × (α → α))),
      |p.2.1 p.1 - p.2.2 p.1| ≤ 1 := by
  intro p hp
  simp only [List.mem_cons, List.mem_singleton, List.not_mem_nil, or_false] at hp
  rcases hp with rfl | rfl | rfl | rfl | rfl | rfl | rfl | rfl | rfl | rfl | rfl | rfl | rfl <;>
    · rw [abs_le]
      norm_num [deltaTAfter2015, deltaT2005, deltaT1986, deltaT1961, deltaT1941, deltaT1920,
        deltaT1900, deltaT1860, deltaT1800, deltaT1700, deltaT1600, deltaT500, deltaTNeg500,
        deltaTBeforeNeg500]

/-- Witness of C7: the splice at 1600, where the jump is the largest (about 0.25 s). -/
theorem deltaT_jump_le_one_witness : |deltaT1600 (1600 : ℚ) - deltaT500 1600| ≤ 1 :=
  deltaT_jump_le_one (1600, deltaT1600, deltaT500) (by simp)

/-! ## Claims C8 and C9: the equation of time -/

/-- C8: for every date-time and every selector other than 2 and 3 (0, negative values and
values above 3 included), `calcEquationOfTime` returns what it returns for selector 1, which
is `equationOfTime1` at the Julian Century of the date-time. -/
theorem calcEquationOfTime_default (year month day hour minute second sel : ℤ)
    (h2 : sel ≠ 2) (h3 : sel ≠ 3) :
    calcEquationOfTime year month day hour minute second sel =
        calcEquationOfTime year month day hour minute second 1 ∧
      calcEquationOfTime year month day hour minute second sel =
        equationOfTime1 (calcJulianCentSplit (calcJulianDay year month day)
          (fractionalDay hour minute second)) := by
  simp [calcEquationOfTime, h2, h3]

/-- Witness of C8: selector -7 on 1 January 2000, 12:00:00. -/
theorem calcEquationOfTime_default_witness :
    calcEquationOfTime 2000 1 1 12 0 0 (-7) = calcEquationOfTime 2000 1 1 12 0 0 1 :=
  (calcEquationOfTime_default 2000 1 1 12 0 0 (-7) (by decide) (by decide)).1

/-- C9 (counterexample): on 5 November 2000 at 00:00:00 the first and the second formula
differ by more than 0.02 minutes (by more than 0.03: Hughes' formula has terms of that size
that Smart's leaves out); and on 1 January 2000 at 12:00:00, where the Julian Century is 0,
the first and the third formula differ by more than 0.02 minutes (by more than 1000: the
right ascension from `atan2` is negative there and the third formula does not reduce its
result). -/
theorem equationOfTime_formulas_disagree :
    (validDate 2000 11 5 ∧
      ¬ (|calcEquationOfTime 2000 11 5 0 0 0 1 - calcEquationOfTime 2000 11 5 0 0 0 2| ≤ 0.02)) ∧
    (validDate 2000 1 1 ∧
      calcJulianCentSplit (calcJulianDay 2000 1 1 : ℝ) (fractionalDay 12 0 0) = 0 ∧
      ¬ (|calcEquationOfTime 2000 1 1 12 0 0 1 - calcEquationOfTime 2000 1 1 12 0 0 3| ≤ 0.02)) := by
  refine ⟨⟨by decide, ?_⟩, by decide, century_20000101_noon, ?_⟩
  · have h := equationOfTime_gap_20001105
    have e1 : calcEquationOfTime 2000 11 5 0 0 0 1 = equationOfTime1 (308.5 / 36525) := by
      simp only [calcEquationOfTime, century_20001105]; simp
    have e2 : calcEquationOfTime 2000 11 5 0 0 0 2 = equationOfTime2 (308.5 / 36525) := by
      simp only [calcEquationOfTime, century_20001105]; simp
    rw [e1, e2, abs_le]
    intro h'
    linarith only [h'.2, h]
  · have h3 := equationOfTime3_zero_ge
    have h1 := abs_le.mp (abs_equationOfTime1_le 0 (by norm_num) (by norm_num))
    have e1 : calcEquationOfTime 2000 1 1 12 0 0 1 = equationOfTime1 0 := by
      simp only [calcEquationOfTime, century_20000101_noon]; simp
    have e3 : calcEquationOfTime 2000 1 1 12 0 0 3 = equationOfTime3 0 := by
      simp only [calcEquationOfTime, century_20000101_noon]; simp
    rw [e1, e3, abs_le]
    intro h'
    linarith only [h'.1, h1.2, h3]

/-- C9 (amended): for every UTC date-time of the years 1800 to 2100 (a valid calendar date,
hour in 0..23, minute and second in 0..59) the first and the second equation-of-time formula
agree to within 0.065 minutes. -/
theorem equationOfTime_1_2_agree (year month day hour minute second : ℤ)
    (hy : 1800 ≤ year ∧ year ≤ 2100) (hd : validDate year month day)
    (hh : 0 ≤ hour ∧ hour ≤ 23) (hm : 0 ≤ minute ∧ minute ≤ 59)
    (hs : 0 ≤ second ∧ second ≤ 59) :
    |calcEquationOfTime year month day hour minute second 1 -
      calcEquationOfTime year month day hour minute second 2| ≤ 0.065 := by
  have hT := julianCentury_range year month day hour minute second hy hd hh hm hs
  have h := abs_equationOfTime2_sub_equationOfTime1_le _ hT.1 hT.2
  have e1 : calcEquationOfTime year month day hour minute second 1 =
      equationOfTime1 (calcJulianCentSplit (calcJulianDay year month day)
        (fractionalDay hour minute second)) := by
    simp [calcEquationOfTime]
  have e2 : calcEquationOfTime year month day hour minute second 2 =
      equationOfTime2 (calcJulianCentSplit (calcJulianDay year month day)
        (fractionalDay hour minute second)) := by
    simp [calcEquationOfTime]
  rw [e1, e2, abs_sub_comm]
  exact h

/-- Witness of C9 (amended): 1 January 2000, 12:00:00. -/
theorem equationOfTime_1_2_agree_witness :
    |calcEquationOfTime 2000 1 1 12 0 0 1 - calcEquationOfTime 2000 1 1 12 0 0 2| ≤ 0.065 :=
  equationOfTime_1_2_agree 2000 1 1 12 0 0 (by decide) (by decide) (by decide) (by decide)
    (by decide)

/-! ## Claim C10: the reduced mean longitude -/

/-- C10 (counterexample): one century before J2000.0 the mean longitude is negative
(-80.3030668 degrees), so it is not in `[0, 360)`. -/
theorem calcGeomMeanLongSun_neg_one :
    calcGeomMeanLongSun (-1 : ℝ) = -80.3030668 ∧ ¬ (0 ≤ calcGeomMeanLongSun (-1 : ℝ)) := by
  have h : calcGeomMeanLongSun (-1 : ℝ) = -80.3030668 := by
    unfold calcGeomMeanLongSun
    rw [fmod_eq_of_neg (-99) (by norm_num) (by norm_num) (by norm_num) (by norm_num)]
    norm_num
  rw [h]
  exact ⟨rfl, by norm_num⟩

/-- C10 (amended): for every `T` the mean longitude is strictly between -360 and 360; it is
in `[0, 360)` when the polynomial under `fmod` is not negative, in particular for every
`T ≥ 0`, and it is in `(-360, 0]` when that polynomial is negative.  The polynomial is not
negative for every `T ≥ -0.00779` and negative for `-1000 ≤ T ≤ -0.0078`: the sign changes
about 284.5 days before J2000.0, between 22 March 1999, 0h (Julian Century below -0.0078),
and 23 March 1999, 0h (Julian Century above -0.00779). -/
theorem calcGeomMeanLongSun_range {α : Type*} [LinearOrderedField α] [FloorRing α] (T : α) :
    (-360 < calcGeomMeanLongSun T ∧ calcGeomMeanLongSun T < 360) ∧
    (0 ≤ T → 0 ≤ calcGeomMeanLongSun T) ∧
    (0 ≤ 280.46646 + T * (36000.76983 + 0.0003032 * T) → 0 ≤ calcGeomMeanLongSun T) ∧
    (280.46646 + T * (36000.76983 + 0.0003032 * T) < 0 → calcGeomMeanLongSun T ≤ 0) ∧
    (-0.00779 ≤ T → 0 ≤ 280.46646 + T * (36000.76983 + 0.0003032 * T) ∧
      0 ≤ calcGeomMeanLongSun T) ∧
    (-1000 ≤ T → T ≤ -0.0078 → 280.46646 + T * (36000.76983 + 0.0003032 * T) < 0 ∧
      calcGeomMeanLongSun T ≤ 0) ∧
    calcJulianCent (calcJulianDay 1999 3 22 : α) = -285.5 / 36525 ∧
    calcJulianCent (calcJulianDay 1999 3 22 : α) ≤ -0.0078 ∧
    calcJulianCent (calcJulianDay 1999 3 23 : α) = -284.5 / 36525 ∧
    -0.00779 ≤ calcJulianCent (calcJulianDay 1999 3 23 : α) := by
  have hd1 : calcJulianCent (calcJulianDay 1999 3 22 : α) = -285.5 / 36525 := by
    norm_num [calcJulianCent, calcJulianDay, wrapInt]
  have hd2 : calcJulianCent (calcJulianDay 1999 3 23 : α) = -284.5 / 36525 := by
    norm_num [calcJulianCent, calcJulianDay, wrapInt]
  have hpos : -0.00779 ≤ T → 0 ≤ (280.46646 : α) + T * (36000.76983 + 0.0003032 * T) := by
    intro hT
    have hsq : (0 : α) ≤ 0.0003032 * (T * T) := mul_nonneg (by norm_num) (mul_self_nonneg T)
    have e : (280.46646 : α) + T * (36000.76983 + 0.0003032 * T) =
        280.46646 + 36000.76983 * T + 0.0003032 * (T * T) := by ring
    rw [e]
    linarith only [hT, hsq]
  have hneg : -1000 ≤ T → T ≤ -0.0078 →
      (280.46646 : α) + T * (36000.76983 + 0.0003032 * T) < 0 := by
    intro hT1 hT2
    have hq : (36000.4666 : α) ≤ 36000.76983 + 0.0003032 * T := by linarith only [hT1]
    have hm : T * (36000.76983 + 0.0003032 * T) ≤
        -0.0078 * (36000.76983 + 0.0003032 * T) :=
      mul_le_mul_of_nonneg_right hT2 (le_trans (by norm_num) hq)
    linarith only [hm, hq]
  unfold calcGeomMeanLongSun
  generalize hP : (280.46646 : α) + T * (36000.76983 + 0.0003032 * T) = P at hpos hneg
  have h360 : (0 : α) < 360 := by norm_num
  refine ⟨?_, ?_, ?_, ?_, fun hT => ⟨hpos hT, (fmod_nonneg_bounds h360 (hpos hT)).1⟩,
    fun hT1 hT2 => ⟨hneg hT1 hT2, (fmod_neg_bounds h360 (hneg hT1 hT2)).2⟩,
    hd1, by rw [hd1]; norm_num, hd2, by rw [hd2]; norm_num⟩
  · rcases lt_or_le P 0 with h | h
    · have := fmod_neg_bounds h360 h
      exact ⟨this.1, lt_of_le_of_lt this.2 h360⟩
    · have := fmod_nonneg_bounds h360 h
      exact ⟨lt_of_lt_of_le (neg_lt_zero.mpr h360) this.1, this.2⟩
  · intro hT
    have : 0 ≤ P := by rw [← hP]; positivity
    exact (fmod_nonneg_bounds h360 this).1
  · intro h
    exact (fmod_nonneg_bounds h360 h).1
  · intro h
    exact (fmod_neg_bounds h360 h).2

/-- Witness of C10 (amended): at `T = 1` the mean longitude is not negative, and on
1 January 1999, 0h (Julian Century `-365.5 / 36525`, before the change of sign) it is not
positive. -/
theorem calcGeomMeanLongSun_range_witness :
    (0 : ℚ) ≤ 1 ∧ 0 ≤ calcGeomMeanLongSun (1 : ℚ) ∧
      calcJulianCent (calcJulianDay 1999 1 1 : ℚ) = -365.5 / 36525 ∧
      calcGeomMeanLongSun (-365.5 / 36525 : ℚ) ≤ 0 :=
  ⟨by norm_num, (calcGeomMeanLongSun_range (1 : ℚ)).2.1 (by norm_num),
    by norm_num [calcJulianCent, calcJulianDay, wrapInt],
    ((calcGeomMeanLongSun_range (-365.5 / 36525 : ℚ)).2.2.2.2.2.1 (by norm_num)
      (by norm_num)).2⟩

/-! ## Interpolation -/

section InterpolationLemmas

variable {α : Type*} [LinearOrderedField α]

lemma isDiscontinuous_iff (y y2 : α) :
    ((decide (y < 0) != decide (y2 < 0)) && decide (|y| > 25)) = true ↔ isDiscontinuous y y2 := by
  unfold isDiscontinuous
  by_cases h1 : y < 0 <;> by_cases h2 : y2 < 0 <;> simp [h1, h2]

lemma shiftTowardMiddle_of_discontinuous {y y2 : α} (h : isDiscontinuous y y2) :
    y + (ind (y < 0) - ind (y2 < 0)) * 360 = shiftTowardMiddle y y2 := by
  unfold shiftTowardMiddle ind
  rw [if_pos h]
  by_cases h1 : y < 0
  · have h2 : ¬ y2 < 0 := fun h2 => h.1 ⟨fun _ => h2, fun _ => h1⟩
    rw [if_pos h1, if_pos h1, if_neg h2]; ring
  · have h2 : y2 < 0 := by
      by_contra h2
      exact h.1 ⟨fun h' => absurd h' h1, fun h' => absurd h' h2⟩
    rw [if_neg h1, if_neg h1, if_pos h2]; ring

/-- The `if ... else if` of source lines 15-18: the last sample is tested only when the first
one was not shifted. -/
lemma interpolateCoordinates_eq (n y1 y2 y3 : α) :
    interpolateCoordinates n y1 y2 y3 =
      interpolateQuadratic n (shiftTowardMiddle y1 y2) y2
        (if isDiscontinuous y1 y2 then y3 else shiftTowardMiddle y3 y2) := by
  unfold interpolateCoordinates interpolateQuadratic
  by_cases d1 : isDiscontinuous y1 y2
  · simp only [if_pos ((isDiscontinuous_iff y1 y2).mpr d1), if_pos d1,
      shiftTowardMiddle_of_discontinuous d1]
  · rw [if_neg (mt (isDiscontinuous_iff y1 y2).mp d1), if_neg d1]
    have e1 : shiftTowardMiddle y1 y2 = y1 := by unfold shiftTowardMiddle; rw [if_neg d1]
    by_cases d3 : isDiscontinuous y3 y2
    · simp only [if_pos ((isDiscontinuous_iff y3 y2).mpr d3), e1,
        shiftTowardMiddle_of_discontinuous d3]
    · have e3 : shiftTowardMiddle y3 y2 = y3 := by unfold shiftTowardMiddle; rw [if_neg d3]
      simp only [if_neg (mt (isDiscontinuous_iff y3 y2).mp d3), e1, e3]

end InterpolationLemmas

/-! ## The Julian Day is a whole number of days and a half -/

section HalfDay

variable {α : Type*} [LinearOrderedField α] [FloorRing α]

/-- For all integers, in the range of `int` or wrapped: the value is a sum of floors and
integers minus 1524.5. -/
lemma calcJulianDay_add_half (y m d : ℤ) :
    ∃ k : ℤ, (calcJulianDay y m d : α) + 0.5 = (k : α) := by
  unfold calcJulianDay
  simp only []
  generalize (if m ≤ 2 then wrapInt (y - 1) else y) = y1
  generalize (if m ≤ 2 then wrapInt (m + 12) else m) = m1
  refine ⟨⌊(365.25 : α) * ((wrapInt (y1 + 4716) : ℤ) : α)⌋ +
    ⌊(30.6001 : α) * ((wrapInt (m1 + 1) : ℤ) : α)⌋ + d +
    (2 - ⌊(y1 : α) / 100.0⌋ + ⌊((⌊(y1 : α) / 100.0⌋ : ℤ) : α) / 4⌋) - 1524, ?_⟩
  push_cast
  ring

lemma calcJulianDay_fract (y m d : ℤ) : Int.fract (calcJulianDay y m d : α) = 0.5 := by
  obtain ⟨k, hk⟩ := calcJulianDay_add_half (α := α) y m d
  have e : (calcJulianDay y m d : α) = ((k - 1 : ℤ) : α) + 0.5 := by
    push_cast; linarith only [hk]
  rw [e, Int.fract_int_add, Int.fract_eq_iff]
  exact ⟨by norm_num, by norm_num, 0, by simp⟩

end HalfDay

/-! ## The eras of ΔT -/

section Eras

variable {α : Type*} [LinearOrderedField α]

lemma fractionalYear_ne_int (year month k : ℤ) :
    (year : α) + ((month : α) - 0.5) / 12 ≠ (k : α) := by
  intro h
  have h' : ((24 * year + 2 * month - 1 : ℤ) : α) = ((24 * k : ℤ) : α) := by
    push_cast
    have : (24 : α) * ((year : α) + ((month : α) - 0.5) / 12) = 24 * (k : α) := by rw [h]
    rw [← this]; norm_num; ring
  have := Int.cast_injective h'
  omega

lemma era_step {y lo hi : α} (h : ¬ (lo ≤ y ∧ y ≤ hi)) (hhi : y ≤ hi) : y < lo :=
  not_le.mp (fun h' => h ⟨h', hhi⟩)

lemma find_cons_ite {β : Type*} {c : Prop} [Decidable c] (v r : β) (l : List (Bool × β))
    (h : ¬ c → (l.find? (fun p => p.1)).map (fun p => p.2) = some r) :
    (((decide c, v) :: l).find? (fun p => p.1)).map (fun p => p.2) =
      some (if c then v else r) := by
  by_cases hc : c
  · simp [hc]
  · simp [hc, h hc]

/-- The value of `calcDeltaT` is the value of the first branch of `eraBranches` whose test
holds. -/
lemma calcDeltaT_eq_first (year month : α) :
    ((eraBranches (year + (month - 0.5) / 12)).find? (fun p => p.1)).map (fun p => p.2) =
      some (calcDeltaT year month) := by
  unfold calcDeltaT eraBranches
  simp only []
  generalize year + (month - 0.5) / 12 = y
  refine find_cons_ite _ _ _ (fun h0 => ?_)
  refine find_cons_ite _ _ _ (fun h1 => ?_)
  refine find_cons_ite _ _ _ (fun h2 => ?_)
  refine find_cons_ite _ _ _ (fun h3 => ?_)
  refine find_cons_ite _ _ _ (fun h4 => ?_)
  refine find_cons_ite _ _ _ (fun h5 => ?_)
  refine find_cons_ite _ _ _ (fun h6 => ?_)
  refine find_cons_ite _ _ _ (fun h7 => ?_)
  refine find_cons_ite _ _ _ (fun h8 => ?_)
  refine find_cons_ite _ _ _ (fun h9 => ?_)
  refine find_cons_ite _ _ _ (fun h10 => ?_)
  refine find_cons_ite _ _ _ (fun h11 => ?_)
  refine find_cons_ite _ _ _ (fun h12 => ?_)
  have a1 := era_step h1 (not_lt.mp h0)
  have a2 := era_step h2 a1.le
  have a3 := era_step h3 a2.le
  have a4 := era_step h4 a3.le
  have a5 := era_step h5 a4.le
  have a6 := era_step h6 a5.le
  have a7 := era_step h7 a6.le
  have a8 := era_step h8 a7.le
  have a9 := era_step h9 a8.le
  have a10 := era_step h10 a9.le
  have a11 := era_step h11 a10.le
  have a12 := era_step h12 a11.le
  simp [a12]

lemma count_peel (prev p : Bool) (rest : List Bool) (h : prev = true → p = true)
    (hr : rest.count true = if p then 0 else 1) :
    ((p && !prev) :: rest).count true = if prev then 0 else 1 := by
  cases prev <;> cases p <;> simp_all

lemma count_head (p : Bool) (rest : List Bool) (hr : rest.count true = if p then 0 else 1) :
    (p :: rest).count true = 1 := by
  cases p <;> simp_all

lemma era_test_eq {y lo hi : α} (h : y ≠ lo) :
    decide (lo ≤ y ∧ y ≤ hi) = (decide (lo < y) && !decide (hi < y)) := by
  have e : lo ≤ y ↔ lo < y := ⟨fun h' => lt_of_le_of_ne h' (Ne.symm h), le_of_lt⟩
  by_cases h2 : hi < y
  · simp [e, h2, not_le.mpr h2]
  · simp [e, h2, not_lt.mp h2]

lemma era_last_eq {y lo : α} (h : y ≠ lo) : decide (y < lo) = !decide (lo < y) := by
  by_cases h2 : lo < y
  · simp [h2, not_lt.mpr h2.le]
  · simp [h2, lt_of_le_of_ne (not_lt.mp h2) h]

lemma era_chain {y lo hi : α} (h : lo < hi) :
    decide (hi < y) = true → decide (lo < y) = true := by
  simp only [decide_eq_true_eq]
  exact fun h' => lt_trans h h'

/-- A fractional year that is not a whole number lies in exactly one of the 14 ranges. -/
lemma eraBranches_count (y : α) (hne : ∀ k : ℤ, y ≠ (k : α)) :
    ((eraBranches y).map Prod.fst).count true = 1 := by
  have n1 : y ≠ 2005 := by have := hne 2005; rwa [Int.cast_ofNat] at this
  have n2 : y ≠ 1986 := by have := hne 1986; rwa [Int.cast_ofNat] at this
  have n3 : y ≠ 1961 := by have := hne 1961; rwa [Int.cast_ofNat] at this
  have n4 : y ≠ 1941 := by have := hne 1941; rwa [Int.cast_ofNat] at this
  have n5 : y ≠ 1920 := by have := hne 1920; rwa [Int.cast_ofNat] at this
  have n6 : y ≠ 1900 := by have := hne 1900; rwa [Int.cast_ofNat] at this
  have n7 : y ≠ 1860 := by have := hne 1860; rwa [Int.cast_ofNat] at this
  have n8 : y ≠ 1800 := by have := hne 1800; rwa [Int.cast_ofNat] at this
  have n9 : y ≠ 1700 := by have := hne 1700; rwa [Int.cast_ofNat] at this
  have n10 : y ≠ 1600 := by have := hne 1600; rwa [Int.cast_ofNat] at this
  have n11 : y ≠ 500 := by have := hne 500; rwa [Int.cast_ofNat] at this
  have n12 : y ≠ -500 := by have := hne (-500); rwa [Int.cast_neg, Int.cast_ofNat] at this
  simp only [eraBranches, List.map]
  rw [era_test_eq n1, era_test_eq n2, era_test_eq n3, era_test_eq n4, era_test_eq n5,
    era_test_eq n6, era_test_eq n7, era_test_eq n8, era_test_eq n9, era_test_eq n10,
    era_test_eq n11, era_test_eq n12, era_last_eq n12]
  refine count_head _ _ ?_
  refine count_peel _ _ _ (era_chain (by norm_num)) ?_
  refine count_peel _ _ _ (era_chain (by norm_num)) ?_
  refine count_peel _ _ _ (era_chain (by norm_num)) ?_
  refine count_peel _ _ _ (era_chain (by norm_num)) ?_
  refine count_peel _ _ _ (era_chain (by norm_num)) ?_
  refine count_peel _ _ _ (era_chain (by norm_num)) ?_
  refine count_peel _ _ _ (era_chain (by norm_num)) ?_
  refine count_peel _ _ _ (era_chain (by norm_num)) ?_
  refine count_peel _ _ _ (era_chain (by norm_num)) ?_
  refine count_peel _ _ _ (era_chain (by norm_num)) ?_
  refine count_peel _ _ _ (era_chain (by norm_num)) ?_
  refine count_peel _ _ _ (era_chain (by norm_num)) ?_
  cases decide (-500 < y) <;> rfl

/-- In a list of tested branches with exactly one test that holds, the first branch whose test
holds has the same value in every order of the list. -/
lemma find_perm_of_count {β : Type*} (l m : List (Bool × β)) (v : β)
    (hc : (l.map Prod.fst).count true = 1)
    (hf : (l.find? (fun p => p.1)).map (fun p => p.2) = some v) (hp : m.Perm l) :
    (m.find? (fun p => p.1)).map (fun p => p.2) = some v := by
  have hlen : (l.filter (fun p => p.1)).length = 1 := by
    rw [← hc, List.count_eq_countP, List.countP_map, List.countP_eq_length_filter]
    congr 1
    apply List.filter_congr
    rintro ⟨a, b⟩ _
    cases a <;> rfl
  obtain ⟨q, hq⟩ := List.length_eq_one.mp hlen
  have hq' : m.filter (fun p => p.1) = [q] := by
    have := hp.filter (fun p => p.1)
    rw [hq] at this
    exact List.perm_singleton.mp this
  rw [← List.filter_head?, hq] at hf
  rw [← List.filter_head?, hq']
  exact hf

end Eras

/-! ## Evaluating the sine, the cosine and the tangent -/

section TrigEval

open Real

/-- The Taylor polynomials of degree 7 of the sine and of degree 6 of the cosine on `[0, 1]`,
with the remainder `x ^ 8 / 35840` of the exponential series. -/
lemma sin_cos_taylor {x : ℝ} (h0 : 0 ≤ x) (h1 : x ≤ 1) :
    (x - x ^ 3 / 6 + x ^ 5 / 120 - x ^ 7 / 5040 - x ^ 8 / 35840 ≤ sin x ∧
      sin x ≤ x - x ^ 3 / 6 + x ^ 5 / 120 - x ^ 7 / 5040 + x ^ 8 / 35840) ∧
    (1 - x ^ 2 / 2 + x ^ 4 / 24 - x ^ 6 / 720 - x ^ 8 / 35840 ≤ cos x ∧
      cos x ≤ 1 - x ^ 2 / 2 + x ^ 4 / 24 - x ^ 6 / 720 + x ^ 8 / 35840) := by
  have hx : |x| ≤ 1 := abs_le.mpr ⟨le_trans (by norm_num) h0, h1⟩
  have h := Complex.exp_bound (x := (x : ℂ) * Complex.I) (by simpa using hx) (n := 8)
    (by norm_num)
  have hI2 : Complex.I ^ 2 = -1 := Complex.I_sq
  have hI3 : Complex.I ^ 3 = -Complex.I := by rw [pow_succ, hI2]; ring
  have hI4 : Complex.I ^ 4 = 1 := by rw [pow_succ, hI3]; ring_nf; rw [hI2]; ring
  have hI5 : Complex.I ^ 5 = Complex.I := by rw [pow_succ, hI4]; ring
  have hI6 : Complex.I ^ 6 = -1 := by rw [pow_succ, hI5]; ring_nf; rw [hI2]
  have hI7 : Complex.I ^ 7 = -Complex.I := by rw [pow_succ, hI6]; ring
  have e : Complex.exp ((x : ℂ) * Complex.I) -
        ∑ m ∈ Finset.range 8, ((x : ℂ) * Complex.I) ^ m / (m.factorial : ℂ) =
      ((cos x - (1 - x ^ 2 / 2 + x ^ 4 / 24 - x ^ 6 / 720) : ℝ) : ℂ) +
        ((sin x - (x - x ^ 3 / 6 + x ^ 5 / 120 - x ^ 7 / 5040) : ℝ) : ℂ) * Complex.I := by
    rw [Complex.exp_mul_I]
    simp only [Finset.sum_range_succ, Finset.sum_range_zero, mul_pow, hI2, hI3, hI4, hI5, hI6,
      hI7, Nat.factorial]
    push_cast
    ring
  rw [e] at h
  have hb : Complex.abs ((x : ℂ) * Complex.I) ^ 8 *
      (((8 : ℕ).succ : ℝ) * (((8 : ℕ).factorial : ℝ) * ((8 : ℕ) : ℝ))⁻¹) = x ^ 8 / 35840 := by
    have e1 : Complex.abs ((x : ℂ) * Complex.I) = x := by simp [abs_of_nonneg h0]
    rw [e1]
    simp [Nat.factorial]
    norm_num
    ring
  rw [hb] at h
  have hre := Complex.abs_re_le_abs
    (((cos x - (1 - x ^ 2 / 2 + x ^ 4 / 24 - x ^ 6 / 720) : ℝ) : ℂ) +
      ((sin x - (x - x ^ 3 / 6 + x ^ 5 / 120 - x ^ 7 / 5040) : ℝ) : ℂ) * Complex.I)
  have him := Complex.abs_im_le_abs
    (((cos x - (1 - x ^ 2 / 2 + x ^ 4 / 24 - x ^ 6 / 720) : ℝ) : ℂ) +
      ((sin x - (x - x ^ 3 / 6 + x ^ 5 / 120 - x ^ 7 / 5040) : ℝ) : ℂ) * Complex.I)
  rw [Complex.add_re, Complex.re_ofReal_mul, Complex.ofReal_re, Complex.I_re, mul_zero, add_zero]
    at hre
  rw [Complex.add_im, Complex.im_ofReal_mul, Complex.ofReal_im, Complex.I_im, mul_one, zero_add]
    at him
  have hc := abs_le.mp (hre.trans h)
  have hs := abs_le.mp (him.trans h)
  generalize x ^ 8 / 35840 = r at hc hs ⊢
  generalize sin x = s at hs ⊢
  generalize cos x = c at hc ⊢
  exact ⟨⟨by linarith only [hs.1], by linarith only [hs.2]⟩,
    by linarith only [hc.1], by linarith only [hc.2]⟩

/-- The radian measure of `x` degrees between two decimal bounds, from `3.141592 < π` and
`π < 3.141593`. -/
lemma radians_bounds_of {x : ℝ} (a b : ℝ) (ha : 0 ≤ a) (hax : a ≤ x) (hxb : x ≤ b) :
    a * 0.0174532888 ≤ radians x ∧ radians x ≤ b * 0.0174532945 := by
  have hpi1 := pi_gt_d6
  have hpi2 := pi_lt_d6
  have hk : (0 : ℝ) ≤ π / 180 := by positivity
  have h1 : a * 0.0174532888 ≤ a * (π / 180) :=
    mul_le_mul_of_nonneg_left (by linarith only [hpi1]) ha
  have h2 : a * (π / 180) ≤ x * (π / 180) := mul_le_mul_of_nonneg_right hax hk
  have h3 : b * (π / 180) ≤ b * 0.0174532945 :=
    mul_le_mul_of_nonneg_left (by linarith only [hpi2]) ((ha.trans hax).trans hxb)
  have h4 : x * (π / 180) ≤ b * (π / 180) := mul_le_mul_of_nonneg_right hxb hk
  rw [radians_eq]
  exact ⟨h1.trans h2, h4.trans h3⟩

/-- The sine and the cosine of an angle `x` in `[a, b]`, with `0 ≤ a` and `b ≤ 1`, between
the Taylor bounds at `a` and at `b`. -/
lemma sin_cos_bounds_of {x : ℝ} (a b : ℝ) (ha : 0 ≤ a) (hax : a ≤ x) (hxb : x ≤ b)
    (hb : b ≤ 1) :
    (a - a ^ 3 / 6 + a ^ 5 / 120 - a ^ 7 / 5040 - a ^ 8 / 35840 ≤ sin x ∧
      sin x ≤ b - b ^ 3 / 6 + b ^ 5 / 120 - b ^ 7 / 5040 + b ^ 8 / 35840) ∧
    (1 - b ^ 2 / 2 + b ^ 4 / 24 - b ^ 6 / 720 - b ^ 8 / 35840 ≤ cos x ∧
      cos x ≤ 1 - a ^ 2 / 2 + a ^ 4 / 24 - a ^ 6 / 720 + a ^ 8 / 35840) := by
  have hpi := pi_gt_d2
  have hx : 0 ≤ x := ha.trans hax
  have ta := sin_cos_taylor ha ((hax.trans hxb).trans hb)
  have tb := sin_cos_taylor (hx.trans hxb) hb
  have hbpi : b ≤ π / 2 := by linarith only [hpi, hb]
  have hneg : -(π / 2) ≤ 0 := by linarith only [hpi]
  exact ⟨⟨ta.1.1.trans (sin_le_sin_of_le_of_le_pi_div_two (hneg.trans ha) (hxb.trans hbpi) hax),
      (sin_le_sin_of_le_of_le_pi_div_two (hneg.trans hx) hbpi hxb).trans tb.1.2⟩,
    tb.2.1.trans (cos_le_cos_of_nonneg_of_le_pi hx (by linarith only [hpi, hb]) hxb),
    (cos_le_cos_of_nonneg_of_le_pi ha (by linarith only [hpi, hxb, hb]) hax).trans ta.2.2⟩

/-- The tangent of an angle `x` in `[a, b]`, with `0 ≤ a` and `b ≤ 1`, between two numbers
that the Taylor bounds of the sine and the cosine at `a` and at `b` allow. -/
lemma tan_bounds_of {x : ℝ} (a b p q : ℝ) (ha : 0 ≤ a) (hax : a ≤ x) (hxb : x ≤ b)
    (hb : b ≤ 1) (hp0 : 0 ≤ p)
    (hp : p * (1 - a ^ 2 / 2 + a ^ 4 / 24 - a ^ 6 / 720 + a ^ 8 / 35840) ≤
      a - a ^ 3 / 6 + a ^ 5 / 120 - a ^ 7 / 5040 - a ^ 8 / 35840)
    (hq0 : 0 ≤ q)
    (hq : b - b ^ 3 / 6 + b ^ 5 / 120 - b ^ 7 / 5040 + b ^ 8 / 35840 ≤
      q * (1 - b ^ 2 / 2 + b ^ 4 / 24 - b ^ 6 / 720 - b ^ 8 / 35840)) :
    p ≤ tan x ∧ tan x ≤ q := by
  have hx0 : 0 ≤ x := ha.trans hax
  have hb0 : 0 ≤ b := hx0.trans hxb
  have ha1 : a ≤ 1 := (hax.trans hxb).trans hb
  have ta := sin_cos_taylor ha ha1
  have tb := sin_cos_taylor hb0 hb
  have hca : 0 < cos a := cos_pos_of_le_one (abs_le.mpr ⟨by linarith only [ha], ha1⟩)
  have hcx : 0 < cos x :=
    cos_pos_of_le_one (abs_le.mpr ⟨by linarith only [hx0], hxb.trans hb⟩)
  have hcb : 0 < cos b := cos_pos_of_le_one (abs_le.mpr ⟨by linarith only [hb0], hb⟩)
  have hpi := pi_gt_d2
  have hxpi : x ≤ π := by linarith only [hpi, hxb, hb]
  have hbpi : b ≤ π := by linarith only [hpi, hb]
  have hxpi2 : x ≤ π / 2 := by linarith only [hpi, hxb, hb]
  have hbpi2 : b ≤ π / 2 := by linarith only [hpi, hb]
  have hneg : -(π / 2) ≤ 0 := by linarith only [hpi]
  constructor
  · have h1 : p * cos a ≤ sin a :=
      ((mul_le_mul_of_nonneg_left ta.2.2 hp0).trans hp).trans ta.1.1
    have h2 : p ≤ tan a := by
      rw [tan_eq_sin_div_cos, le_div_iff₀ hca]; exact h1
    have h3 : sin a * cos x ≤ sin x * cos a :=
      mul_le_mul (sin_le_sin_of_le_of_le_pi_div_two (hneg.trans ha) hxpi2 hax)
        (cos_le_cos_of_nonneg_of_le_pi ha hxpi hax) hcx.le
        (sin_nonneg_of_nonneg_of_le_pi hx0 hxpi)
    have h4 : tan a ≤ tan x := by
      rw [tan_eq_sin_div_cos, tan_eq_sin_div_cos, div_le_div_iff₀ hca hcx]; exact h3
    exact h2.trans h4
  · have h1 : sin b ≤ q * cos b :=
      (tb.1.2.trans hq).trans (mul_le_mul_of_nonneg_left tb.2.1 hq0)
    have h2 : tan b ≤ q := by
      rw [tan_eq_sin_div_cos, div_le_iff₀ hcb]; exact h1
    have h3 : sin x * cos b ≤ sin b * cos x :=
      mul_le_mul (sin_le_sin_of_le_of_le_pi_div_two (hneg.trans hx0) hbpi2 hxb)
        (cos_le_cos_of_nonneg_of_le_pi hx0 hbpi hxb) hcb.le
        (sin_nonneg_of_nonneg_of_le_pi hb0 hbpi)
    have h4 : tan x ≤ tan b := by
      rw [tan_eq_sin_div_cos, tan_eq_sin_div_cos, div_le_div_iff₀ hcx hcb]; exact h3
    exact h4.trans h2

lemma degrees_le_degrees {x y : ℝ} (h : x ≤ y) : degrees x ≤ degrees y := by
  rw [degrees_eq, degrees_eq]
  exact mul_le_mul_of_nonneg_right h (by positivity)

lemma degrees_pi_div_two : degrees (π / 2) = 90 ∧ degrees (-(π / 2)) = -90 := by
  have h : degrees (π / 2) = 90 := by
    rw [degrees_eq]; field_simp; ring
  refine ⟨h, ?_⟩
  rw [degrees_eq, neg_mul, ← degrees_eq, h]

end TrigEval

/-! ## The refraction branches at their boundaries -/

section RefractionLemmas

open Real

lemma tan_radians_values :
    (0.0874886 ≤ tan (radians 5) ∧ tan (radians 5) ≤ 0.0874888) ∧
      0.01003597 ≤ tan (radians 0.575) ∧ tan (radians 0.575) ≤ 0.01003599 := by
  have h5 := radians_bounds_of (x := 5) 5 5 (by norm_num) le_rfl le_rfl
  have h0 := radians_bounds_of (x := 0.575) 0.575 0.575 (by norm_num) le_rfl le_rfl
  exact ⟨tan_bounds_of 0.08726644 0.08726648 0.0874886 0.0874888 (by norm_num)
      (le_trans (by norm_num) h5.1) (le_trans h5.2 (by norm_num)) (by norm_num) (by norm_num)
      (by norm_num) (by norm_num) (by norm_num),
    tan_bounds_of 0.010035641 0.010035645 0.01003597 0.01003599 (by norm_num)
      (le_trans (by norm_num) h0.1) (le_trans h0.2 (by norm_num)) (by norm_num) (by norm_num)
      (by norm_num) (by norm_num) (by norm_num)⟩

lemma inv_bounds_of {t : ℝ} (u v a b : ℝ) (hu : 0 < u) (h1 : u ≤ t) (h2 : t ≤ v) (ha0 : 0 ≤ a)
    (ha : a * v ≤ 1) (hb0 : 0 ≤ b) (hb : 1 ≤ b * u) : a ≤ t⁻¹ ∧ t⁻¹ ≤ b := by
  have ht : 0 < t := lt_of_lt_of_le hu h1
  rw [inv_eq_one_div, le_div_iff₀ ht, div_le_iff₀ ht]
  exact ⟨(mul_le_mul_of_nonneg_left h2 ha0).trans ha, hb.trans (mul_le_mul_of_nonneg_left h1 hb0)⟩

lemma refractionCorrAbove5_eq (elev : ℝ) :
    refractionCorrAbove5 elev = (58.1 * (tan (radians elev))⁻¹ -
      0.07 * (tan (radians elev))⁻¹ ^ 3 + 0.000086 * (tan (radians elev))⁻¹ ^ 5) / 3600 := by
  unfold refractionCorrAbove5
  simp only [div_eq_mul_inv, mul_inv]
  ring

lemma calcRefractionCorr_eq (elev : ℝ) :
    calcRefractionCorr elev =
      if 85 < elev then 0
      else if 5 < elev then refractionCorrAbove5 elev
      else if -0.575 < elev then refractionCorrNearHorizon elev
      else refractionCorrBelow elev := by
  have e85 : (85.0 : ℝ) = 85 := by norm_num
  have e5 : (5.0 : ℝ) = 5 := by norm_num
  have e0 : (0.0 : ℝ) = 0 := by norm_num
  unfold calcRefractionCorr
  simp only [gt_iff_lt, e85, e5, e0]

lemma refraction_85_core (t : ℝ) (h1 : 0.0874886 ≤ t) (h2 : t ≤ 0.0874888) :
    0.0014 < (58.1 * t - 0.07 * t ^ 3 + 0.000086 * t ^ 5) / 3600 ∧
      (58.1 * t - 0.07 * t ^ 3 + 0.000086 * t ^ 5) / 3600 ≤ 0.0015 := by
  have ht : 0 ≤ t := le_trans (by norm_num) h1
  have h3 : t ^ 3 ≤ 0.0874888 ^ 3 := pow_le_pow_left₀ ht h2 3
  have h3' : 0 ≤ t ^ 3 := pow_nonneg ht 3
  have h5 : t ^ 5 ≤ 0.0874888 ^ 5 := pow_le_pow_left₀ ht h2 5
  have h5' : 0 ≤ t ^ 5 := pow_nonneg ht 5
  norm_num at h3 h5
  generalize t ^ 3 = a at h3 h3'
  generalize t ^ 5 = b at h5 h5'
  constructor
  · rw [lt_div_iff₀ (by norm_num)]; linarith only [h1, h3, h5']
  · rw [div_le_iff₀ (by norm_num)]; linarith only [h2, h3', h5]

lemma refraction_5_core (u : ℝ) (h1 : 11.43003 ≤ u) (h2 : u ≤ 11.43007) :
    0.00047 < (58.1 * u - 0.07 * u ^ 3 + 0.000086 * u ^ 5) / 3600 -
        refractionCorrNearHorizon (5 : ℝ) ∧
      (58.1 * u - 0.07 * u ^ 3 + 0.000086 * u ^ 5) / 3600 -
        refractionCorrNearHorizon (5 : ℝ) ≤ 0.0005 := by
  have hu : (0 : ℝ) ≤ 11.43003 := by norm_num
  have h3 : u ^ 3 ≤ 11.43007 ^ 3 := pow_le_pow_left₀ (hu.trans h1) h2 3
  have h3' : (11.43003 : ℝ) ^ 3 ≤ u ^ 3 := pow_le_pow_left₀ hu h1 3
  have h5 : u ^ 5 ≤ 11.43007 ^ 5 := pow_le_pow_left₀ (hu.trans h1) h2 5
  have h5' : (11.43003 : ℝ) ^ 5 ≤ u ^ 5 := pow_le_pow_left₀ hu h1 5
  have e : refractionCorrNearHorizon (5 : ℝ) = 574.625 / 3600 := by
    norm_num [refractionCorrNearHorizon]
  rw [e, ← sub_div]
  norm_num at h3 h3' h5 h5'
  generalize u ^ 3 = a at h3 h3'
  generalize u ^ 5 = b at h5 h5'
  constructor
  · rw [lt_div_iff₀ (by norm_num)]; linarith only [h1, h3, h5']
  · rw [div_le_iff₀ (by norm_num)]; linarith only [h2, h3', h5]

lemma refraction_0575_core (u : ℝ) (h1 : 99.6413 ≤ u) (h2 : u ≤ 99.6416) :
    0.00007 < 20.774 * u / 3600 - refractionCorrNearHorizon (-0.575 : ℝ) ∧
      20.774 * u / 3600 - refractionCorrNearHorizon (-0.575 : ℝ) ≤ 0.0001 := by
  have e : refractionCorrNearHorizon (-0.575 : ℝ) = 5298331764151 / 9216000000000 := by
    norm_num [refractionCorrNearHorizon]
  rw [e]
  constructor <;> linarith only [h1, h2]

/-- The sizes of the three jumps of `calcRefractionCorr`: the value of the branch on one side
of the boundary minus the value of the branch on the other side, at the boundary. -/
lemma refraction_jumps :
    (0.0014 < refractionCorrAbove5 85 ∧ refractionCorrAbove5 85 ≤ 0.0015) ∧
    (0.00047 < refractionCorrAbove5 5 - refractionCorrNearHorizon (5 : ℝ) ∧
      refractionCorrAbove5 5 - refractionCorrNearHorizon (5 : ℝ) ≤ 0.0005) ∧
    0.00007 < refractionCorrBelow (-0.575) - refractionCorrNearHorizon (-0.575 : ℝ) ∧
      refractionCorrBelow (-0.575) - refractionCorrNearHorizon (-0.575 : ℝ) ≤ 0.0001 := by
  have ht := tan_radians_values
  have e85 : radians 85 = π / 2 - radians 5 := by unfold radians; ring
  have hu5 := inv_bounds_of 0.0874886 0.0874888 11.43003 11.43007 (by norm_num) ht.1.1 ht.1.2
    (by norm_num) (by norm_num) (by norm_num) (by norm_num)
  have hu0 := inv_bounds_of 0.01003597 0.01003599 99.6413 99.6416 (by norm_num) ht.2.1 ht.2.2
    (by norm_num) (by norm_num) (by norm_num) (by norm_num)
  have eb : refractionCorrBelow (-0.575) = 20.774 * (tan (radians 0.575))⁻¹ / 3600 := by
    unfold refractionCorrBelow
    rw [radians_neg, tan_neg]
    simp only [div_eq_mul_inv, inv_neg]
    ring
  refine ⟨?_, ?_, ?_⟩
  · rw [refractionCorrAbove5_eq, e85, tan_pi_div_two_sub, inv_inv]
    exact refraction_85_core _ ht.1.1 ht.1.2
  · rw [refractionCorrAbove5_eq]
    exact refraction_5_core _ hu5.1 hu5.2
  · rw [eb]
    exact refraction_0575_core _ hu0.1 hu0.2

end RefractionLemmas

/-! ## The declination at J2000.0 and the node of the nutation series -/

section EpochValues

open Real

/-- The declination for an obliquity and an apparent longitude near their values at
J2000.0. -/
lemma declination_core (e l : ℝ) (he1 : 23.43673 ≤ e) (he2 : e ≤ 23.4393)
    (hl1 : 280.3716 ≤ l) (hl2 : l ≤ 280.3814) :
    -23.04 ≤ degrees (arcsin (sin (radians e) * sin (radians l))) ∧
      degrees (arcsin (sin (radians e) * sin (radians l))) ≤ -23.02 := by
  have re := radians_bounds_of 23.43673 23.4393 (by norm_num) he1 he2
  have hA := (sin_cos_bounds_of 0.409048 0.409094 (by norm_num) (le_trans (by norm_num) re.1)
    (le_trans re.2 (by norm_num)) (by norm_num)).1
  have ru := radians_bounds_of (x := l - 270) 10.3716 10.3814 (by norm_num)
    (by linarith only [hl1]) (by linarith only [hl2])
  have hB := (sin_cos_bounds_of 0.181018 0.18119 (by norm_num) (le_trans (by norm_num) ru.1)
    (le_trans ru.2 (by norm_num)) (by norm_num)).2
  have r4 := radians_bounds_of (x := 23.04) 23.04 23.04 (by norm_num) le_rfl le_rfl
  have hD1 := (sin_cos_bounds_of 0.402123 0.402125 (by norm_num) (le_trans (by norm_num) r4.1)
    (le_trans r4.2 (by norm_num)) (by norm_num)).1.1
  have r2 := radians_bounds_of (x := 23.02) 23.02 23.02 (by norm_num) le_rfl le_rfl
  have hD2 := (sin_cos_bounds_of 0.401774 0.401775 (by norm_num) (le_trans (by norm_num) r2.1)
    (le_trans r2.2 (by norm_num)) (by norm_num)).1.2
  have hs : sin (radians l) = -cos (radians (l - 270)) := by
    have e1 : radians (l - 270) = radians l - 3 * π / 2 := by unfold radians; ring
    have e2 : radians l - 3 * π / 2 = radians l + π / 2 - 2 * π := by ring
    rw [e1, e2, cos_sub_two_pi, cos_add_pi_div_two, neg_neg]
  rw [hs]
  have hA1 : 0.39773 ≤ sin (radians e) := le_trans (by norm_num) hA.1
  have hA2 : sin (radians e) ≤ 0.39778 := le_trans hA.2 (by norm_num)
  have hB1 : 0.98362 ≤ cos (radians (l - 270)) := le_trans (by norm_num) hB.1
  have hB2 : cos (radians (l - 270)) ≤ 0.98367 := le_trans hB.2 (by norm_num)
  have hD1' : 0.39137 ≤ sin (radians 23.04) := le_trans (by norm_num) hD1
  have hD2' : sin (radians 23.02) ≤ 0.39106 := le_trans hD2 (by norm_num)
  generalize sin (radians e) = A at hA1 hA2
  generalize cos (radians (l - 270)) = B at hB1 hB2
  have hp1 : A * B ≤ 0.39778 * 0.98367 :=
    mul_le_mul hA2 hB2 (le_trans (by norm_num) hB1) (by norm_num)
  have hp2 : 0.39773 * 0.98362 ≤ A * B :=
    mul_le_mul hA1 hB1 (by norm_num) (le_trans (by norm_num) hA1)
  have hp : A * -B = -(A * B) := by ring
  rw [hp]
  generalize A * B = p at hp1 hp2
  have hmem : -p ∈ Set.Icc (-1 : ℝ) 1 := ⟨by linarith only [hp1], by linarith only [hp2]⟩
  have q1 := radians_mem_Ioo (x := -23.04) (by norm_num) (by norm_num)
  have q2 := radians_mem_Ioo (x := -23.02) (by norm_num) (by norm_num)
  constructor
  · have h : radians (-23.04) ≤ arcsin (-p) := by
      rw [le_arcsin_iff_sin_le ⟨q1.1.le, q1.2.le⟩ hmem, radians_neg, sin_neg]
      linarith only [hD1', hp1]
    have := degrees_le_degrees h
    rwa [degrees_radians] at this
  · have h : arcsin (-p) ≤ radians (-23.02) := by
      rw [arcsin_le_iff_le_sin hmem ⟨q2.1.le, q2.2.le⟩, radians_neg, sin_neg]
      linarith only [hD2', hp2]
    have := degrees_le_degrees h
    rwa [degrees_radians] at this

lemma calcSunEqOfCenter_zero :
    -0.08434 ≤ calcSunEqOfCenter 0 ∧ calcSunEqOfCenter 0 ≤ -0.08423 := by
  have hM : radians (357.52911 : ℝ) = -radians 2.47089 + 2 * π := by unfold radians; ring
  have rm := radians_bounds_of (x := 2.47089) 2.47089 2.47089 (by norm_num) le_rfl le_rfl
  have b1 : (0.043125 : ℝ) ≤ radians 2.47089 := le_trans (by norm_num) rm.1
  have b2 : radians 2.47089 ≤ 0.043126 := le_trans rm.2 (by norm_num)
  have e2 : 2 * (-radians 2.47089 + 2 * π) = -(2 * radians 2.47089) + (2 : ℕ) * (2 * π) := by
    push_cast; ring
  have e3 : 3 * (-radians 2.47089 + 2 * π) = -(3 * radians 2.47089) + (3 : ℕ) * (2 * π) := by
    push_cast; ring
  have e : calcSunEqOfCenter 0 = -(sin (radians 2.47089) * 1.914602 +
      sin (2 * radians 2.47089) * 0.019993 + sin (3 * radians 2.47089) * 0.000289) := by
    unfold calcSunEqOfCenter calcGeomMeanAnomalySun
    simp only [zero_mul, mul_zero, add_zero, sub_zero]
    rw [hM, e2, e3, sin_add_two_pi, sin_add_nat_mul_two_pi, sin_add_nat_mul_two_pi, sin_neg,
      sin_neg, sin_neg]
    ring
  rw [e]
  generalize radians 2.47089 = m at b1 b2
  have s1 := (sin_cos_bounds_of 0.043125 0.043126 (by norm_num) b1 b2 (by norm_num)).1
  have s2 := (sin_cos_bounds_of (x := 2 * m) 0.08625 0.086252 (by norm_num)
    (by linarith only [b1]) (by linarith only [b2]) (by norm_num)).1
  have s3 := (sin_cos_bounds_of (x := 3 * m) 0 0.129378 le_rfl (by linarith only [b1])
    (by linarith only [b2]) (by norm_num)).1
  have t1 : 0.0431 ≤ sin m := le_trans (by norm_num) s1.1
  have t1' : sin m ≤ 0.04313 := le_trans s1.2 (by norm_num)
  have t2 : 0.086 ≤ sin (2 * m) := le_trans (by norm_num) s2.1
  have t2' : sin (2 * m) ≤ 0.08626 := le_trans s2.2 (by norm_num)
  have t3 : 0 ≤ sin (3 * m) := le_trans (by norm_num) s3.1
  have t3' : sin (3 * m) ≤ 0.13 := le_trans s3.2 (by norm_num)
  generalize sin m = x1 at t1 t1'
  generalize sin (2 * m) = x2 at t2 t2'
  generalize sin (3 * m) = x3 at t3 t3'
  constructor <;> linarith only [t1, t1', t2, t2', t3, t3']

lemma calcSunApparentLong_zero :
    280.3716 ≤ calcSunApparentLong 0 ∧ calcSunApparentLong 0 ≤ 280.3814 := by
  have hC := calcSunEqOfCenter_zero
  have hL : calcGeomMeanLongSun (0 : ℝ) = 280.46646 := by
    rw [geomMeanLong_of_small (by norm_num) (by norm_num)]; norm_num
  unfold calcSunApparentLong calcSunTrueLong
  simp only []
  rw [hL]
  have hs1 := neg_one_le_sin (radians (125.04 - 1934.136 * 0))
  have hs2 := sin_le_one (radians (125.04 - 1934.136 * 0))
  generalize sin (radians (125.04 - 1934.136 * 0)) = s at hs1 hs2
  generalize calcSunEqOfCenter 0 = C at hC
  constructor <;> linarith only [hC.1, hC.2, hs1, hs2]

lemma calcObliquityCorrection1_zero :
    23.43673 ≤ calcObliquityCorrection1 0 ∧ calcObliquityCorrection1 0 ≤ 23.4393 := by
  have hpi1 := pi_gt_d2
  have hpi2 := pi_lt_d2
  have hc1 := neg_one_le_cos (radians (125.04 - 1934.136 * 0))
  have hc2 : cos (radians (125.04 - 1934.136 * 0)) ≤ 0 := by
    apply cos_nonpos_of_pi_div_two_le_of_le
    · unfold radians; linarith only [hpi1, hpi2]
    · unfold radians; linarith only [hpi1, hpi2]
  have e0 : calcMeanObliquityOfEcliptic (0 : ℝ) = 23 + (26 + 21.448 / 60) / 60 := by
    unfold calcMeanObliquityOfEcliptic; norm_num
  unfold calcObliquityCorrection1
  simp only []
  rw [e0]
  generalize cos (radians (125.04 - 1934.136 * 0)) = c at hc1 hc2
  constructor <;> linarith only [hc1, hc2]

lemma cos_node_zero : cos (radians 125.04452) ≤ -0.572 := by
  have e : radians 125.04452 = radians 35.04452 + π / 2 := by unfold radians; ring
  rw [e, cos_add_pi_div_two]
  have r := radians_bounds_of (x := 35.04452) 35.04452 35.04452 (by norm_num) le_rfl le_rfl
  have h := (sin_cos_bounds_of 0.61164 0.61165 (by norm_num) (le_trans (by norm_num) r.1)
    (le_trans r.2 (by norm_num)) (by norm_num)).1.1
  have h' : (0.572 : ℝ) ≤ 0.61164 - 0.61164 ^ 3 / 6 + 0.61164 ^ 5 / 120 - 0.61164 ^ 7 / 5040 -
      0.61164 ^ 8 / 35840 := by
    norm_num
  linarith only [h, h']

lemma nutation_gap_core (c : ℝ) (h : c ≤ -0.572) : 0.02 < 0.09 * (2 * c ^ 2 - 1 - c) := by
  have h1 : 0 ≤ (-0.572 - c) * (1 - 2 * (c + -0.572)) :=
    mul_nonneg (by linarith only [h]) (by linarith only [h])
  linarith only [h1]

end EpochValues

/-! ## Claims C11 and C12: sidereal time and declination -/

/-- C12: for every real Julian Century `T` the argument `sin ε * sin λ` of the arcsine in
`calcSunDeclination` is in `[-1, 1]` and the declination is in `[-90, 90]` degrees. -/
theorem calcSunDeclination_range (T : ℝ) :
    (-1 ≤ Real.sin (radians (calcObliquityCorrection1 T)) *
        Real.sin (radians (calcSunApparentLong T)) ∧
      Real.sin (radians (calcObliquityCorrection1 T)) *
        Real.sin (radians (calcSunApparentLong T)) ≤ 1) ∧
    calcSunDeclination T = degrees (Real.arcsin (Real.sin (radians (calcObliquityCorrection1 T)) *
      Real.sin (radians (calcSunApparentLong T)))) ∧
    -90 ≤ calcSunDeclination T ∧ calcSunDeclination T ≤ 90 := by
  have hd : calcSunDeclination T =
      degrees (Real.arcsin (Real.sin (radians (calcObliquityCorrection1 T)) *
        Real.sin (radians (calcSunApparentLong T)))) := rfl
  rw [hd]
  generalize radians (calcObliquityCorrection1 T) = e
  generalize radians (calcSunApparentLong T) = l
  have hp := abs_le.mp (abs_mul_le_mul (Real.abs_sin_le_one e) (Real.abs_sin_le_one l))
  have h1 := degrees_le_degrees (Real.neg_pi_div_two_le_arcsin (Real.sin e * Real.sin l))
  have h2 := degrees_le_degrees (Real.arcsin_le_pi_div_two (Real.sin e * Real.sin l))
  rw [degrees_pi_div_two.2] at h1
  rw [degrees_pi_div_two.1] at h2
  exact ⟨⟨by linarith only [hp.1], by linarith only [hp.2]⟩, rfl, h1, h2⟩

/-! ## Claim C13: the refraction correction at its branch boundaries -/

/-- C13 (counterexample): at `e0 = 85` the branch used just above returns 0 and the branch
used at and below (the value of `calcRefractionCorr 85`) is more than 0.0014 degrees, and at
`e0 = 5` the two branch formulas differ by more than 0.00047 degrees: neither jump is at most
0.0001 degrees. -/
theorem calcRefractionCorr_jump_at_85 :
    calcRefractionCorr 85 = refractionCorrAbove5 85 ∧
      (∀ e : ℝ, 85 < e → calcRefractionCorr e = 0) ∧
      ¬ (|(0 : ℝ) - refractionCorrAbove5 85| ≤ 0.0001) ∧
      ¬ (|refractionCorrAbove5 5 - refractionCorrNearHorizon (5 : ℝ)| ≤ 0.0001) := by
  have h := refraction_jumps
  refine ⟨by rw [calcRefractionCorr_eq]; norm_num,
    fun e he => by rw [calcRefractionCorr_eq, if_pos he], ?_, ?_⟩
  · rw [abs_le]
    intro h'
    linarith only [h.1.1, h'.1]
  · rw [abs_le]
    intro h'
    linarith only [h.2.1.1, h'.2]

/-- C13 (amended): `calcRefractionCorr` is 0 above 85, the tangent formula on `(5, 85]`, the
polynomial on `(-0.575, 5]` and `-20.774 / tan` at and below -0.575; at the boundary 85 the
two adjacent branch formulas differ by at most 0.0015 degrees, at 5 by at most 0.0005 degrees
and at -0.575 by at most 0.0001 degrees. -/
theorem calcRefractionCorr_jumps :
    ((∀ e : ℝ, 85 < e → calcRefractionCorr e = 0) ∧
      (∀ e : ℝ, 5 < e → e ≤ 85 → calcRefractionCorr e = refractionCorrAbove5 e) ∧
      (∀ e : ℝ, -0.575 < e → e ≤ 5 → calcRefractionCorr e = refractionCorrNearHorizon e) ∧
      (∀ e : ℝ, e ≤ -0.575 → calcRefractionCorr e = refractionCorrBelow e)) ∧
    |(0 : ℝ) - refractionCorrAbove5 85| ≤ 0.0015 ∧
    |refractionCorrAbove5 5 - refractionCorrNearHorizon (5 : ℝ)| ≤ 0.0005 ∧
    |refractionCorrNearHorizon (-0.575 : ℝ) - refractionCorrBelow (-0.575)| ≤ 0.0001 := by
  have h := refraction_jumps
  refine ⟨⟨fun e he => by rw [calcRefractionCorr_eq, if_pos he], fun e h1 h2 => ?_,
    fun e h1 h2 => ?_, fun e h1 => ?_⟩, ?_, ?_, ?_⟩
  · rw [calcRefractionCorr_eq, if_neg (not_lt.mpr h2), if_pos h1]
  · rw [calcRefractionCorr_eq, if_neg (not_lt.mpr (h2.trans (by norm_num))),
      if_neg (not_lt.mpr h2), if_pos h1]
  · rw [calcRefractionCorr_eq, if_neg (not_lt.mpr (h1.trans (by norm_num))),
      if_neg (not_lt.mpr (h1.trans (by norm_num))), if_neg (not_lt.mpr h1)]
  · rw [abs_le]
    constructor <;> linarith only [h.1.1, h.1.2]
  · rw [abs_le]
    constructor <;> linarith only [h.2.1.1, h.2.1.2]
  · rw [abs_le]
    constructor <;> linarith only [h.2.2.1, h.2.2.2]

/-- Witness of C13 (amended): the elevation 85 is in `(5, 85]` and takes the tangent
formula. -/
theorem calcRefractionCorr_jumps_witness :
    (5 : ℝ) < 85 ∧ (85 : ℝ) ≤ 85 ∧ calcRefractionCorr 85 = refractionCorrAbove5 85 :=
  ⟨by norm_num, le_rfl, calcRefractionCorr_jumps.1.2.1 85 (by norm_num) le_rfl⟩

/-! ## Claim C14: the declination on 1 January 2000 at noon -/

/-- C14: for 1 January 2000, 12:00:00 UTC the Julian Century is 0 and the declination that
`calcEquatorialCoordinates` returns is within 0.01 degrees of -23.03 degrees. -/
theorem calcEquatorialCoordinates_declination_j2000 :
    calcJulianCentSplit (calcJulianDay 2000 1 1 : ℝ) (fractionalDay 12 0 0) = 0 ∧
      |(calcEquatorialCoordinates 2000 1 1 12 0 0).2 - (-23.03)| ≤ 0.01 := by
  have e : (calcEquatorialCoordinates 2000 1 1 12 0 0).2 = calcSunDeclination 0 := by
    simp only [calcEquatorialCoordinates, century_20000101_noon]
  have h := declination_core _ _ calcObliquityCorrection1_zero.1 calcObliquityCorrection1_zero.2
    calcSunApparentLong_zero.1 calcSunApparentLong_zero.2
  refine ⟨century_20000101_noon, ?_⟩
  rw [e, abs_le]
  unfold calcSunDeclination
  simp only []
  constructor <;> linarith only [h.1, h.2]

/-! ## Claim C15: the fraction of the day -/

/-- C15: for hour in 0..23, minute in 0..59 and second in 0..59, `fractionalDay` is
`(hour + minute/60 + second/3600)/24` and lies in `[0, 1)` (it is at most 86399/86400). -/
theorem fractionalDay_range {α : Type*} [LinearOrderedField α] (hour minute second : ℤ)
    (hh : 0 ≤ hour ∧ hour ≤ 23) (hm : 0 ≤ minute ∧ minute ≤ 59)
    (hs : 0 ≤ second ∧ second ≤ 59) :
    (fractionalDay hour minute second : α) =
        ((hour : α) + (minute : α) / 60 + (second : α) / 3600) / 24 ∧
      (0 : α) ≤ fractionalDay hour minute second ∧ (fractionalDay hour minute second : α) < 1 ∧
      (fractionalDay hour minute second : α) ≤ 86399 / 86400 := by
  have e : (fractionalDay hour minute second : α) =
      (((3600 * hour + 60 * minute + second : ℤ)) : α) / 86400 := by
    unfold fractionalDay; push_cast; ring
  have e' : (fractionalDay hour minute second : α) =
      ((hour : α) + (minute : α) / 60 + (second : α) / 3600) / 24 := by
    unfold fractionalDay; norm_num
  have hpos : (0 : α) < 86400 := by norm_num
  have h0 : (0 : ℤ) ≤ 3600 * hour + 60 * minute + second := by omega
  have h1 : 3600 * hour + 60 * minute + second ≤ (86399 : ℤ) := by omega
  have h0' : (0 : α) ≤ ((3600 * hour + 60 * minute + second : ℤ) : α) := by exact_mod_cast h0
  have h1' : ((3600 * hour + 60 * minute + second : ℤ) : α) ≤ 86399 := by exact_mod_cast h1
  refine ⟨e', ?_, ?_, ?_⟩
  · rw [e]; exact div_nonneg h0' hpos.le
  · rw [e, div_lt_one hpos]; exact lt_of_le_of_lt h1' (by norm_num)
  · rw [e]; exact div_le_div_of_nonneg_right h1' hpos.le

/-- Witness of C15: 23:59:59, the last second of the day. -/
theorem fractionalDay_range_witness :
    (fractionalDay 23 59 59 : ℚ) = 86399 / 86400 ∧ (fractionalDay 23 59 59 : ℚ) < 1 :=
  ⟨by norm_num [fractionalDay],
    (fractionalDay_range 23 59 59 (by decide) (by decide) (by decide)).2.2.1⟩

/-! ## Claim C16: the interpolation -/

/-- C16 (counterexample): for the samples -170, 5, -175 both end samples pass the
discontinuity test; `interpolateCoordinates` shifts the first one only and returns -175 at
`n = 1`, where the interpolation with the correction made on each end sample returns 185. -/
theorem interpolateCoordinates_not_independent :
    isDiscontinuous (-170 : ℚ) 5 ∧ isDiscontinuous (-175 : ℚ) 5 ∧
      interpolateCoordinates (1 : ℚ) (-170) 5 (-175) = -175 ∧
      interpolateIndependent (1 : ℚ) (-170) 5 (-175) = 185 ∧
      interpolateCoordinates (1 : ℚ) (-170) 5 (-175) ≠
        interpolateIndependent (1 : ℚ) (-170) 5 (-175) := by
  have h1 : interpolateCoordinates (1 : ℚ) (-170) 5 (-175) = -175 := by
    norm_num [interpolateCoordinates, ind]
  have h2 : interpolateIndependent (1 : ℚ) (-170) 5 (-175) = 185 := by
    norm_num [interpolateIndependent, interpolateQuadratic, shiftTowardMiddle, isDiscontinuous]
  refine ⟨by norm_num [isDiscontinuous], by norm_num [isDiscontinuous], h1, h2, ?_⟩
  rw [h1, h2]; norm_num

/-- C16 (amended): `interpolateCoordinates` is the quadratic `y2 + n (a + b + n c) / 2` on the
first sample corrected by the discontinuity check and on the last sample corrected by it only
when the first sample was not shifted; so it agrees with the correction made on each end
sample on its own whenever the test does not hold for both end samples. -/
theorem interpolateCoordinates_sequential {α : Type*} [LinearOrderedField α] (n y1 y2 y3 : α) :
    interpolateCoordinates n y1 y2 y3 =
        interpolateQuadratic n (shiftTowardMiddle y1 y2) y2
          (if isDiscontinuous y1 y2 then y3 else shiftTowardMiddle y3 y2) ∧
      (¬ (isDiscontinuous y1 y2 ∧ isDiscontinuous y3 y2) →
        interpolateCoordinates n y1 y2 y3 = interpolateIndependent n y1 y2 y3) := by
  refine ⟨interpolateCoordinates_eq n y1 y2 y3, fun h => ?_⟩
  rw [interpolateCoordinates_eq]
  unfold interpolateIndependent
  by_cases h1 : isDiscontinuous y1 y2
  · have h3 : ¬ isDiscontinuous y3 y2 := fun h3 => h ⟨h1, h3⟩
    simp [h1, shiftTowardMiddle, h3]
  · simp [h1]

/-- Witness of C16 (amended): the samples 179, -179, -178 of a right ascension that wraps
between the first and the second day. -/
theorem interpolateCoordinates_sequential_witness :
    ¬ (isDiscontinuous (179 : ℚ) (-179) ∧ isDiscontinuous (-178 : ℚ) (-179)) ∧
      interpolateCoordinates (1 / 2 : ℚ) 179 (-179) (-178) =
        interpolateIndependent (1 / 2 : ℚ) 179 (-179) (-178) :=
  ⟨by norm_num [isDiscontinuous],
    (interpolateCoordinates_sequential (1 / 2 : ℚ) 179 (-179) (-178)).2
      (by norm_num [isDiscontinuous])⟩

/-! ## Claim C17: the nutation in obliquity -/

/-- C17 (the code against the series): for every `T` the value of `calcNutationObliquity`
minus the four-term series is `0.09 * (cos (2 Ω) - cos Ω)`, because the fourth term of the
source is `0.09 * cos(omega)`; at `T = 0` this is more than 0.02 arcseconds, so the function
is not the series there. -/
theorem calcNutationObliquity_fourth_term :
    (∀ T : ℝ, calcNutationObliquity T - nutationObliquitySeries T =
      0.09 * (Real.cos (2 * radians (125.04452 - 1934.136261 * T)) -
        Real.cos (radians (125.04452 - 1934.136261 * T)))) ∧
    0.02 < calcNutationObliquity 0 - nutationObliquitySeries 0 ∧
    calcNutationObliquity 0 ≠ nutationObliquitySeries 0 := by
  have hgen : ∀ T : ℝ, calcNutationObliquity T - nutationObliquitySeries T =
      0.09 * (Real.cos (2 * radians (125.04452 - 1934.136261 * T)) -
        Real.cos (radians (125.04452 - 1934.136261 * T))) := by
    intro T
    unfold calcNutationObliquity nutationObliquitySeries
    ring
  have h0 : 0.02 < calcNutationObliquity 0 - nutationObliquitySeries 0 := by
    rw [hgen 0, Real.cos_two_mul]
    simp only [mul_zero, sub_zero]
    exact nutation_gap_core _ cos_node_zero
  refine ⟨hgen, h0, fun h => ?_⟩
  rw [h, sub_self] at h0
  norm_num at h0

/-! ## Claim C19: the Julian Day ends in .5 -/

/-- C19: for all integers `year`, `month`, `day` (a calendar date or not) the value of
`calcJulianDay` plus 0.5 is an integer, its fractional part is 0.5, and that value is the
Julian Day for which `calcSunriseSunset` takes the mean sidereal time (inside the apparent
sidereal time `theta0`). -/
theorem calcJulianDay_half_integer (year month day : ℤ) :
    (∃ k : ℤ, (calcJulianDay year month day : ℝ) + 0.5 = k) ∧
      Int.fract (calcJulianDay year month day : ℝ) = 0.5 ∧
      ∀ latitude longitude altitude : ℝ,
        (dayData year month day latitude longitude altitude).theta0 =
          calcMeanSiderealTime (calcJulianDay year month day) +
            calcNutationRtAscension (calcJulianCent (calcJulianDay year month day)) :=
  ⟨calcJulianDay_add_half year month day, calcJulianDay_fract year month day,
    fun _ _ _ => rfl⟩

/-! ## Claim C20: the fractional year and the eras of ΔT -/

/-- C20: for integers `year` and `month` the fractional year `y = year + (month - 0.5) / 12`
is not an integer, exactly one of the 14 tests of `eraBranches y` holds, and for every order
of the 14 tested branches the first branch whose test holds returns the value of
`calcDeltaT year month`. -/
theorem calcDeltaT_unique_era {α : Type*} [LinearOrderedField α] (year month : ℤ) :
    (∀ k : ℤ, (year : α) + ((month : α) - 0.5) / 12 ≠ (k : α)) ∧
    ((eraBranches ((year : α) + ((month : α) - 0.5) / 12)).map Prod.fst).count true = 1 ∧
    ∀ l : List (Bool × α), l.Perm (eraBranches ((year : α) + ((month : α) - 0.5) / 12)) →
      (l.find? (fun p => p.1)).map (fun p => p.2) = some (calcDeltaT (year : α) (month : α)) := by
  have hne := fractionalYear_ne_int (α := α) year month
  have hc := eraBranches_count _ hne
  exact ⟨hne, hc, fun l hl => find_perm_of_count _ l _ hc (calcDeltaT_eq_first _ _) hl⟩

/-- Witness of C20: June 2000, with the branches tested from the oldest era to the most
recent one. -/
theorem calcDeltaT_unique_era_witness :
    ((eraBranches (((2000 : ℤ) : ℚ) + (((6 : ℤ) : ℚ) - 0.5) / 12)).reverse.find?
        (fun p => p.1)).map (fun p => p.2) = some (calcDeltaT ((2000 : ℤ) : ℚ) ((6 : ℤ) : ℚ)) :=
  (calcDeltaT_unique_era 2000 6).2.2 _ (List.reverse_perm _)


/-! ## Claim C21: the eccentricity and the radius vector over 1900 to 2100 -/

section RadiusVector

open Real

/-- The arithmetic of the radius vector: for an eccentricity `e` in `[0.0166, 0.0168]` and a
cosine `c` in `[-1, 1]` the denominator `1 + e c` is positive and the quotient is strictly
between 0.983 and 1.017. -/
lemma radVector_core (e c : ℝ) (he1 : 0.0166 ≤ e) (he2 : e ≤ 0.0168) (hc1 : -1 ≤ c)
    (hc2 : c ≤ 1) :
    0 < 1 + e * c ∧ 0.983 < 1.000001018 * (1 - e * e) / (1 + e * c) ∧
      1.000001018 * (1 - e * e) / (1 + e * c) < 1.017 := by
  have he0 : 0 ≤ e := le_trans (by norm_num) he1
  have m1 : e * (-1) ≤ e * c := mul_le_mul_of_nonneg_left hc1 he0
  have m2 : e * c ≤ e * 1 := mul_le_mul_of_nonneg_left hc2 he0
  have s1 : (0.0166 : ℝ) * 0.0166 ≤ e * e := mul_le_mul he1 he1 (by norm_num) he0
  have s2 : e * e ≤ 0.0168 * 0.0168 := mul_le_mul he2 he2 he0 (by norm_num)
  generalize e * c = p at m1 m2 ⊢
  generalize e * e = q at s1 s2 ⊢
  have hd : 0 < 1 + p := by linarith only [m1, he2]
  refine ⟨hd, ?_, ?_⟩
  · rw [lt_div_iff₀ hd]; linarith only [m2, he2, s2]
  · rw [div_lt_iff₀ hd]; linarith only [m1, he2, s1]

end RadiusVector

/-- C21: for every Julian Century `T` with `-1 ≤ T ≤ 1` the eccentricity
`calcEccentricityEarthOrbit T` is strictly between 0 and 1 (it is between 0.0166 and 0.0168),
the denominator `1 + e cos v` of the quotient that `calcSunRadVector T` returns is positive, and
the radius vector is strictly between 0.983 and 1.017. -/
theorem calcSunRadVector_range (T : ℝ) (h1 : -1 ≤ T) (h2 : T ≤ 1) :
    (0 < calcEccentricityEarthOrbit T ∧ calcEccentricityEarthOrbit T < 1) ∧
    (0.0166 ≤ calcEccentricityEarthOrbit T ∧ calcEccentricityEarthOrbit T ≤ 0.0168) ∧
    calcSunRadVector T =
      1.000001018 * (1 - calcEccentricityEarthOrbit T * calcEccentricityEarthOrbit T) /
        (1 + calcEccentricityEarthOrbit T * Real.cos (radians (calcSunTrueAnomaly T))) ∧
    0 < 1 + calcEccentricityEarthOrbit T * Real.cos (radians (calcSunTrueAnomaly T)) ∧
    0.983 < calcSunRadVector T ∧ calcSunRadVector T < 1.017 := by
  have he := calcEccentricityEarthOrbit_bounds T (by linarith only [h1]) (by linarith only [h2])
  have hr : calcSunRadVector T =
      1.000001018 * (1 - calcEccentricityEarthOrbit T * calcEccentricityEarthOrbit T) /
        (1 + calcEccentricityEarthOrbit T * Real.cos (radians (calcSunTrueAnomaly T))) := rfl
  have hc := radVector_core _ _ he.1 he.2 (Real.neg_one_le_cos (radians (calcSunTrueAnomaly T)))
    (Real.cos_le_one _)
  rw [hr]
  exact ⟨⟨lt_of_lt_of_le (by norm_num) he.1, lt_of_le_of_lt he.2 (by norm_num)⟩, he, rfl,
    hc.1, hc.2.1, hc.2.2⟩

/-- Witness of C21: the epoch J2000, `T = 0`, where the eccentricity is 0.016708634. -/
theorem calcSunRadVector_range_witness :
    calcEccentricityEarthOrbit (0 : ℝ) = 0.016708634 ∧
      0.983 < calcSunRadVector 0 ∧ calcSunRadVector 0 < 1.017 :=
  ⟨by norm_num [calcEccentricityEarthOrbit],
    (calcSunRadVector_range 0 (by norm_num) (by norm_num)).2.2.2.2⟩

/-! ## Rounding to a double -/

section DoubleLemmas

variable {α : Type*} [LinearOrderedField α] [FloorRing α]

/-- The integer that `roundHalfEven` returns is within one half of the number. -/
lemma roundHalfEven_near (x : α) : |((roundHalfEven x : ℤ) : α) - x| ≤ 1 / 2 := by
  have h0 := Int.fract_nonneg x
  have h1 := Int.fract_lt_one x
  have hx : x = ⌊x⌋ + Int.fract x := (Int.floor_add_fract x).symm
  unfold roundHalfEven
  generalize Int.fract x = f at h0 h1 hx ⊢
  generalize ⌊x⌋ = n at hx ⊢
  rw [abs_le, hx]
  split_ifs with a b c <;> push_cast <;> constructor <;>
    first | linarith only [h0, h1, a, b] | linarith only [h0, h1, a]

/-- The integer nearest to `x`, even in a tie, is what `roundHalfEven` returns. -/
lemma roundHalfEven_eq {x : α} {k : ℤ} (h1 : 2 * |x - k| ≤ 1)
    (h2 : 2 * |x - k| = 1 → k % 2 = 0) : roundHalfEven x = k := by
  have hk := abs_le.mp (show |x - k| ≤ 1 / 2 by linarith only [h1])
  by_cases hlo : x - k = -(1 / 2)
  · -- the tie below `k`
    have hk2 : k % 2 = 0 := h2 (by rw [hlo]; norm_num [abs_of_neg])
    have hf : ⌊x⌋ = k - 1 := by
      rw [Int.floor_eq_iff]; push_cast; constructor <;> linarith only [hlo]
    have hfr : Int.fract x = 1 / 2 := by
      rw [Int.fract, hf]; push_cast; linarith only [hlo]
    unfold roundHalfEven
    rw [hfr, hf, if_neg (by norm_num), if_neg (by norm_num), if_neg (by omega)]
    ring
  by_cases hhi : x - k = 1 / 2
  · have hk2 : k % 2 = 0 := h2 (by rw [hhi]; norm_num [abs_of_pos])
    have hf : ⌊x⌋ = k := by
      rw [Int.floor_eq_iff]; constructor <;> linarith only [hhi]
    have hfr : Int.fract x = 1 / 2 := by
      rw [Int.fract, hf]; linarith only [hhi]
    unfold roundHalfEven
    rw [hfr, hf, if_neg (by norm_num), if_neg (by norm_num), if_pos hk2]
  have h3 : -(1 / 2) < x - k := lt_of_le_of_ne hk.1 (Ne.symm hlo)
  have h4 : x - k < 1 / 2 := lt_of_le_of_ne hk.2 hhi
  rcases lt_or_le x k with hneg | hpos
  · have hf : ⌊x⌋ = k - 1 := by
      rw [Int.floor_eq_iff]; push_cast; constructor <;> linarith only [h3, hneg]
    have hfr : Int.fract x = x - k + 1 := by
      rw [Int.fract, hf]; push_cast; ring
    unfold roundHalfEven
    rw [hfr, hf, if_neg (by linarith only [h3]), if_pos (by linarith only [h3])]
    ring
  · have hf : ⌊x⌋ = k := by
      rw [Int.floor_eq_iff]; constructor <;> linarith only [h4, hpos]
    have hfr : Int.fract x = x - k := by
      rw [Int.fract, hf]
    unfold roundHalfEven
    rw [hfr, hf, if_pos (by linarith only [h4])]

lemma roundDouble_zero : roundDouble (0 : α) = 0 := by
  simp [roundDouble, roundHalfEven]

/-- The rounding error of one operation: at most `2 ^ (-53)` of a bound on the magnitude of
the exact result, plus `2 ^ (-1075)` for a result in the subnormal range. -/
lemma roundDouble_near {x X : α} (h : |x| ≤ X) :
    |roundDouble x - x| ≤ X / 2 ^ 53 + 2 ^ (-1075 : ℤ) := by
  have hη : (0 : α) < 2 ^ (-1075 : ℤ) := zpow_pos (by norm_num) _
  have hX : 0 ≤ X := le_trans (abs_nonneg x) h
  rcases eq_or_ne x 0 with rfl | hx
  · rw [roundDouble_zero, sub_zero, abs_zero]
    exact add_nonneg (div_nonneg hX (by positivity)) hη.le
  have hxpos : 0 < |x| := abs_pos.mpr hx
  unfold roundDouble
  simp only []
  have hq : ∀ e : ℤ, (0 : α) < 2 ^ (e - 52) := fun e => zpow_pos (by norm_num) _
  have key : ∀ e : ℤ, |((roundHalfEven (x / 2 ^ (e - 52)) : ℤ) : α) * 2 ^ (e - 52) - x| ≤
      2 ^ (e - 53) := by
    intro e
    have hr := roundHalfEven_near (x / (2 : α) ^ (e - 52))
    have e1 : ((roundHalfEven (x / 2 ^ (e - 52)) : ℤ) : α) * 2 ^ (e - 52) - x =
        (((roundHalfEven (x / 2 ^ (e - 52)) : ℤ) : α) - x / 2 ^ (e - 52)) * 2 ^ (e - 52) := by
      field_simp
    have e2 : (2 : α) ^ (e - 53) = 1 / 2 * 2 ^ (e - 52) := by
      rw [show e - 53 = (e - 52) - 1 by ring, zpow_sub_one₀ (by norm_num)]
      ring
    rw [e1, abs_mul, abs_of_pos (hq e), e2]
    exact mul_le_mul_of_nonneg_right hr (hq e).le
  refine le_trans (key _) ?_
  rcases le_total (Int.log 2 |x|) (-1022) with hl | hl
  · rw [max_eq_right hl]
    have : (2 : α) ^ ((-1022 : ℤ) - 53) = 2 ^ (-1075 : ℤ) := by norm_num
    rw [this]
    linarith only [div_nonneg hX (show (0 : α) ≤ 2 ^ 53 by positivity)]
  · rw [max_eq_left hl]
    have hlog := Int.zpow_log_le_self (b := 2) (by norm_num) hxpos
    rw [Nat.cast_ofNat] at hlog
    have e3 : (2 : α) ^ (Int.log 2 |x| - 53) = 2 ^ Int.log 2 |x| / 2 ^ 53 := by
      rw [zpow_sub₀ (by norm_num)]; norm_cast
    rw [e3]
    have := div_le_div_of_nonneg_right (le_trans hlog h) (show (0 : α) ≤ 2 ^ 53 by positivity)
    linarith only [this, hη]

/-- The double that an operation returns, from the exponent `e` of the exact result `x` and
the integer `k` nearest to `x / 2 ^ (e - 52)`, even in a tie. -/
lemma roundDouble_eq_of {x : α} (e k : ℤ) (he : -1022 ≤ e) (h1 : 2 ^ e ≤ |x|)
    (h2 : |x| < 2 ^ (e + 1)) (h3 : 2 * |x / 2 ^ (e - 52) - k| ≤ 1)
    (h4 : 2 * |x / 2 ^ (e - 52) - k| = 1 → k % 2 = 0) :
    roundDouble x = k * 2 ^ (e - 52) := by
  have hxpos : 0 < |x| := lt_of_lt_of_le (zpow_pos (by norm_num) _) h1
  have hlog : Int.log 2 |x| = e := by
    apply le_antisymm
    · have := (Int.lt_zpow_iff_log_lt (b := 2) (by norm_num) hxpos).mp
        (by rw [Nat.cast_ofNat]; exact h2)
      omega
    · exact (Int.zpow_le_iff_le_log (b := 2) (by norm_num) hxpos).mp
        (by rw [Nat.cast_ofNat]; exact h1)
  unfold roundDouble
  simp only []
  rw [hlog, max_eq_left he, roundHalfEven_eq h3 h4]

end DoubleLemmas

section DoubleInterpolation

variable {α : Type*} [LinearOrderedField α] [FloorRing α]

/-- One rounded operation in a chain.  The exact result `x` of the operation on the rounded
operands is within `D` of the value `x0` that exact arithmetic gives, and `x0` is at most
`M` in magnitude, where `D ≤ M / 1000`: then the rounded result is within
`D + 1.001 * M / 2 ^ 53 + E` of `x0`, with `E = 2 ^ (-1075)`. -/
lemma roundDouble_chain {x x0 M D : α} (hD : 1000 * D ≤ M)
    (h1 : -D ≤ x - x0) (h2 : x - x0 ≤ D) (h3 : -M ≤ x0) (h4 : x0 ≤ M) :
    -(D + 1.001 * M / 2 ^ 53 + 2 ^ (-1075 : ℤ)) ≤ roundDouble x - x0 ∧
      roundDouble x - x0 ≤ D + 1.001 * M / 2 ^ 53 + 2 ^ (-1075 : ℤ) := by
  have h := abs_le.mp (roundDouble_near (x := x) (X := 1.001 * M)
    (abs_le.mpr ⟨by linarith only [hD, h1, h3], by linarith only [hD, h2, h4]⟩))
  generalize (2 : α) ^ (-1075 : ℤ) = E at h ⊢
  generalize roundDouble x = r at h ⊢
  generalize (1.001 * M / 2 ^ 53 : α) = W at h ⊢
  exact ⟨by linarith only [h.1, h1], by linarith only [h.2, h2]⟩

set_option maxHeartbeats 800000 in
/-- The rounding error of the quadratic of source lines 19-22 at `n = 1` and at `n = -1`,
where the exact value is the last and the first sample. -/
lemma interpolateDouble_err (σ y1 y2 y3 : α) (hσ : σ = 1 ∨ σ = -1) :
    |roundDouble (y2 + roundDouble (roundDouble (σ * roundDouble
        (roundDouble (roundDouble (y2 - y1) + roundDouble (y3 - y2)) +
          roundDouble (σ * roundDouble (roundDouble (y3 - y2) - roundDouble (y2 - y1))))) / 2)) -
      (y2 + σ * ((y2 - y1) + (y3 - y2) + σ * ((y3 - y2) - (y2 - y1))) / 2)| ≤
      (|y1| + |y2| + |y3|) / 2 ^ 49 + 2 ^ (-1071 : ℤ) := by
  have hE : (0 : α) ≤ 2 ^ (-1075 : ℤ) := (zpow_pos (by norm_num) _).le
  have hE8 : (2 : α) ^ (-1071 : ℤ) = 16 * 2 ^ (-1075 : ℤ) := by
    rw [show (-1071 : ℤ) = 4 + -1075 by norm_num, zpow_add₀ (by norm_num)]
    norm_num
  have step : ∀ x x0 M D : α, 1000 * D ≤ M → -D ≤ x - x0 → x - x0 ≤ D → -M ≤ x0 → x0 ≤ M →
      -(D + 1.001 * M / 2 ^ 53 + 2 ^ (-1075 : ℤ)) ≤ roundDouble x - x0 ∧
        roundDouble x - x0 ≤ D + 1.001 * M / 2 ^ 53 + 2 ^ (-1075 : ℤ) :=
    fun x x0 M D => roundDouble_chain
  rw [hE8]
  generalize (2 : α) ^ (-1075 : ℤ) = E at hE step ⊢
  have a1 := neg_abs_le y1
  have a1' := le_abs_self y1
  have a2 := neg_abs_le y2
  have a2' := le_abs_self y2
  have a3 := neg_abs_le y3
  have a3' := le_abs_self y3
  generalize |y1| = A1 at a1 a1' ⊢
  generalize |y2| = A2 at a2 a2' ⊢
  generalize |y3| = A3 at a3 a3' ⊢
  obtain ⟨S, hS⟩ : ∃ S, S = A1 + A2 + A3 := ⟨_, rfl⟩
  have hS0 : 0 ≤ S := by linarith only [hS, a1, a1', a2, a2', a3, a3']
  rw [← hS]
  have y2b : -S ≤ y2 ∧ y2 ≤ S := ⟨by linarith only [hS, a1, a1', a2, a2', a3, a3'],
    by linarith only [hS, a1, a1', a2, a2', a3, a3']⟩
  have xa : -S ≤ y2 - y1 ∧ y2 - y1 ≤ S := ⟨by linarith only [hS, a1, a1', a2, a2', a3, a3'],
    by linarith only [hS, a1, a1', a2, a2', a3, a3']⟩
  have xb : -S ≤ y3 - y2 ∧ y3 - y2 ≤ S := ⟨by linarith only [hS, a1, a1', a2, a2', a3, a3'],
    by linarith only [hS, a1, a1', a2, a2', a3, a3']⟩
  clear a1 a1' a2 a2' a3 a3' hS
  generalize y2 - y1 = da at xa ⊢
  generalize y3 - y2 = db at xb ⊢
  obtain ⟨U, hU⟩ : ∃ U, U = 1.001 * S / 2 ^ 53 + E := ⟨_, rfl⟩
  have hU0 : 0 ≤ U := by rw [hU]; positivity
  have hU1 : 1000000 * U ≤ S + 1000000 * E := by rw [hU]; linarith only [hS0]
  -- a = fl (y2 - y1), b = fl (y3 - y2): within U
  have ea := step da da (S + 0 * E) 0 (by linarith only [hS0, hE]) (by linarith only [])
    (by linarith only []) (by linarith only [xa.1, hE]) (by linarith only [xa.2, hE])
  have eb := step db db (S + 0 * E) 0 (by linarith only [hS0, hE]) (by linarith only [])
    (by linarith only []) (by linarith only [xb.1, hE]) (by linarith only [xb.2, hE])
  have ea' : -U ≤ roundDouble da - da ∧ roundDouble da - da ≤ U :=
    ⟨by linarith only [ea.1, hU], by linarith only [ea.2, hU]⟩
  have eb' : -U ≤ roundDouble db - db ∧ roundDouble db - db ≤ U :=
    ⟨by linarith only [eb.1, hU], by linarith only [eb.2, hU]⟩
  clear ea eb
  generalize roundDouble da = a at ea' ⊢
  generalize roundDouble db = b at eb' ⊢
  -- c = fl (b - a), s = fl (a + b): within 4.1 U of db - da and of da + db
  have ec := step (b - a) (db - da) (2 * S + 2000000 * E) (2 * U)
    (by linarith only [hU1, hU0, hS0, hE]) (by linarith only [ea'.2, eb'.1]) (by linarith only [ea'.1, eb'.2])
    (by linarith only [xa.2, xb.1, hE]) (by linarith only [xa.1, xb.2, hE])
  have es := step (a + b) (da + db) (2 * S + 2000000 * E) (2 * U)
    (by linarith only [hU1, hU0, hS0, hE]) (by linarith only [ea'.1, eb'.1]) (by linarith only [ea'.2, eb'.2])
    (by linarith only [xa.1, xb.1, hE]) (by linarith only [xa.2, xb.2, hE])
  have ec' : -(4.1 * U) ≤ roundDouble (b - a) - (db - da) ∧
      roundDouble (b - a) - (db - da) ≤ 4.1 * U :=
    ⟨by linarith only [ec.1, hU, hS0, hE], by linarith only [ec.2, hU, hS0, hE]⟩
  have es' : -(4.1 * U) ≤ roundDouble (a + b) - (da + db) ∧
      roundDouble (a + b) - (da + db) ≤ 4.1 * U :=
    ⟨by linarith only [es.1, hU, hS0, hE], by linarith only [es.2, hU, hS0, hE]⟩
  clear ec es ea' eb'
  generalize roundDouble (b - a) = c at ec' ⊢
  generalize roundDouble (a + b) = s at es' ⊢
  -- nc = fl (σ * c): within 6.2 U of σ * (db - da)
  have enc := step (σ * c) (σ * (db - da)) (2 * S + 5000000 * E) (4.1 * U)
    (by linarith only [hU1, hU0, hS0, hE])
    (by rcases hσ with rfl | rfl <;> linarith only [ec'.1, ec'.2])
    (by rcases hσ with rfl | rfl <;> linarith only [ec'.1, ec'.2])
    (by rcases hσ with rfl | rfl <;> linarith only [xa.1, xa.2, xb.1, xb.2, hE])
    (by rcases hσ with rfl | rfl <;> linarith only [xa.1, xa.2, xb.1, xb.2, hE])
  have enc' : -(6.2 * U) ≤ roundDouble (σ * c) - σ * (db - da) ∧
      roundDouble (σ * c) - σ * (db - da) ≤ 6.2 * U :=
    ⟨by linarith only [enc.1, hU, hS0, hE], by linarith only [enc.2, hU, hS0, hE]⟩
  clear enc ec'
  generalize roundDouble (σ * c) = nc at enc' ⊢
  -- t = fl (s + nc): within 14.4 U of da + db + σ * (db - da)
  have et := step (s + nc) (da + db + σ * (db - da)) (4 * S + 11000000 * E) (10.3 * U)
    (by linarith only [hU1, hU0, hS0, hE]) (by linarith only [es'.1, enc'.1])
    (by linarith only [es'.2, enc'.2])
    (by rcases hσ with rfl | rfl <;> linarith only [xa.1, xa.2, xb.1, xb.2, hE])
    (by rcases hσ with rfl | rfl <;> linarith only [xa.1, xa.2, xb.1, xb.2, hE])
  have et' : -(14.4 * U) ≤ roundDouble (s + nc) - (da + db + σ * (db - da)) ∧
      roundDouble (s + nc) - (da + db + σ * (db - da)) ≤ 14.4 * U :=
    ⟨by linarith only [et.1, hU, hS0, hE], by linarith only [et.2, hU, hS0, hE]⟩
  clear et es' enc'
  generalize roundDouble (s + nc) = t at et' ⊢
  -- nt = fl (σ * t): within 18.5 U of σ * (da + db + σ * (db - da))
  have ent := step (σ * t) (σ * (da + db + σ * (db - da))) (4 * S + 15000000 * E) (14.4 * U)
    (by linarith only [hU1, hU0, hS0, hE])
    (by rcases hσ with rfl | rfl <;> linarith only [et'.1, et'.2])
    (by rcases hσ with rfl | rfl <;> linarith only [et'.1, et'.2])
    (by rcases hσ with rfl | rfl <;> linarith only [xa.1, xa.2, xb.1, xb.2, hE])
    (by rcases hσ with rfl | rfl <;> linarith only [xa.1, xa.2, xb.1, xb.2, hE])
  have ent' : -(18.5 * U) ≤ roundDouble (σ * t) - σ * (da + db + σ * (db - da)) ∧
      roundDouble (σ * t) - σ * (da + db + σ * (db - da)) ≤ 18.5 * U :=
    ⟨by linarith only [ent.1, hU, hS0, hE], by linarith only [ent.2, hU, hS0, hE]⟩
  clear ent et'
  generalize roundDouble (σ * t) = nt at ent' ⊢
  -- h = fl (nt / 2): within 11.3 U of σ * (da + db + σ * (db - da)) / 2
  have eh := step (nt / 2) (σ * (da + db + σ * (db - da)) / 2) (2 * S + 10000000 * E)
    (9.25 * U) (by linarith only [hU1, hU0, hS0, hE]) (by linarith only [ent'.1])
    (by linarith only [ent'.2])
    (by rcases hσ with rfl | rfl <;> linarith only [xa.1, xa.2, xb.1, xb.2, hE])
    (by rcases hσ with rfl | rfl <;> linarith only [xa.1, xa.2, xb.1, xb.2, hE])
  have eh' : -(11.3 * U) ≤ roundDouble (nt / 2) - σ * (da + db + σ * (db - da)) / 2 ∧
      roundDouble (nt / 2) - σ * (da + db + σ * (db - da)) / 2 ≤ 11.3 * U :=
    ⟨by linarith only [eh.1, hU, hS0, hE], by linarith only [eh.2, hU, hS0, hE]⟩
  clear eh ent'
  generalize roundDouble (nt / 2) = h at eh' ⊢
  -- r = fl (y2 + h): within 14.4 U of y2 + σ * (da + db + σ * (db - da)) / 2
  have er := step (y2 + h) (y2 + σ * (da + db + σ * (db - da)) / 2) (3 * S + 12000000 * E)
    (11.3 * U) (by linarith only [hU1, hU0, hS0, hE]) (by linarith only [eh'.1])
    (by linarith only [eh'.2])
    (by rcases hσ with rfl | rfl <;> linarith only [xa.1, xa.2, xb.1, xb.2, y2b.1, y2b.2, hE])
    (by rcases hσ with rfl | rfl <;> linarith only [xa.1, xa.2, xb.1, xb.2, y2b.1, y2b.2, hE])
  rw [abs_le]
  exact ⟨by linarith only [er.1, hU, hS0, hE], by linarith only [er.2, hU, hS0, hE]⟩

/-- Without a discontinuity at either end the function in double arithmetic is the rounded
quadratic on the samples as they are. -/
lemma interpolateCoordinatesDouble_eq (n y1 y2 y3 : α) (d1 : ¬ isDiscontinuous y1 y2)
    (d3 : ¬ isDiscontinuous y3 y2) :
    interpolateCoordinatesDouble n y1 y2 y3 =
      roundDouble (y2 + roundDouble (roundDouble (n * roundDouble
        (roundDouble (roundDouble (y2 - y1) + roundDouble (y3 - y2)) +
          roundDouble (n * roundDouble (roundDouble (y3 - y2) - roundDouble (y2 - y1))))) /
            2)) := by
  unfold interpolateCoordinatesDouble
  rw [if_neg (mt (isDiscontinuous_iff y1 y2).mp d1), if_neg (mt (isDiscontinuous_iff y3 y2).mp d3)]

end DoubleInterpolation

/-! ## The transit of 5 November 2000 at longitude 180 degrees east -/

section TransitNovember

open Real

/-- In the third quadrant of the apparent longitude (here 221.5 to 224 degrees) the right
ascension that `atan2` returns is negative: it is the arc tangent minus 180 degrees, at least
-142 and below the longitude minus 360 degrees. -/
lemma rtAscension_third_quadrant (ε lam : ℝ) (hε1 : 23.4 ≤ ε) (hε2 : ε ≤ 23.48)
    (h1 : 221.5 ≤ lam) (h2 : lam ≤ 224) :
    -142 ≤ degrees (atan2 (cos (radians ε) * sin (radians lam)) (cos (radians lam))) ∧
      degrees (atan2 (cos (radians ε) * sin (radians lam)) (cos (radians lam))) <
        lam - 360 := by
  have hpi1 := pi_gt_d2
  have hpi2 := pi_lt_d2
  have hx := radians_bounds_of (x := lam - 180) 41.5 44 (by norm_num)
    (by linarith only [h1]) (by linarith only [h2])
  have hlam : radians lam = radians (lam - 180) + π := by unfold radians; ring
  have hd := degrees_radians (lam - 360)
  have hd38 := degrees_radians (38 - 180 * 1)
  have h38 := radians_bounds_of (x := 38) 38 38 (by norm_num) (le_refl _) (le_refl _)
  have he1 := radians_lower (x := ε) (a := 23.4) (by norm_num) hε1
  have he2 := radians_upper (x := ε) (b := 23.48) (by norm_num) hε2
  have hxd : radians (lam - 180) - 1 * π = radians (lam - 180 - 180 * 1) :=
    radians_sub_mul_pi _ _
  have h38d : radians 38 - 1 * π = radians (38 - 180 * 1) := radians_sub_mul_pi _ _
  rw [hlam, cos_add_pi, sin_add_pi]
  generalize radians (lam - 180) = x at hx hxd ⊢
  generalize radians ε = e at he1 he2 ⊢
  generalize radians 38 = y at h38 h38d
  have tx := tan_bounds_of (x := x) 0.72431 0.76795 0.884 1 (by norm_num)
    (by linarith only [hx.1]) (by linarith only [hx.2]) (by norm_num) (by norm_num)
    (by norm_num) (by norm_num) (by norm_num)
  have ty := tan_bounds_of (x := y) 0.663224 0.663226 0.78 0.7814 (by norm_num)
    (by linarith only [h38.1]) (by linarith only [h38.2]) (by norm_num) (by norm_num)
    (by norm_num) (by norm_num) (by norm_num)
  have hx0 : 0 < x := by linarith only [hx.1]
  have hxpi : x < π / 2 := by linarith only [hx.2, hpi1]
  have hcx : 0 < cos x := cos_pos_of_mem_Ioo ⟨by linarith only [hx0, hpi1], hxpi⟩
  have hsx : 0 < sin x := sin_pos_of_pos_of_lt_pi hx0 (by linarith only [hxpi, hpi1])
  have hce := cos_ge_of_abs_le (u := e) (b := 0.4109) (by linarith only [he1])
    (by linarith only [he2])
  have hc1 : 0 < cos e := lt_of_lt_of_le (by norm_num) hce
  have hc2 : cos e < 1 := by
    have := cos_lt_cos_of_nonneg_of_le_pi_div_two (le_refl 0)
      (show e ≤ π / 2 by linarith only [he2, hpi1]) (show (0 : ℝ) < e by linarith only [he1])
    rwa [cos_zero] at this
  have htan : 0 < tan x := lt_of_lt_of_le (by norm_num) tx.1
  have hval : atan2 (cos e * -sin x) (-cos x) = arctan (cos e * tan x) - π := by
    unfold atan2
    rw [if_neg (by linarith only [hcx]), if_pos (by linarith only [hcx]),
      if_neg (not_le.mpr (mul_neg_of_pos_of_neg hc1 (neg_lt_zero.mpr hsx))), tan_eq_sin_div_cos]
    congr 2
    field_simp
  rw [hval]
  have hi : arctan (cos e * tan x) < x := by
    have := arctan_strictMono (mul_lt_of_lt_one_left htan hc2)
    rwa [arctan_tan (by linarith only [hx0, hpi1]) hxpi] at this
  have lo : y ≤ arctan (cos e * tan x) := by
    have hz : tan y ≤ cos e * tan x := by
      have := mul_le_mul hce tx.1 (by norm_num) hc1.le
      linarith only [this, ty.2]
    have := arctan_strictMono.monotone hz
    rwa [arctan_tan (by linarith only [h38.1, hpi1]) (by linarith only [h38.2, hpi1])] at this
  constructor
  · have := degrees_le_degrees (show y - 1 * π ≤ arctan (cos e * tan x) - π by
      linarith only [lo])
    rw [h38d, hd38] at this
    linarith only [this]
  · have := degrees_lt_degrees (show arctan (cos e * tan x) - π < x - 1 * π by
      linarith only [hi])
    rw [hxd, show lam - 180 - 180 * 1 = lam - 360 by ring, hd] at this
    exact this

/-- The equation of the centre in the first days of November 2000, where the mean anomaly is
near 301 degrees and its sine is below -0.83. -/
lemma calcSunEqOfCenter_nov2000 (T : ℝ) (h1 : 307.5 / 36525 ≤ T) (h2 : T ≤ 309.5 / 36525) :
    -1.95 ≤ calcSunEqOfCenter T ∧ calcSunEqOfCenter T ≤ -1.55 := by
  have hlo := (abs_le.mp (abs_calcSunEqOfCenter_le T (by linarith only [h1])
    (by linarith only [h2]))).1
  refine ⟨hlo, ?_⟩
  have hq1 : 35999 ≤ 35999.05029 - 0.0001537 * T := by linarith only [h2]
  have hq2 : 35999.05029 - 0.0001537 * T ≤ 35999.06 := by linarith only [h1]
  have hp1 : 307.5 / 36525 * 35999 ≤ T * (35999.05029 - 0.0001537 * T) :=
    mul_le_mul h1 hq1 (by norm_num) (by linarith only [h1])
  have hp2 : T * (35999.05029 - 0.0001537 * T) ≤ 309.5 / 36525 * 35999.06 :=
    mul_le_mul h2 hq2 (by linarith only [hq1]) (by norm_num)
  have hM1 : (30 : ℝ) ≤ calcGeomMeanAnomalySun T - 630 := by
    unfold calcGeomMeanAnomalySun; linarith only [hp1]
  have hM2 : calcGeomMeanAnomalySun T - 630 ≤ 33 := by
    unfold calcGeomMeanAnomalySun; linarith only [hp2]
  have hr1 := radians_lower (x := calcGeomMeanAnomalySun T - 630) (a := 30) (by norm_num) hM1
  have hr2 := radians_upper (x := calcGeomMeanAnomalySun T - 630) (b := 33) (by norm_num) hM2
  have hsub : radians (calcGeomMeanAnomalySun T) - 7 * π / 2 =
      radians (calcGeomMeanAnomalySun T - 630) := by unfold radians; ring
  have hc := cos_ge_of_abs_le (u := radians (calcGeomMeanAnomalySun T - 630)) (b := 0.5775)
    (by linarith only [hr1]) (by linarith only [hr2])
  have hk1 : 1.9145 ≤ 1.914602 - T * (0.004817 + 0.000014 * T) := by
    have : T * (0.004817 + 0.000014 * T) ≤ 309.5 / 36525 * 0.005 :=
      mul_le_mul h2 (by linarith only [h2]) (by linarith only [h1]) (by norm_num)
    linarith only [this]
  have hk2 : 0 ≤ 0.019993 - 0.000101 * T := by linarith only [h2]
  have hk2' : 0.019993 - 0.000101 * T ≤ 0.02 := by linarith only [h1]
  unfold calcSunEqOfCenter
  simp only []
  rw [sin_eq_neg_cos_sub (radians (calcGeomMeanAnomalySun T)), hsub]
  generalize cos (radians (calcGeomMeanAnomalySun T - 630)) = c at hc ⊢
  generalize 1.914602 - T * (0.004817 + 0.000014 * T) = k1 at hk1 ⊢
  generalize 0.019993 - 0.000101 * T = k2 at hk2 hk2' ⊢
  have b := mul_sin_bound (sin (2 * radians (calcGeomMeanAnomalySun T))) k2
    (neg_one_le_sin _) (sin_le_one _) hk2
  have d := mul_sin_bound (sin (3 * radians (calcGeomMeanAnomalySun T))) 0.000289
    (neg_one_le_sin _) (sin_le_one _) (by norm_num)
  have a : 0.833 * 1.9145 ≤ c * k1 := mul_le_mul (by linarith only [hc]) hk1 (by norm_num)
    (le_trans (by norm_num) hc)
  linarith only [a, b.2, d.2, hk2']

/-- The right ascension at 0h UT of 4, 5 and 6 November 2000: between -142 degrees and the
mean longitude minus 361.55 degrees. -/
lemma calcSunRtAscension_nov2000 (T : ℝ) (h1 : 307.5 / 36525 ≤ T) (h2 : T ≤ 309.5 / 36525) :
    -142 ≤ calcSunRtAscension T ∧
      calcSunRtAscension T < 280.46646 + T * (36000.76983 + 0.0003032 * T) - 721.55 := by
  have hq1 : 36000 ≤ 36000.76983 + 0.0003032 * T := by linarith only [h1]
  have hq2 : 36000.76983 + 0.0003032 * T ≤ 36000.77 := by linarith only [h2]
  have hp1 : 307.5 / 36525 * 36000 ≤ T * (36000.76983 + 0.0003032 * T) :=
    mul_le_mul h1 hq1 (by norm_num) (by linarith only [h1])
  have hp2 : T * (36000.76983 + 0.0003032 * T) ≤ 309.5 / 36525 * 36000.77 :=
    mul_le_mul h2 hq2 (by linarith only [hq1]) (by norm_num)
  have hL : calcGeomMeanLongSun T =
      280.46646 + T * (36000.76983 + 0.0003032 * T) - 360 := by
    unfold calcGeomMeanLongSun
    rw [fmod_eq_of_nonneg 1 (by norm_num) (by norm_num) (by linarith only [hp1])
      (by linarith only [hp2])]
    norm_num
  have hC := calcSunEqOfCenter_nov2000 T h1 h2
  have he := calcObliquityCorrection1_bounds T (by linarith only [h1]) (by linarith only [h2])
  have s1 := neg_one_le_sin (radians (125.04 - 1934.136 * T))
  have s2 := sin_le_one (radians (125.04 - 1934.136 * T))
  have hlam : calcSunApparentLong T = calcSunEqOfCenter T + calcGeomMeanLongSun T - 0.00569 -
      0.00478 * sin (radians (125.04 - 1934.136 * T)) := rfl
  have hra := rtAscension_third_quadrant (calcObliquityCorrection1 T) (calcSunApparentLong T)
    he.1 he.2 (by rw [hlam, hL]; linarith only [hC.1, s2, hp1])
    (by rw [hlam, hL]; linarith only [hC.2, s1, hp2])
  unfold calcSunRtAscension
  simp only []
  refine ⟨hra.1, lt_of_lt_of_le hra.2 ?_⟩
  rw [hlam, hL]
  linarith only [hC.2, s1]

/-- The apparent sidereal time at Greenwich on 5 November 2000, 0h UT. -/
lemma siderealTime_20001105 :
    44.52 < calcApparentSiderealTime 2451853.5 ∧ calcApparentSiderealTime 2451853.5 < 44.54 := by
  have n := abs_le.mp (abs_calcNutationRtAscension_le (calcJulianCent 2451853.5))
  have hm : calcMeanSiderealTime (2451853.5 : ℝ) =
      100.46061837 + (308.5 / 36525) * (36000.770053608 + (308.5 / 36525) *
        (0.000387933 - (308.5 / 36525) / 38710000)) - 360 := by
    unfold calcMeanSiderealTime calcJulianCent
    simp only []
    rw [fmod_eq_of_nonneg 1 (by norm_num) (by norm_num) (by norm_num) (by norm_num)]
    norm_num
  have v1 : (44.526 : ℝ) ≤ 100.46061837 + (308.5 / 36525) * (36000.770053608 +
      (308.5 / 36525) * (0.000387933 - (308.5 / 36525) / 38710000)) - 360 := by norm_num
  have v2 : 100.46061837 + (308.5 / 36525) * (36000.770053608 + (308.5 / 36525) *
        (0.000387933 - (308.5 / 36525) / 38710000)) - 360 ≤ (44.534 : ℝ) := by norm_num
  unfold calcApparentSiderealTime
  simp only []
  rw [hm]
  generalize calcNutationRtAscension (calcJulianCent 2451853.5) = x at n ⊢
  generalize 100.46061837 + (308.5 / 36525) * (36000.770053608 + (308.5 / 36525) *
        (0.000387933 - (308.5 / 36525) / 38710000)) - 360 = g at v1 v2 ⊢
  exact ⟨by linarith only [v1, n.1], by linarith only [v2, n.2]⟩

/-- Three samples between -142 and -136 and a small interpolating factor: the interpolated
value stays near the middle sample. -/
lemma interpolateCoordinates_near_middle {n y1 y2 y3 : ℝ} (hn1 : -0.02 ≤ n) (hn2 : n ≤ 0)
    (h1 : -142 ≤ y1) (h1' : y1 < -136) (h2 : -142 ≤ y2) (h2' : y2 < -136) (h3 : -142 ≤ y3)
    (h3' : y3 < -136) : |interpolateCoordinates n y1 y2 y3 - y2| ≤ 0.07 := by
  rw [interpolateCoordinates_of_neg n y1 y2 y3 (by linarith only [h1'])
    (by linarith only [h2']) (by linarith only [h3'])]
  have hs : |y3 - y1| ≤ 6 := by
    rw [abs_le]; constructor <;> linarith only [h1, h1', h3, h3']
  have hc : |y3 + y1 - 2 * y2| ≤ 12 := by
    rw [abs_le]; constructor <;> linarith only [h1, h1', h2, h2', h3, h3']
  have hn : |n| ≤ 0.02 := abs_le.mpr ⟨by linarith only [hn1], by linarith only [hn2]⟩
  have hnc := abs_mul_le_mul hn hc
  have hsum : |y3 - y1 + n * (y3 + y1 - 2 * y2)| ≤ 6 + 0.02 * 12 :=
    le_trans (abs_add _ _) (add_le_add hs hnc)
  have hprod := abs_mul_le_mul hn hsum
  have e : y2 + n * ((y2 - y1) + (y3 - y2) + n * ((y3 - y2) - (y2 - y1))) / 2 - y2 =
      n * (y3 - y1 + n * (y3 + y1 - 2 * y2)) / 2 := by ring
  rw [e, abs_div, abs_of_pos (show (0 : ℝ) < 2 by norm_num), div_le_iff₀ (by norm_num)]
  exact le_trans hprod (by norm_num)

/-- The arithmetic of one transit correction at longitude 180: the hour angle is near 360
degrees, so `m0 + transit_corr` is below -1 and one added day leaves it negative. -/
lemma transit_pass_core (a θ ta m : ℝ) (ha1 : -142 ≤ a) (ha2 : a < -137)
    (hθ1 : 44.52 < θ) (hθ2 : θ < 44.54) (hm1 : -0.019 ≤ m) (hm2 : m ≤ -0.0039)
    (hta : |ta - a| ≤ 0.07) :
    (0 ≤ θ + 360.985647 * m ∧ θ + 360.985647 * m < 360) ∧
      m + (-(θ + 360.985647 * m + 180 - ta)) / 360 < -1 ∧
      -0.019 ≤ m + (-(θ + 360.985647 * m + 180 - ta)) / 360 + 1 ∧
      m + (-(θ + 360.985647 * m + 180 - ta)) / 360 + 1 ≤ -0.0039 := by
  have ht := abs_le.mp hta
  refine ⟨⟨by linarith only [hm1, hθ1], by linarith only [hm2, hθ2]⟩,
    by linarith only [hm1, hm2, hθ1, ht.2, ha2], by linarith only [hm1, hm2, hθ2, ht.1, ha1],
    by linarith only [hm1, hm2, hθ1, ht.2, ha2]⟩

lemma jd_20001105 : (calcJulianDay 2000 11 5 : ℝ) = 2451853.5 := by
  norm_num [calcJulianDay, wrapInt]

lemma deltaT_2000_11 : 0 ≤ calcDeltaT (2000 : ℝ) 11 ∧ calcDeltaT (2000 : ℝ) 11 ≤ 86.4 := by
  norm_num [calcDeltaT, deltaT1986]

/-- The values that `calcSunriseSunset` computes for 5 November 2000 at longitude 180 degrees
east before its loop: three right ascensions near -139 degrees and a sidereal time near 44.5
degrees.  They do not depend on the latitude and the altitude. -/
lemma dayData_20001105 (latitude altitude : ℝ) :
    (-142 ≤ (dayData 2000 11 5 latitude 180 altitude).alpha1 ∧
      (dayData 2000 11 5 latitude 180 altitude).alpha1 < -136) ∧
    (-142 ≤ (dayData 2000 11 5 latitude 180 altitude).alpha2 ∧
      (dayData 2000 11 5 latitude 180 altitude).alpha2 < -137) ∧
    (-142 ≤ (dayData 2000 11 5 latitude 180 altitude).alpha3 ∧
      (dayData 2000 11 5 latitude 180 altitude).alpha3 < -136) ∧
    (44.52 < (dayData 2000 11 5 latitude 180 altitude).theta0 ∧
      (dayData 2000 11 5 latitude 180 altitude).theta0 < 44.54) ∧
    (0 ≤ (dayData 2000 11 5 latitude 180 altitude).delta_t ∧
      (dayData 2000 11 5 latitude 180 altitude).delta_t ≤ 86.4) ∧
    (dayData 2000 11 5 latitude 180 altitude).longitude = 180 := by
  have t1 : calcJulianCent ((2451853.5 : ℝ) - 1) = 307.5 / 36525 := by
    norm_num [calcJulianCent]
  have t2 : calcJulianCent (2451853.5 : ℝ) = 308.5 / 36525 := by
    norm_num [calcJulianCent]
  have t3 : calcJulianCent ((2451853.5 : ℝ) + 1) = 309.5 / 36525 := by
    norm_num [calcJulianCent]
  have a1 := calcSunRtAscension_nov2000 (307.5 / 36525) (by norm_num) (by norm_num)
  have a2 := calcSunRtAscension_nov2000 (308.5 / 36525) (by norm_num) (by norm_num)
  have a3 := calcSunRtAscension_nov2000 (309.5 / 36525) (by norm_num) (by norm_num)
  have th := siderealTime_20001105
  have dt := deltaT_2000_11
  simp only [dayData, jd_20001105, t1, t2, t3, Int.cast_ofNat]
  exact ⟨⟨a1.1, lt_trans a1.2 (by norm_num)⟩, ⟨a2.1, lt_trans a2.2 (by norm_num)⟩,
    ⟨a3.1, lt_trans a3.2 (by norm_num)⟩, th, dt, trivial⟩

/-- One pass of the loop on a transit fraction between -0.019 and -0.0039 stores a fraction
in the same range: the wrapped sum is again negative. -/
lemma transit_pass_20001105 (latitude altitude m : ℝ) (hm1 : -0.019 ≤ m) (hm2 : m ≤ -0.0039) :
    m + transitCorr (dayData 2000 11 5 latitude 180 altitude) m < -1 ∧
    -0.019 ≤ between0And1 (m + transitCorr (dayData 2000 11 5 latitude 180 altitude) m) ∧
      between0And1 (m + transitCorr (dayData 2000 11 5 latitude 180 altitude) m) ≤ -0.0039 := by
  obtain ⟨a1, a2, a3, th, dt, hl⟩ := dayData_20001105 latitude altitude
  generalize dayData 2000 11 5 latitude 180 altitude = d at a1 a2 a3 th dt hl ⊢
  unfold transitCorr
  simp only [hl]
  have hi := interpolateCoordinates_near_middle (n := m + d.delta_t / 86400)
    (by linarith only [hm1, dt.1]) (by linarith only [hm2, dt.2]) a1.1 a1.2 a2.1
    (lt_trans a2.2 (by norm_num)) a3.1 a3.2
  have hcore := transit_pass_core d.alpha2 d.theta0
    (interpolateCoordinates (m + d.delta_t / 86400) d.alpha1 d.alpha2 d.alpha3) m
    a2.1 a2.2 th.1 th.2 hm1 hm2 hi
  have hs : calcSiderealTimeInstant d.theta0 m = d.theta0 + 360.985647 * m := by
    unfold calcSiderealTimeInstant
    rw [fmod_eq_of_nonneg 0 (by norm_num) (le_refl 0) (by simpa using hcore.1.1)
      (by simpa using hcore.1.2)]
    simp
  rw [hs, between0And1_of_neg (lt_trans hcore.2.1 (by norm_num))]
  exact hcore.2

/-- The first estimate of the transit: the unwrapped quotient is below -1, and
`between0And1` adds 1 only once. -/
lemma transit_approx_20001105 (latitude altitude : ℝ) :
    ((dayData 2000 11 5 latitude 180 altitude).alpha2 -
      (dayData 2000 11 5 latitude 180 altitude).longitude -
      (dayData 2000 11 5 latitude 180 altitude).theta0) / 360 < -1 ∧
    -0.019 ≤ (approxTimes (dayData 2000 11 5 latitude 180 altitude) false).m0 ∧
      (approxTimes (dayData 2000 11 5 latitude 180 altitude) false).m0 ≤ -0.0039 := by
  obtain ⟨-, a2, -, th, -, hl⟩ := dayData_20001105 latitude altitude
  generalize dayData 2000 11 5 latitude 180 altitude = d at a2 th hl ⊢
  have hu : (d.alpha2 - d.longitude - d.theta0) / 360 < -1 := by
    rw [hl, div_lt_iff₀ (by norm_num)]; linarith only [a2.2, th.1]
  refine ⟨hu, ?_⟩
  simp only [approxTimes]
  rw [between0And1_of_neg (lt_trans hu (by norm_num)), hl]
  constructor
  · rw [← sub_le_iff_le_add, le_div_iff₀ (by norm_num)]; linarith only [a2.1, th.2]
  · rw [← le_sub_iff_add_le, div_le_iff₀ (by norm_num)]; linarith only [a2.2, th.1]

end TransitNovember

/-! ## Claim C2: the range of the non-local results -/

/-- C2 (the code against the claim): on 5 November 2000 at longitude 180 degrees east, in
non-local mode, for every latitude and altitude, the transit that `calcSunriseSunset` hands
back is negative, between -0.019 and -0.0039 (about -0.0114), so it is not in `[0, 1)`.  The
unwrapped first estimate `(alpha2 - longitude - theta0) / 360` is below -1 there, because the
right ascension from `atan2` is negative (about -139.6 degrees), and `between0And1` adds 1 only
once; each of the two passes of the loop wraps a sum that is below -1 again.  On the function
itself: `between0And1 1` is 1, which is not below 1 (the test is `n > 1`), and in double
arithmetic `between0And1 (-2 ^ (-60))` is 1 as well, the sum `n + 1` being rounded to 1. -/
theorem calcSunriseSunset_transit_negative :
    (validDate 2000 11 5 ∧ ∀ latitude altitude : ℝ,
      ((dayData 2000 11 5 latitude 180 altitude).alpha2 -
        (dayData 2000 11 5 latitude 180 altitude).longitude -
        (dayData 2000 11 5 latitude 180 altitude).theta0) / 360 < -1 ∧
      ∃ t : ℝ, (calcSunriseSunset 2000 11 5 latitude 180 altitude false).transit = some t ∧
        -0.019 ≤ t ∧ t ≤ -0.0039 ∧ ¬ (0 ≤ t)) ∧
    ((-1 : ℝ) ≤ 1 ∧ (1 : ℝ) < 2 ∧ between0And1 (1 : ℝ) = 1 ∧ ¬ (between0And1 (1 : ℝ) < 1)) ∧
    (roundDouble (-(1 / 2 ^ 60) : ℚ) = -(1 / 2 ^ 60) ∧
      between0And1Double (-(1 / 2 ^ 60) : ℚ) = 1 ∧
      ¬ (between0And1Double (-(1 / 2 ^ 60) : ℚ) < 1)) := by
  refine ⟨⟨by decide, fun latitude altitude => ?_⟩, by norm_num [between0And1, ind], ?_⟩
  · have h0 := transit_approx_20001105 latitude altitude
    have h1 := transit_pass_20001105 latitude altitude _ h0.2.1 h0.2.2
    have h2 := transit_pass_20001105 latitude altitude _ h1.2.1 h1.2.2
    exact ⟨h0.1, _, rfl, h2.2.1, h2.2.2, not_le.mpr (lt_of_le_of_lt h2.2.2 (by norm_num))⟩
  · have e0 : roundDouble (-(1 / 2 ^ 60) : ℚ) = -(1 / 2 ^ 60) := by
      rw [roundDouble_eq_of (-60) (-4503599627370496) (by norm_num)
        (by norm_num [abs_of_pos]) (by norm_num [abs_of_pos])
        (by norm_num [abs_of_pos, abs_of_neg]) (by norm_num [abs_of_pos, abs_of_neg])]
      norm_num
    have e1 : roundDouble ((-(1 / 2 ^ 60) : ℚ) + 1) = 1 := by
      rw [roundDouble_eq_of (-1) 9007199254740992 (by norm_num)
        (by norm_num [abs_of_pos]) (by norm_num [abs_of_pos])
        (by norm_num [abs_of_pos, abs_of_neg]) (by norm_num [abs_of_pos, abs_of_neg])]
      norm_num
    have e2 : roundDouble (1 : ℚ) = 1 := by
      rw [roundDouble_eq_of 0 4503599627370496 (by norm_num)
        (by norm_num [abs_of_pos]) (by norm_num [abs_of_pos])
        (by norm_num [abs_of_pos, abs_of_neg]) (by norm_num [abs_of_pos, abs_of_neg])]
      norm_num
    have e3 : between0And1Double (-(1 / 2 ^ 60) : ℚ) = 1 := by
      unfold between0And1Double ind
      rw [if_pos (by norm_num), if_neg (by norm_num), e1, sub_zero, e2]
    rw [e3]
    exact ⟨e0, rfl, lt_irrefl _⟩

/-! ## Claim C18: the interpolation at the three samples -/

/-- C18 (counterexample): in double arithmetic, on the doubles nearest to 0.1, 0.7 and 0.3
(three positive samples, so that the discontinuity correction does not trigger),
`interpolateCoordinates (-1, y1, y2, y3)` is `7205759403792792 / 2 ^ 56`, the double
0.09999999999999998, and not the first sample `7205759403792794 / 2 ^ 56`: the differences
`y2 - y1`, `b - a` and the sum `a + b - c` are rounded. -/
theorem interpolateCoordinatesDouble_misses_sample :
    roundDouble (0.1 : ℚ) = 3602879701896397 / 2 ^ 55 ∧
    roundDouble (0.7 : ℚ) = 3152519739159347 / 2 ^ 52 ∧
    roundDouble (0.3 : ℚ) = 5404319552844595 / 2 ^ 54 ∧
    ¬ isDiscontinuous (3602879701896397 / 2 ^ 55 : ℚ) (3152519739159347 / 2 ^ 52) ∧
    ¬ isDiscontinuous (5404319552844595 / 2 ^ 54 : ℚ) (3152519739159347 / 2 ^ 52) ∧
    interpolateCoordinatesDouble (-1 : ℚ) (3602879701896397 / 2 ^ 55)
      (3152519739159347 / 2 ^ 52) (5404319552844595 / 2 ^ 54) = 7205759403792792 / 2 ^ 56 ∧
    interpolateCoordinatesDouble (-1 : ℚ) (3602879701896397 / 2 ^ 55)
      (3152519739159347 / 2 ^ 52) (5404319552844595 / 2 ^ 54) ≠ 3602879701896397 / 2 ^ 55 := by
  have r1 : roundDouble (0.1 : ℚ) = 3602879701896397 / 2 ^ 55 := by
    rw [roundDouble_eq_of (-4) 7205759403792794 (by norm_num) (by norm_num [abs_of_pos])
      (by norm_num [abs_of_pos]) (by norm_num [abs_of_pos, abs_of_neg])
      (by norm_num [abs_of_pos, abs_of_neg])]
    norm_num
  have r2 : roundDouble (0.7 : ℚ) = 3152519739159347 / 2 ^ 52 := by
    rw [roundDouble_eq_of (-1) 6305039478318694 (by norm_num) (by norm_num [abs_of_pos])
      (by norm_num [abs_of_pos]) (by norm_num [abs_of_pos, abs_of_neg])
      (by norm_num [abs_of_pos, abs_of_neg])]
    norm_num
  have r3 : roundDouble (0.3 : ℚ) = 5404319552844595 / 2 ^ 54 := by
    rw [roundDouble_eq_of (-2) 5404319552844595 (by norm_num) (by norm_num [abs_of_pos])
      (by norm_num [abs_of_pos]) (by norm_num [abs_of_pos, abs_of_neg])
      (by norm_num [abs_of_pos, abs_of_neg])]
    norm_num
  have d1 : ¬ isDiscontinuous (3602879701896397 / 2 ^ 55 : ℚ) (3152519739159347 / 2 ^ 52) := by
    norm_num [isDiscontinuous]
  have d3 : ¬ isDiscontinuous (5404319552844595 / 2 ^ 54 : ℚ) (3152519739159347 / 2 ^ 52) := by
    norm_num [isDiscontinuous]
  -- a = fl (y2 - y1)
  have ea : roundDouble ((3152519739159347 / 2 ^ 52 : ℚ) - 3602879701896397 / 2 ^ 55) =
      5404319552844595 / 2 ^ 53 := by
    rw [roundDouble_eq_of (-1) 5404319552844595 (by norm_num) (by norm_num [abs_of_pos])
      (by norm_num [abs_of_pos]) (by norm_num [abs_of_pos, abs_of_neg])
      (by norm_num [abs_of_pos, abs_of_neg])]
    norm_num
  -- b = fl (y3 - y2)
  have eb : roundDouble ((5404319552844595 / 2 ^ 54 : ℚ) - 3152519739159347 / 2 ^ 52) =
      -(7205759403792793 / 2 ^ 54) := by
    rw [roundDouble_eq_of (-2) (-7205759403792793) (by norm_num) (by norm_num [abs_of_neg])
      (by norm_num [abs_of_neg]) (by norm_num [abs_of_pos, abs_of_neg])
      (by norm_num [abs_of_pos, abs_of_neg])]
    norm_num
  -- c = fl (b - a), a tie that goes to the even neighbour
  have ec : roundDouble ((-(7205759403792793 / 2 ^ 54) : ℚ) - 5404319552844595 / 2 ^ 53) =
      -1 := by
    rw [roundDouble_eq_of (-1) (-9007199254740992) (by norm_num) (by norm_num [abs_of_neg])
      (by norm_num [abs_of_neg]) (by norm_num [abs_of_pos, abs_of_neg])
      (by norm_num [abs_of_pos, abs_of_neg])]
    norm_num
  -- n * c
  have enc : roundDouble ((-1 : ℚ) * -1) = 1 := by
    rw [roundDouble_eq_of 0 4503599627370496 (by norm_num) (by norm_num [abs_of_pos])
      (by norm_num [abs_of_pos]) (by norm_num [abs_of_pos, abs_of_neg])
      (by norm_num [abs_of_pos, abs_of_neg])]
    norm_num
  -- s = fl (a + b)
  have es : roundDouble ((5404319552844595 / 2 ^ 53 : ℚ) + -(7205759403792793 / 2 ^ 54)) =
      3602879701896397 / 2 ^ 54 := by
    rw [roundDouble_eq_of (-3) 7205759403792794 (by norm_num) (by norm_num [abs_of_pos])
      (by norm_num [abs_of_pos]) (by norm_num [abs_of_pos, abs_of_neg])
      (by norm_num [abs_of_pos, abs_of_neg])]
    norm_num
  -- t = fl (s + n * c)
  have et : roundDouble ((3602879701896397 / 2 ^ 54 : ℚ) + 1) = 5404319552844595 / 2 ^ 52 := by
    rw [roundDouble_eq_of 0 5404319552844595 (by norm_num) (by norm_num [abs_of_pos])
      (by norm_num [abs_of_pos]) (by norm_num [abs_of_pos, abs_of_neg])
      (by norm_num [abs_of_pos, abs_of_neg])]
    norm_num
  -- n * t
  have ent : roundDouble ((-1 : ℚ) * (5404319552844595 / 2 ^ 52)) =
      -(5404319552844595 / 2 ^ 52) := by
    rw [roundDouble_eq_of 0 (-5404319552844595) (by norm_num) (by norm_num [abs_of_neg])
      (by norm_num [abs_of_neg]) (by norm_num [abs_of_pos, abs_of_neg])
      (by norm_num [abs_of_pos, abs_of_neg])]
    norm_num
  -- (n * t) / 2
  have eh : roundDouble ((-(5404319552844595 / 2 ^ 52) : ℚ) / 2) =
      -(5404319552844595 / 2 ^ 53) := by
    rw [roundDouble_eq_of (-1) (-5404319552844595) (by norm_num) (by norm_num [abs_of_neg])
      (by norm_num [abs_of_neg]) (by norm_num [abs_of_pos, abs_of_neg])
      (by norm_num [abs_of_pos, abs_of_neg])]
    norm_num
  -- y2 + (n * t) / 2
  have er : roundDouble ((3152519739159347 / 2 ^ 52 : ℚ) + -(5404319552844595 / 2 ^ 53)) =
      7205759403792792 / 2 ^ 56 := by
    rw [roundDouble_eq_of (-4) 7205759403792792 (by norm_num) (by norm_num [abs_of_pos])
      (by norm_num [abs_of_pos]) (by norm_num [abs_of_pos, abs_of_neg])
      (by norm_num [abs_of_pos, abs_of_neg])]
    norm_num
  have hv : interpolateCoordinatesDouble (-1 : ℚ) (3602879701896397 / 2 ^ 55)
      (3152519739159347 / 2 ^ 52) (5404319552844595 / 2 ^ 54) = 7205759403792792 / 2 ^ 56 := by
    rw [interpolateCoordinatesDouble_eq _ _ _ _ d1 d3, ea, eb, ec, enc, es, et, ent, eh, er]
  refine ⟨r1, r2, r3, d1, d3, hv, ?_⟩
  rw [hv]
  norm_num

/-- C18 (amended): when the discontinuity correction does not trigger (each end sample has
the sign of the middle one or a magnitude of at most 25) and the samples have magnitudes that
sum to at most `2 ^ 1000`, so that no operation overflows: in exact arithmetic the function
passes through the three samples at `n = -1, 0, 1`; in double arithmetic it returns the
middle sample itself at `n = 0` when that sample is a double, and at `n = -1` and `n = 1` a
double within `(|y1| + |y2| + |y3|) / 2 ^ 49 + 2 ^ (-1071)` of the first and of the last
sample, of magnitude below `2 ^ 1001`. -/
theorem interpolateCoordinates_through_samples {α : Type*} [LinearOrderedField α]
    [FloorRing α] (y1 y2 y3 : α) (h1 : (y1 < 0 ↔ y2 < 0) ∨ |y1| ≤ 25)
    (h3 : (y3 < 0 ↔ y2 < 0) ∨ |y3| ≤ 25) (hB : |y1| + |y2| + |y3| ≤ 2 ^ 1000) :
    (interpolateCoordinates (-1) y1 y2 y3 = y1 ∧ interpolateCoordinates 0 y1 y2 y3 = y2 ∧
      interpolateCoordinates 1 y1 y2 y3 = y3) ∧
    (roundDouble y2 = y2 → interpolateCoordinatesDouble 0 y1 y2 y3 = y2) ∧
    (|interpolateCoordinatesDouble (-1) y1 y2 y3 - y1| ≤
        (|y1| + |y2| + |y3|) / 2 ^ 49 + 2 ^ (-1071 : ℤ) ∧
      |interpolateCoordinatesDouble (-1) y1 y2 y3| < 2 ^ 1001) ∧
    (|interpolateCoordinatesDouble 1 y1 y2 y3 - y3| ≤
        (|y1| + |y2| + |y3|) / 2 ^ 49 + 2 ^ (-1071 : ℤ) ∧
      |interpolateCoordinatesDouble 1 y1 y2 y3| < 2 ^ 1001) := by
  have d1 : ¬ isDiscontinuous y1 y2 := by
    rintro ⟨h, h'⟩
    rcases h1 with h1 | h1
    · exact h h1
    · exact absurd h' (not_lt.mpr h1)
  have d3 : ¬ isDiscontinuous y3 y2 := by
    rintro ⟨h, h'⟩
    rcases h3 with h3 | h3
    · exact h h3
    · exact absurd h' (not_lt.mpr h3)
  have hex : interpolateCoordinates (-1) y1 y2 y3 = y1 ∧
      interpolateCoordinates 0 y1 y2 y3 = y2 ∧ interpolateCoordinates 1 y1 y2 y3 = y3 := by
    simp only [interpolateCoordinates_eq, shiftTowardMiddle, if_neg d1, if_neg d3,
      interpolateQuadratic]
    exact ⟨by ring, by ring, by ring⟩
  have hm := interpolateDouble_err (-1) y1 y2 y3 (Or.inr rfl)
  have hp := interpolateDouble_err 1 y1 y2 y3 (Or.inl rfl)
  rw [← interpolateCoordinatesDouble_eq (-1) y1 y2 y3 d1 d3,
    show y2 + -1 * ((y2 - y1) + (y3 - y2) + -1 * ((y3 - y2) - (y2 - y1))) / 2 = y1 by ring]
    at hm
  rw [← interpolateCoordinatesDouble_eq 1 y1 y2 y3 d1 d3,
    show y2 + 1 * ((y2 - y1) + (y3 - y2) + 1 * ((y3 - y2) - (y2 - y1))) / 2 = y3 by ring]
    at hp
  have hη : (2 : α) ^ (-1071 : ℤ) ≤ 1 := zpow_le_one_of_nonpos₀ (by norm_num) (by norm_num)
  have hfin : ∀ r y : α, |y| ≤ |y1| + |y2| + |y3| →
      |r - y| ≤ (|y1| + |y2| + |y3|) / 2 ^ 49 + 2 ^ (-1071 : ℤ) → |r| < 2 ^ 1001 := by
    intro r y hy hr
    have h := abs_sub_abs_le_abs_sub r y
    have hY0 := abs_nonneg y
    generalize |r| = R at h ⊢
    generalize |r - y| = D at h hr
    generalize |y| = Y at h hy hY0
    generalize |y1| + |y2| + |y3| = S at hB hy hr
    generalize (2 : α) ^ (-1071 : ℤ) = e at hη hr
    have h2 : (2 : α) ^ 1001 = 2 * 2 ^ 1000 := by rw [pow_succ]; ring
    have h3 : (4 : α) ≤ 2 ^ 1000 := by
      calc (4 : α) = 2 ^ 2 := by norm_num
        _ ≤ 2 ^ 1000 := pow_le_pow_right₀ (by norm_num) (by norm_num)
    rw [h2]
    generalize (2 : α) ^ 1000 = P at hB h3 ⊢
    linarith only [h, hy, hr, hB, hη, h3, hY0]
  refine ⟨hex, fun h2 => ?_, ⟨hm, hfin _ _ ?_ hm⟩, ⟨hp, hfin _ _ ?_ hp⟩⟩
  · rw [interpolateCoordinatesDouble_eq 0 y1 y2 y3 d1 d3]
    simp only [zero_mul, roundDouble_zero, zero_div, add_zero, h2]
  · linarith only [abs_nonneg y2, abs_nonneg y3]
  · linarith only [abs_nonneg y1, abs_nonneg y2]

/-- Witness of C18 (amended): the samples 10, -5, 20, of magnitude at most 25. -/
theorem interpolateCoordinates_through_samples_witness :
    (interpolateCoordinates (-1 : ℚ) 10 (-5) 20 = 10 ∧
      interpolateCoordinates (0 : ℚ) 10 (-5) 20 = -5 ∧
      interpolateCoordinates (1 : ℚ) 10 (-5) 20 = 20) ∧
    |interpolateCoordinatesDouble (-1 : ℚ) 10 (-5) 20 - 10| ≤
      (|(10 : ℚ)| + |(-5 : ℚ)| + |(20 : ℚ)|) / 2 ^ 49 + 2 ^ (-1071 : ℤ) :=
  ⟨(interpolateCoordinates_through_samples 10 (-5) 20 (Or.inr (by norm_num))
      (Or.inr (by norm_num)) (by norm_num [abs_of_pos, abs_of_neg])).1,
    (interpolateCoordinates_through_samples 10 (-5) 20 (Or.inr (by norm_num))
      (Or.inr (by norm_num)) (by norm_num [abs_of_pos, abs_of_neg])).2.2.1.1⟩

end SolarCalculator
